import Mathlib

/-!
# Turso Terraform provider: resource reconciliation

A shallow embedding of `internal/provider`: the four managed resources
(database, database configuration, database token, API token) with their
Create / Read / Update / Delete entry points, written as pure functions from a
request, the response under construction and the remote client to the finished
response together with the trace of remote calls that were performed.

The generated HTTP client (`internal/client`) and the plugin framework are
collaborators of the provider: the client is a record of answer functions, and
the framework values (`types.String`, diagnostics, state) are small data types.
-/

/-! ## Framework values -/

/-- A `types.String` of the plugin framework: null, unknown, or a known value. -/
inductive TypesString where
  | null
  | unknown
  | value (s : String)
deriving DecidableEq, Repr

/-- A `types.Bool` of the plugin framework: null, unknown, or a known value. -/
inductive TypesBool where
  | null
  | unknown
  | value (b : Bool)
deriving DecidableEq, Repr

/-- `ValueString` yields the known value, and the empty string for null or unknown. -/
def TypesString.ValueString : TypesString → String
  | .value s => s
  | _ => ""

/-- `ValueBool` yields the known value, and false for null or unknown. -/
def TypesBool.ValueBool : TypesBool → Bool
  | .value b => b
  | _ => false

/-- `types.StringValue` builds a known string. -/
def types.StringValue (s : String) : TypesString := TypesString.value s

/-- `types.BoolValue` builds a known boolean. -/
def types.BoolValue (b : Bool) : TypesBool := TypesBool.value b

namespace diag

/-- Severity of a diagnostic. -/
inductive Severity where
  | Error
  | Warning
deriving DecidableEq, Repr

/-- One diagnostic: severity, short summary, detail text. -/
structure Diagnostic where
  severity : Severity
  summary : String
  detail : String
deriving DecidableEq, Repr

/-- The ordered collection of diagnostics carried by a response. -/
abbrev Diagnostics := List Diagnostic

/-- `HasError` holds when some diagnostic of the collection is an error. -/
def Diagnostics.HasError (diags : Diagnostics) : Bool :=
  diags.any (fun d => decide (d.severity = Severity.Error))

/-- `Contains` holds when an equal diagnostic is already in the collection. -/
def Diagnostics.Contains (diags : Diagnostics) (d : Diagnostic) : Bool :=
  diags.any (fun e => decide (e = d))

/-- `Append` adds the given diagnostics in order, skipping any that the
collection already contains. -/
def Diagnostics.Append (diags : Diagnostics) (inp : List Diagnostic) : Diagnostics :=
  inp.foldl (fun acc d => if Diagnostics.Contains acc d then acc else acc ++ [d]) diags

/-- `AddError` appends one error diagnostic with the given summary and detail. -/
def Diagnostics.AddError (diags : Diagnostics) (summary detail : String) : Diagnostics :=
  Diagnostics.Append diags [{ severity := Severity.Error, summary := summary, detail := detail }]

end diag

namespace tfsdk

/-- Decoding a plan or state that conforms to the schema into the resource's
model: the model is the decoded value and no diagnostic arises. -/
def Get {σ : Type} (v : σ) : σ × diag.Diagnostics := (v, [])

/-- `State.Set` replaces the entire state by the given model value. -/
def Set {σ : Type} (_st : Option σ) (v : σ) : Option σ × diag.Diagnostics := (some v, [])

end tfsdk

namespace resource

/-- Create request: the planned values. -/
structure CreateRequest (σ : Type) where
  Plan : σ

/-- Read request: the prior state. -/
structure ReadRequest (σ : Type) where
  State : σ

/-- Update request: the planned values and the prior state. -/
structure UpdateRequest (σ : Type) where
  Plan : σ
  State : σ

/-- Delete request: the prior state. -/
structure DeleteRequest (σ : Type) where
  State : σ

/-- Import request: the identifier given by the user. -/
structure ImportStateRequest where
  ID : String

/-- The response of an entry point: the state (none while nothing has been
written) and the diagnostics accumulated so far. -/
structure Response (σ : Type) where
  State : Option σ
  Diagnostics : diag.Diagnostics

end resource

namespace resource

/-- Metadata request of a resource: the type name of the provider. -/
structure MetadataRequest where
  ProviderTypeName : String

/-- Metadata response of a resource: its type name. -/
structure MetadataResponse where
  TypeName : String

end resource

namespace datasource

/-- Metadata request of a data source: the type name of the provider. -/
structure MetadataRequest where
  ProviderTypeName : String

/-- Metadata response of a data source: its type name. -/
structure MetadataResponse where
  TypeName : String

end datasource

namespace schema

/-- The kind of value an attribute holds. -/
inductive Kind where
  | String
  | Bool
deriving DecidableEq, Repr

/-- One attribute of a resource schema: its name (the key of the attribute map),
its kind, the flags `Required`, `Optional`, `Computed` and `Sensitive`, and which
of the plan modifiers `RequiresReplace` and `UseStateForUnknown` it lists. -/
structure Attribute where
  Name : String
  Kind : Kind
  Required : Bool
  Optional : Bool
  Computed : Bool
  Sensitive : Bool
  RequiresReplace : Bool
  UseStateForUnknown : Bool
deriving DecidableEq, Repr

/-- The value of one attribute in a plan or a state. -/
inductive Value where
  | string (v : TypesString)
  | bool (v : TypesBool)
  | missing
deriving DecidableEq, Repr

end schema

/-! ## The remote client -/

namespace client

/-- An optional value of the generated client: a value and a flag telling
whether it is set. -/
structure Opt (α : Type) where
  Value : α
  Set : Bool
deriving DecidableEq, Repr

/-- Optional string of the generated client. -/
abbrev OptString := Opt String

/-- Optional boolean of the generated client. -/
abbrev OptBool := Opt Bool

/-- Modelled from the spec: the generated client is not among the sources. Its
`NewOptString` returns the optional that holds the given string and is marked as
set. -/
def NewOptString (v : String) : OptString := { Value := v, Set := true }

/-- Modelled from the spec: the generated client is not among the sources. Its
`NewOptBool` returns the optional that holds the given boolean and is marked as
set. -/
def NewOptBool (v : Bool) : OptBool := { Value := v, Set := true }

/-- The zero value of an optional string: unset, empty. -/
def OptString.zero : OptString := { Value := "", Set := false }

/-- The zero value of an optional boolean: unset, false. -/
def OptBool.zero : OptBool := { Value := false, Set := false }

/-- Body of the database creation request. -/
structure CreateDatabaseInput where
  Name : String
  Group : String
  SizeLimit : OptString
  Schema : OptString
  IsSchema : OptBool
deriving DecidableEq, Repr

/-- Path parameters of the database creation request. -/
structure CreateDatabaseParams where
  OrganizationSlug : String
deriving DecidableEq, Repr

/-- The database object carried by the responses; the fields the provider reads. -/
structure Database where
  DbId : OptString
  Hostname : OptString
  Group : OptString
deriving DecidableEq, Repr

/-- Successful answer of the database creation call. -/
structure CreateDatabaseOK where
  Database : Opt Database
deriving DecidableEq, Repr

/-- Answer variants of the database creation call: the OK one and any other
variant returned without a transport error. -/
inductive CreateDatabaseRes where
  | CreateDatabaseOK (p : client.CreateDatabaseOK)
  | Other
deriving DecidableEq, Repr

/-- Path parameters of the database lookup. -/
structure GetDatabaseParams where
  OrganizationSlug : String
  DatabaseName : String
deriving DecidableEq, Repr

/-- Successful answer of the database lookup. -/
structure GetDatabaseOK where
  Database : Opt Database
deriving DecidableEq, Repr

/-- Answer variants of the database lookup. -/
inductive GetDatabaseRes where
  | GetDatabaseOK (p : client.GetDatabaseOK)
  | Other
deriving DecidableEq, Repr

/-- Body of the configuration update request. -/
structure DatabaseConfigurationInput where
  SizeLimit : OptString
  BlockReads : OptBool
  BlockWrites : OptBool
  DeleteProtection : OptBool
deriving DecidableEq, Repr

/-- Path parameters of the configuration update request. -/
structure UpdateDatabaseConfigurationParams where
  OrganizationSlug : String
  DatabaseName : String
deriving DecidableEq, Repr

/-- Path parameters of the configuration lookup. -/
structure GetDatabaseConfigurationParams where
  OrganizationSlug : String
  DatabaseName : String
deriving DecidableEq, Repr

/-- The configuration object answered by the lookup and update calls. -/
structure DatabaseConfigurationResponse where
  SizeLimit : OptString
  BlockReads : OptBool
  BlockWrites : OptBool
  DeleteProtection : OptBool
deriving DecidableEq, Repr

/-- Path parameters of the database deletion. -/
structure DeleteDatabaseParams where
  OrganizationSlug : String
  DatabaseName : String
deriving DecidableEq, Repr

/-- Path parameters of the API token creation. -/
structure CreateAPITokenParams where
  TokenName : String
deriving DecidableEq, Repr

/-- Answer of the API token creation. -/
structure CreateAPITokenOK where
  Name : OptString
  ID : OptString
  Token : OptString
deriving DecidableEq, Repr

/-- Path parameters of the API token revocation. -/
structure RevokeAPITokenParams where
  TokenName : String
deriving DecidableEq, Repr

/-- One listed API token. -/
structure APIToken where
  Name : OptString
  ID : OptString
deriving DecidableEq, Repr

/-- Answer of the API token listing. -/
structure ListAPITokensOK where
  Tokens : List APIToken
deriving DecidableEq, Repr

/-- Optional body of the database token request; the provider always passes
the zero value, which is the unset body. -/
structure OptCreateTokenInput where
  Set : Bool
deriving DecidableEq, Repr

/-- The fields of the database token request parameters that the provider
fills in. -/
structure AuthTokensPostParams where
  OrganizationName : String
  DatabaseName : String
  Expiration : OptString
deriving DecidableEq, Repr

/-- Successful answer of the database token request. -/
structure AuthTokensPostOK where
  Jwt : OptString
deriving DecidableEq, Repr

/-- Answer variants of the database token request. -/
inductive AuthTokensPostRes where
  | AuthTokensPostOK (p : client.AuthTokensPostOK)
  | Other
deriving DecidableEq, Repr

/-- A remote call together with the arguments it was made with. -/
inductive Call where
  | CreateDatabase (input : CreateDatabaseInput) (params : CreateDatabaseParams)
  | GetDatabase (params : GetDatabaseParams)
  | UpdateDatabaseConfiguration (input : DatabaseConfigurationInput)
      (params : UpdateDatabaseConfigurationParams)
  | GetDatabaseConfiguration (params : GetDatabaseConfigurationParams)
  | DeleteDatabase (params : DeleteDatabaseParams)
  | CreateAPIToken (params : CreateAPITokenParams)
  | RevokeAPIToken (params : RevokeAPITokenParams)
  | ListAPITokens
  | AuthTokensPost (input : OptCreateTokenInput) (params : AuthTokensPostParams)
deriving DecidableEq, Repr

/-- The remote client: for each call, the answer of the remote service, either
an error (its text) or a response. -/
structure Client where
  CreateDatabase : CreateDatabaseInput → CreateDatabaseParams → Except String CreateDatabaseRes
  GetDatabase : GetDatabaseParams → Except String GetDatabaseRes
  UpdateDatabaseConfiguration : DatabaseConfigurationInput →
    UpdateDatabaseConfigurationParams → Except String DatabaseConfigurationResponse
  GetDatabaseConfiguration : GetDatabaseConfigurationParams →
    Except String DatabaseConfigurationResponse
  DeleteDatabase : DeleteDatabaseParams → Except String Unit
  CreateAPIToken : CreateAPITokenParams → Except String CreateAPITokenOK
  RevokeAPIToken : RevokeAPITokenParams → Except String Unit
  ListAPITokens : Except String ListAPITokensOK
  AuthTokensPost : OptCreateTokenInput → AuthTokensPostParams → Except String AuthTokensPostRes

end client

/-! ## Strings

The provider splits import identifiers with `strings.Split` and
`strings.SplitN`, always on the one-character separator "/". A string is its
sequence of characters; the separator is a single byte that never occurs inside
the encoding of another character, so cutting characters and cutting bytes agree.
-/

namespace strings

/-- Cut a character sequence at the first separator: what stands before it and
what stands after it, or nothing when the separator does not occur. -/
def cut (sep : Char) : List Char → Option (List Char × List Char)
  | [] => none
  | c :: cs =>
    if c = sep then some ([], cs)
    else (cut sep cs).map (fun p => (c :: p.1, p.2))

/-- The splitting loop of the library: cut at the separator at most `k` times; the
last piece is the remainder, left whole. -/
def genSplit (sep : Char) : Nat → List Char → List (List Char)
  | 0, s => [s]
  | k + 1, s =>
    match cut sep s with
    | none => [s]
    | some (pre, rest) => pre :: genSplit sep k rest

/-- `strings.SplitN(s, sep, n)`: nothing for `n = 0`, every piece for `n < 0`, and
for `n > 0` at most `n` pieces, the last being the remainder left whole. -/
def SplitN (s : String) (sep : Char) (n : Int) : List String :=
  if n = 0 then []
  else if n < 0 then (genSplit sep (s.data.count sep) s.data).map String.mk
  else (genSplit sep (n.toNat - 1) s.data).map String.mk

/-- `strings.Split(s, sep)` is `SplitN` with a count of -1. -/
def Split (s : String) (sep : Char) : List String := SplitN s sep (-1)

end strings

namespace provider

/-- What an entry point leaves behind: the finished response and the remote
calls it made, in order. -/
structure Result (σ : Type) where
  resp : resource.Response σ
  calls : List client.Call

/-! ## Database resource -/

/-- State and plan shape of the database resource. -/
structure DatabaseResourceModel where
  OrganizationName : TypesString
  Name : TypesString
  Group : TypesString
  SizeLimit : TypesString
  IsSchema : TypesBool
  Schema : TypesString
  DbId : TypesString
  Hostname : TypesString
deriving DecidableEq, Repr

/-- `DatabaseResource.Create`. -/
def DatabaseResource.Create (r : client.Client)
    (req : resource.CreateRequest DatabaseResourceModel)
    (resp : resource.Response DatabaseResourceModel) : Result DatabaseResourceModel :=
  let got := tfsdk.Get req.Plan
  let data := got.1
  let resp := { resp with Diagnostics := diag.Diagnostics.Append resp.Diagnostics got.2 }
  if diag.Diagnostics.HasError resp.Diagnostics then
    { resp := resp, calls := [] }
  else
    let input : client.CreateDatabaseInput :=
      { Name := data.Name.ValueString
        Group := data.Group.ValueString
        SizeLimit := client.NewOptString data.SizeLimit.ValueString
        Schema := client.NewOptString data.Schema.ValueString
        IsSchema := client.NewOptBool data.IsSchema.ValueBool }
    let params : client.CreateDatabaseParams :=
      { OrganizationSlug := data.OrganizationName.ValueString }
    match r.CreateDatabase input params with
    | .error err =>
      { resp := { resp with Diagnostics := (diag.Diagnostics.AddError resp.Diagnostics
                    "Client Error" ("Unable to create database, got error: " ++ err)) }
        calls := [client.Call.CreateDatabase input params] }
    | .ok res =>
      let data := match res with
        | .CreateDatabaseOK p =>
          { data with
            DbId := types.StringValue p.Database.Value.DbId.Value
            Hostname := types.StringValue p.Database.Value.Hostname.Value }
        | .Other => data
      let set := tfsdk.Set resp.State data
      { resp := { State := set.1
                  Diagnostics := diag.Diagnostics.Append resp.Diagnostics set.2 }
        calls := [client.Call.CreateDatabase input params] }

/-- `DatabaseResource.Read`. -/
def DatabaseResource.Read (r : client.Client)
    (req : resource.ReadRequest DatabaseResourceModel)
    (resp : resource.Response DatabaseResourceModel) : Result DatabaseResourceModel :=
  let got := tfsdk.Get req.State
  let data := got.1
  let resp := { resp with Diagnostics := diag.Diagnostics.Append resp.Diagnostics got.2 }
  if diag.Diagnostics.HasError resp.Diagnostics then
    { resp := resp, calls := [] }
  else
    let params : client.GetDatabaseParams :=
      { OrganizationSlug := data.OrganizationName.ValueString
        DatabaseName := data.Name.ValueString }
    match r.GetDatabase params with
    | .error err =>
      { resp := { resp with Diagnostics := (diag.Diagnostics.AddError resp.Diagnostics
                    "Client Error" ("Unable to read database, got error: " ++ err)) }
        calls := [client.Call.GetDatabase params] }
    | .ok res =>
      let data := match res with
        | .GetDatabaseOK p =>
          { data with
            DbId := types.StringValue p.Database.Value.DbId.Value
            Hostname := types.StringValue p.Database.Value.Hostname.Value }
        | .Other => data
      let set := tfsdk.Set resp.State data
      { resp := { State := set.1
                  Diagnostics := diag.Diagnostics.Append resp.Diagnostics set.2 }
        calls := [client.Call.GetDatabase params] }

/-- `DatabaseResource.Update`. -/
def DatabaseResource.Update (r : client.Client)
    (req : resource.UpdateRequest DatabaseResourceModel)
    (resp : resource.Response DatabaseResourceModel) : Result DatabaseResourceModel :=
  let got := tfsdk.Get req.Plan
  let data := got.1
  let resp := { resp with Diagnostics := diag.Diagnostics.Append resp.Diagnostics got.2 }
  if diag.Diagnostics.HasError resp.Diagnostics then
    { resp := resp, calls := [] }
  else
    let input : client.DatabaseConfigurationInput :=
      { SizeLimit := client.NewOptString data.SizeLimit.ValueString
        BlockReads := client.OptBool.zero
        BlockWrites := client.OptBool.zero
        DeleteProtection := client.OptBool.zero }
    let params : client.UpdateDatabaseConfigurationParams :=
      { OrganizationSlug := data.OrganizationName.ValueString
        DatabaseName := data.Name.ValueString }
    match r.UpdateDatabaseConfiguration input params with
    | .error err =>
      { resp := { resp with Diagnostics := (diag.Diagnostics.AddError resp.Diagnostics
                    "Client Error" ("Unable to update database, got error: " ++ err)) }
        calls := [client.Call.UpdateDatabaseConfiguration input params] }
    | .ok _ =>
      let set := tfsdk.Set resp.State data
      { resp := { State := set.1
                  Diagnostics := diag.Diagnostics.Append resp.Diagnostics set.2 }
        calls := [client.Call.UpdateDatabaseConfiguration input params] }

/-- `DatabaseResource.Delete`. -/
def DatabaseResource.Delete (r : client.Client)
    (req : resource.DeleteRequest DatabaseResourceModel)
    (resp : resource.Response DatabaseResourceModel) : Result DatabaseResourceModel :=
  let got := tfsdk.Get req.State
  let data := got.1
  let resp := { resp with Diagnostics := diag.Diagnostics.Append resp.Diagnostics got.2 }
  if diag.Diagnostics.HasError resp.Diagnostics then
    { resp := resp, calls := [] }
  else
    let params : client.DeleteDatabaseParams :=
      { OrganizationSlug := data.OrganizationName.ValueString
        DatabaseName := data.Name.ValueString }
    match r.DeleteDatabase params with
    | .error err =>
      { resp := { resp with Diagnostics := (diag.Diagnostics.AddError resp.Diagnostics
                    "Client Error" ("Unable to delete database, got error: " ++ err)) }
        calls := [client.Call.DeleteDatabase params] }
    | .ok _ =>
      { resp := resp, calls := [client.Call.DeleteDatabase params] }

/-! ## Database configuration resource -/

/-- State and plan shape of the database configuration resource. -/
structure DatabaseConfigurationResourceModel where
  OrganizationSlug : TypesString
  DatabaseName : TypesString
  SizeLimit : TypesString
  BlockReads : TypesBool
  BlockWrites : TypesBool
  DeleteProtection : TypesBool
deriving DecidableEq, Repr

/-- `DatabaseConfigurationResource.Create`. -/
def DatabaseConfigurationResource.Create (r : client.Client)
    (req : resource.CreateRequest DatabaseConfigurationResourceModel)
    (resp : resource.Response DatabaseConfigurationResourceModel) :
    Result DatabaseConfigurationResourceModel :=
  let got := tfsdk.Get req.Plan
  let data := got.1
  let resp := { resp with Diagnostics := diag.Diagnostics.Append resp.Diagnostics got.2 }
  if diag.Diagnostics.HasError resp.Diagnostics then
    { resp := resp, calls := [] }
  else
    let input : client.DatabaseConfigurationInput :=
      { SizeLimit := client.NewOptString data.SizeLimit.ValueString
        BlockReads := client.NewOptBool data.BlockReads.ValueBool
        BlockWrites := client.NewOptBool data.BlockWrites.ValueBool
        DeleteProtection := client.NewOptBool data.DeleteProtection.ValueBool }
    let params : client.UpdateDatabaseConfigurationParams :=
      { OrganizationSlug := data.OrganizationSlug.ValueString
        DatabaseName := data.DatabaseName.ValueString }
    match r.UpdateDatabaseConfiguration input params with
    | .error err =>
      { resp := { resp with Diagnostics := (diag.Diagnostics.AddError resp.Diagnostics
                    "Client Error" ("Unable to set database configuration, got error: " ++ err)) }
        calls := [client.Call.UpdateDatabaseConfiguration input params] }
    | .ok res =>
      let data := { data with
        BlockReads := types.BoolValue res.BlockReads.Value
        BlockWrites := types.BoolValue res.BlockWrites.Value
        DeleteProtection := types.BoolValue res.DeleteProtection.Value
        SizeLimit := types.StringValue res.SizeLimit.Value }
      let set := tfsdk.Set resp.State data
      { resp := { State := set.1
                  Diagnostics := diag.Diagnostics.Append resp.Diagnostics set.2 }
        calls := [client.Call.UpdateDatabaseConfiguration input params] }

/-- `DatabaseConfigurationResource.Read`. -/
def DatabaseConfigurationResource.Read (r : client.Client)
    (req : resource.ReadRequest DatabaseConfigurationResourceModel)
    (resp : resource.Response DatabaseConfigurationResourceModel) :
    Result DatabaseConfigurationResourceModel :=
  let got := tfsdk.Get req.State
  let data := got.1
  let resp := { resp with Diagnostics := diag.Diagnostics.Append resp.Diagnostics got.2 }
  if diag.Diagnostics.HasError resp.Diagnostics then
    { resp := resp, calls := [] }
  else
    let params : client.GetDatabaseConfigurationParams :=
      { OrganizationSlug := data.OrganizationSlug.ValueString
        DatabaseName := data.DatabaseName.ValueString }
    match r.GetDatabaseConfiguration params with
    | .error err =>
      { resp := { resp with Diagnostics := (diag.Diagnostics.AddError resp.Diagnostics
                    "Client Error" ("Unable to read database, got error: " ++ err)) }
        calls := [client.Call.GetDatabaseConfiguration params] }
    | .ok res =>
      let data := { data with
        BlockReads := types.BoolValue res.BlockReads.Value
        BlockWrites := types.BoolValue res.BlockWrites.Value
        DeleteProtection := types.BoolValue res.DeleteProtection.Value
        SizeLimit := types.StringValue res.SizeLimit.Value }
      let set := tfsdk.Set resp.State data
      { resp := { State := set.1
                  Diagnostics := diag.Diagnostics.Append resp.Diagnostics set.2 }
        calls := [client.Call.GetDatabaseConfiguration params] }

/-- `DatabaseConfigurationResource.Update`. -/
def DatabaseConfigurationResource.Update (r : client.Client)
    (req : resource.UpdateRequest DatabaseConfigurationResourceModel)
    (resp : resource.Response DatabaseConfigurationResourceModel) :
    Result DatabaseConfigurationResourceModel :=
  let got := tfsdk.Get req.Plan
  let data := got.1
  let resp := { resp with Diagnostics := diag.Diagnostics.Append resp.Diagnostics got.2 }
  if diag.Diagnostics.HasError resp.Diagnostics then
    { resp := resp, calls := [] }
  else
    let input : client.DatabaseConfigurationInput :=
      { SizeLimit := client.NewOptString data.SizeLimit.ValueString
        BlockReads := client.NewOptBool data.BlockReads.ValueBool
        BlockWrites := client.NewOptBool data.BlockWrites.ValueBool
        DeleteProtection := client.NewOptBool data.DeleteProtection.ValueBool }
    let params : client.UpdateDatabaseConfigurationParams :=
      { OrganizationSlug := data.OrganizationSlug.ValueString
        DatabaseName := data.DatabaseName.ValueString }
    match r.UpdateDatabaseConfiguration input params with
    | .error err =>
      { resp := { resp with Diagnostics := (diag.Diagnostics.AddError resp.Diagnostics
                    "Client Error" ("Unable to set database configuration, got error: " ++ err)) }
        calls := [client.Call.UpdateDatabaseConfiguration input params] }
    | .ok res =>
      let data := { data with
        BlockReads := types.BoolValue res.BlockReads.Value
        BlockWrites := types.BoolValue res.BlockWrites.Value
        DeleteProtection := types.BoolValue res.DeleteProtection.Value
        SizeLimit := types.StringValue res.SizeLimit.Value }
      let set := tfsdk.Set resp.State data
      { resp := { State := set.1
                  Diagnostics := diag.Diagnostics.Append resp.Diagnostics set.2 }
        calls := [client.Call.UpdateDatabaseConfiguration input params] }

/-- `DatabaseConfigurationResource.Delete`: no operation. -/
def DatabaseConfigurationResource.Delete (_r : client.Client)
    (_req : resource.DeleteRequest DatabaseConfigurationResourceModel)
    (resp : resource.Response DatabaseConfigurationResourceModel) :
    Result DatabaseConfigurationResourceModel :=
  { resp := resp, calls := [] }

/-! ## Database token resource -/

/-- State and plan shape of the database token resource. -/
structure DatabaseTokenResourceModel where
  OrganizationName : TypesString
  DatabaseName : TypesString
  Expiration : TypesString
  Authorization : TypesString
  JWT : TypesString
deriving DecidableEq, Repr

/-- `DatabaseTokenResource.Create`. -/
def DatabaseTokenResource.Create (r : client.Client)
    (req : resource.CreateRequest DatabaseTokenResourceModel)
    (resp : resource.Response DatabaseTokenResourceModel) : Result DatabaseTokenResourceModel :=
  let got := tfsdk.Get req.Plan
  let data := got.1
  let resp := { resp with Diagnostics := diag.Diagnostics.Append resp.Diagnostics got.2 }
  if diag.Diagnostics.HasError resp.Diagnostics then
    { resp := resp, calls := [] }
  else
    let input : client.OptCreateTokenInput := { Set := false }
    let params : client.AuthTokensPostParams :=
      { OrganizationName := data.OrganizationName.ValueString
        DatabaseName := data.DatabaseName.ValueString
        Expiration := client.NewOptString data.Expiration.ValueString }
    match r.AuthTokensPost input params with
    | .error err =>
      { resp := { resp with Diagnostics := (diag.Diagnostics.AddError resp.Diagnostics
                    "Client Error" ("Unable to create database, got error: " ++ err)) }
        calls := [client.Call.AuthTokensPost input params] }
    | .ok res =>
      let data := match res with
        | .AuthTokensPostOK p => { data with JWT := types.StringValue p.Jwt.Value }
        | .Other => data
      let set := tfsdk.Set resp.State data
      { resp := { State := set.1
                  Diagnostics := diag.Diagnostics.Append resp.Diagnostics set.2 }
        calls := [client.Call.AuthTokensPost input params] }

/-- `DatabaseTokenResource.Read`: a token cannot be read back, the prior state is
written again. -/
def DatabaseTokenResource.Read (_r : client.Client)
    (req : resource.ReadRequest DatabaseTokenResourceModel)
    (resp : resource.Response DatabaseTokenResourceModel) : Result DatabaseTokenResourceModel :=
  let got := tfsdk.Get req.State
  let data := got.1
  let resp := { resp with Diagnostics := diag.Diagnostics.Append resp.Diagnostics got.2 }
  if diag.Diagnostics.HasError resp.Diagnostics then
    { resp := resp, calls := [] }
  else
    let set := tfsdk.Set resp.State data
    { resp := { State := set.1
                Diagnostics := diag.Diagnostics.Append resp.Diagnostics set.2 }
      calls := [] }

/-- `DatabaseTokenResource.Update`: a token cannot be updated, the plan is written. -/
def DatabaseTokenResource.Update (_r : client.Client)
    (req : resource.UpdateRequest DatabaseTokenResourceModel)
    (resp : resource.Response DatabaseTokenResourceModel) : Result DatabaseTokenResourceModel :=
  let got := tfsdk.Get req.Plan
  let data := got.1
  let resp := { resp with Diagnostics := diag.Diagnostics.Append resp.Diagnostics got.2 }
  if diag.Diagnostics.HasError resp.Diagnostics then
    { resp := resp, calls := [] }
  else
    let set := tfsdk.Set resp.State data
    { resp := { State := set.1
                Diagnostics := diag.Diagnostics.Append resp.Diagnostics set.2 }
      calls := [] }

/-- `DatabaseTokenResource.Delete`: a token cannot be revoked on its own. -/
def DatabaseTokenResource.Delete (_r : client.Client)
    (req : resource.DeleteRequest DatabaseTokenResourceModel)
    (resp : resource.Response DatabaseTokenResourceModel) : Result DatabaseTokenResourceModel :=
  let got := tfsdk.Get req.State
  let resp := { resp with Diagnostics := diag.Diagnostics.Append resp.Diagnostics got.2 }
  { resp := resp, calls := [] }

/-- `DatabaseTokenResource.ImportState`: a token cannot be imported. -/
def DatabaseTokenResource.ImportState (_r : client.Client)
    (_req : resource.ImportStateRequest)
    (resp : resource.Response DatabaseTokenResourceModel) : Result DatabaseTokenResourceModel :=
  { resp := resp, calls := [] }

/-! ## API token resource -/

/-- State and plan shape of the API token resource. -/
structure ApiTokenResourceModel where
  Name : TypesString
  Id : TypesString
  Token : TypesString
deriving DecidableEq, Repr

/-- The root attribute paths of the API token resource. -/
inductive ApiTokenPath where
  | name
  | id
  | token
deriving DecidableEq, Repr

/-- `State.SetAttribute` at a root path with a string value: the attribute takes
the value and the others keep theirs; on a state that holds nothing yet the
others are null. -/
def ApiTokenResourceModel.SetAttribute (st : Option ApiTokenResourceModel)
    (root : ApiTokenPath) (v : String) : Option ApiTokenResourceModel × diag.Diagnostics :=
  let cur : ApiTokenResourceModel :=
    st.getD { Name := TypesString.null, Id := TypesString.null, Token := TypesString.null }
  match root with
  | .name => (some { cur with Name := TypesString.value v }, [])
  | .id => (some { cur with Id := TypesString.value v }, [])
  | .token => (some { cur with Token := TypesString.value v }, [])

/-- `ApiTokenResource.getTokenByName`: lists the tokens and scans for the name.
The pair is the token pointer (none for nil) and the error (none for nil). -/
def ApiTokenResource.getTokenByName (r : client.Client) (name : String) :
    Option client.APIToken × Option String :=
  match r.ListAPITokens with
  | .error err => (none, some err)
  | .ok response =>
    (response.Tokens.find? (fun token => decide (token.Name.Value = name)), none)

/-- `ApiTokenResource.Create`. -/
def ApiTokenResource.Create (r : client.Client)
    (req : resource.CreateRequest ApiTokenResourceModel)
    (resp : resource.Response ApiTokenResourceModel) : Result ApiTokenResourceModel :=
  let got := tfsdk.Get req.Plan
  let data := got.1
  let resp := { resp with Diagnostics := diag.Diagnostics.Append resp.Diagnostics got.2 }
  if diag.Diagnostics.HasError resp.Diagnostics then
    { resp := resp, calls := [] }
  else
    let params : client.CreateAPITokenParams := { TokenName := data.Name.ValueString }
    match r.CreateAPIToken params with
    | .error err =>
      { resp := { resp with Diagnostics := (diag.Diagnostics.AddError resp.Diagnostics
                    "Client Error" ("Unable to create ApiToken, got error: " ++ err)) }
        calls := [client.Call.CreateAPIToken params] }
    | .ok res =>
      let data := { data with
        Name := types.StringValue res.Name.Value
        Id := types.StringValue res.ID.Value
        Token := types.StringValue res.Token.Value }
      let set := tfsdk.Set resp.State data
      { resp := { State := set.1
                  Diagnostics := diag.Diagnostics.Append resp.Diagnostics set.2 }
        calls := [client.Call.CreateAPIToken params] }

/-- `ApiTokenResource.Read`. -/
def ApiTokenResource.Read (r : client.Client)
    (req : resource.ReadRequest ApiTokenResourceModel)
    (resp : resource.Response ApiTokenResourceModel) : Result ApiTokenResourceModel :=
  let got := tfsdk.Get req.State
  let data := got.1
  let resp := { resp with Diagnostics := diag.Diagnostics.Append resp.Diagnostics got.2 }
  if diag.Diagnostics.HasError resp.Diagnostics then
    { resp := resp, calls := [] }
  else
    let found := ApiTokenResource.getTokenByName r data.Name.ValueString
    let resp : resource.Response ApiTokenResourceModel := match found.1 with
      | some token =>
        let sa := ApiTokenResourceModel.SetAttribute resp.State ApiTokenPath.id token.ID.Value
        { State := sa.1, Diagnostics := diag.Diagnostics.Append resp.Diagnostics sa.2 }
      | none => resp
    let set := tfsdk.Set resp.State data
    { resp := { State := set.1
                Diagnostics := diag.Diagnostics.Append resp.Diagnostics set.2 }
      calls := [client.Call.ListAPITokens] }

/-- `ApiTokenResource.Update`: no operation. -/
def ApiTokenResource.Update (_r : client.Client)
    (_req : resource.UpdateRequest ApiTokenResourceModel)
    (resp : resource.Response ApiTokenResourceModel) : Result ApiTokenResourceModel :=
  { resp := resp, calls := [] }

/-- `ApiTokenResource.Delete`. -/
def ApiTokenResource.Delete (r : client.Client)
    (req : resource.DeleteRequest ApiTokenResourceModel)
    (resp : resource.Response ApiTokenResourceModel) : Result ApiTokenResourceModel :=
  let got := tfsdk.Get req.State
  let data := got.1
  let resp := { resp with Diagnostics := diag.Diagnostics.Append resp.Diagnostics got.2 }
  if diag.Diagnostics.HasError resp.Diagnostics then
    { resp := resp, calls := [] }
  else
    let params : client.RevokeAPITokenParams := { TokenName := data.Name.ValueString }
    match r.RevokeAPIToken params with
    | .error err =>
      { resp := { resp with Diagnostics := (diag.Diagnostics.AddError resp.Diagnostics
                    "Client Error" ("Unable to delete ApiToken, got error: " ++ err)) }
        calls := [client.Call.RevokeAPIToken params] }
    | .ok _ =>
      { resp := resp, calls := [client.Call.RevokeAPIToken params] }

/-! ## Import -/

/-- `ExtractDbIdFromImportStateId`: the two components and the error (none for
nil). -/
def ExtractDbIdFromImportStateId (id : String) : String × String × Option String :=
  match strings.SplitN id '/' 2 with
  | [p0, p1] => (p0, p1, none)
  | _ =>
    ("", "", some (id ++ " is not a valid import state ID format. The expected format is: organizationSlug/databaseName"))

/-- The root attribute paths of the database resource that the import writes. -/
inductive DatabasePath where
  | organization_name
  | name
  | group
  | db_id
  | hostname
deriving DecidableEq, Repr

/-- `State.SetAttribute` at a root path of the database resource with a string
value: the attribute takes the value and the others keep theirs; on a state that
holds nothing yet the others are null. -/
def DatabaseResourceModel.SetAttribute (st : Option DatabaseResourceModel)
    (root : DatabasePath) (v : String) : Option DatabaseResourceModel × diag.Diagnostics :=
  let cur : DatabaseResourceModel :=
    st.getD { OrganizationName := TypesString.null, Name := TypesString.null
              Group := TypesString.null, SizeLimit := TypesString.null
              IsSchema := TypesBool.null, Schema := TypesString.null
              DbId := TypesString.null, Hostname := TypesString.null }
  match root with
  | .organization_name => (some { cur with OrganizationName := TypesString.value v }, [])
  | .name => (some { cur with Name := TypesString.value v }, [])
  | .group => (some { cur with Group := TypesString.value v }, [])
  | .db_id => (some { cur with DbId := TypesString.value v }, [])
  | .hostname => (some { cur with Hostname := TypesString.value v }, [])

/-- `DatabaseResource.ImportState`. The argument `quote` is the `%q` verb of the
formatting library, Go's quoting of a string. -/
def DatabaseResource.ImportState (quote : String → String) (r : client.Client)
    (req : resource.ImportStateRequest)
    (resp : resource.Response DatabaseResourceModel) : Result DatabaseResourceModel :=
  let idParts := strings.Split req.ID '/'
  let rejected : Result DatabaseResourceModel :=
    { resp := { resp with Diagnostics := (diag.Diagnostics.AddError resp.Diagnostics
                  "Unexpected Import Identifier"
                  ("Expected import identifier with format: organization/name. Got: "
                    ++ quote req.ID)) }
      calls := [] }
  match idParts with
  | [organization_name, name] =>
    if organization_name = "" ∨ name = "" then rejected
    else
      let sa := DatabaseResourceModel.SetAttribute resp.State DatabasePath.organization_name
        organization_name
      let resp : resource.Response DatabaseResourceModel :=
        { State := sa.1, Diagnostics := diag.Diagnostics.Append resp.Diagnostics sa.2 }
      let sa := DatabaseResourceModel.SetAttribute resp.State DatabasePath.name name
      let resp : resource.Response DatabaseResourceModel :=
        { State := sa.1, Diagnostics := diag.Diagnostics.Append resp.Diagnostics sa.2 }
      let params : client.GetDatabaseParams :=
        { OrganizationSlug := organization_name, DatabaseName := name }
      match r.GetDatabase params with
      | .error err =>
        { resp := { resp with Diagnostics := (diag.Diagnostics.AddError resp.Diagnostics
                      "Client Error" ("Unable to read database, got error: " ++ err)) }
          calls := [client.Call.GetDatabase params] }
      | .ok res =>
        match res with
        | .GetDatabaseOK p =>
          let sa := DatabaseResourceModel.SetAttribute resp.State DatabasePath.group
            (types.StringValue p.Database.Value.Group.Value).ValueString
          let resp : resource.Response DatabaseResourceModel :=
            { State := sa.1, Diagnostics := diag.Diagnostics.Append resp.Diagnostics sa.2 }
          let sa := DatabaseResourceModel.SetAttribute resp.State DatabasePath.db_id
            (types.StringValue p.Database.Value.DbId.Value).ValueString
          let resp : resource.Response DatabaseResourceModel :=
            { State := sa.1, Diagnostics := diag.Diagnostics.Append resp.Diagnostics sa.2 }
          let sa := DatabaseResourceModel.SetAttribute resp.State DatabasePath.hostname
            (types.StringValue p.Database.Value.Hostname.Value).ValueString
          let resp : resource.Response DatabaseResourceModel :=
            { State := sa.1, Diagnostics := diag.Diagnostics.Append resp.Diagnostics sa.2 }
          { resp := resp, calls := [client.Call.GetDatabase params] }
        | .Other => { resp := resp, calls := [client.Call.GetDatabase params] }
  | _ => rejected

/-- `DatabaseConfigurationResource.ImportState`. -/
def DatabaseConfigurationResource.ImportState (r : client.Client)
    (req : resource.ImportStateRequest)
    (resp : resource.Response DatabaseConfigurationResourceModel) :
    Result DatabaseConfigurationResourceModel :=
  let ext := ExtractDbIdFromImportStateId req.ID
  let organization_name := ext.1
  let name := ext.2.1
  match ext.2.2 with
  | some err =>
    { resp := { resp with Diagnostics := diag.Diagnostics.AddError resp.Diagnostics err req.ID }
      calls := [] }
  | none =>
    let params : client.GetDatabaseConfigurationParams :=
      { OrganizationSlug := organization_name, DatabaseName := name }
    match r.GetDatabaseConfiguration params with
    | .error err =>
      { resp := { resp with Diagnostics := (diag.Diagnostics.AddError resp.Diagnostics
                    "Client Error" ("Unable to read database, got error: " ++ err)) }
        calls := [client.Call.GetDatabaseConfiguration params] }
    | .ok res =>
      let set := tfsdk.Set resp.State
        ({ OrganizationSlug := types.StringValue organization_name
           DatabaseName := types.StringValue name
           SizeLimit := types.StringValue res.SizeLimit.Value
           BlockReads := types.BoolValue res.BlockReads.Value
           BlockWrites := types.BoolValue res.BlockWrites.Value
           DeleteProtection := types.BoolValue res.DeleteProtection.Value } :
          DatabaseConfigurationResourceModel)
      { resp := { State := set.1
                  Diagnostics := diag.Diagnostics.Append resp.Diagnostics set.2 }
        calls := [client.Call.GetDatabaseConfiguration params] }

/-- `ApiTokenResource.ImportState`. The argument `quote` is the `%q` verb of the
formatting library, Go's quoting of a string. -/
def ApiTokenResource.ImportState (quote : String → String) (r : client.Client)
    (req : resource.ImportStateRequest)
    (resp : resource.Response ApiTokenResourceModel) : Result ApiTokenResourceModel :=
  let idParts := strings.Split req.ID '/'
  let rejected : Result ApiTokenResourceModel :=
    { resp := { resp with Diagnostics := (diag.Diagnostics.AddError resp.Diagnostics
                  "Unexpected Import Identifier"
                  ("Expected import identifier with format: name/token. Got: "
                    ++ quote req.ID)) }
      calls := [] }
  match idParts with
  | [p0, p1] =>
    if p0 = "" ∨ p1 = "" then rejected
    else
      let sa := ApiTokenResourceModel.SetAttribute resp.State ApiTokenPath.name p0
      let resp : resource.Response ApiTokenResourceModel :=
        { State := sa.1, Diagnostics := diag.Diagnostics.Append resp.Diagnostics sa.2 }
      let sa := ApiTokenResourceModel.SetAttribute resp.State ApiTokenPath.token p1
      let resp : resource.Response ApiTokenResourceModel :=
        { State := sa.1, Diagnostics := diag.Diagnostics.Append resp.Diagnostics sa.2 }
      let found := ApiTokenResource.getTokenByName r p0
      let resp : resource.Response ApiTokenResourceModel := match found.1 with
        | some token =>
          let sa := ApiTokenResourceModel.SetAttribute resp.State ApiTokenPath.id token.ID.Value
          { State := sa.1, Diagnostics := diag.Diagnostics.Append resp.Diagnostics sa.2 }
        | none => resp
      { resp := resp, calls := [client.Call.ListAPITokens] }
  | _ => rejected

/-- Quoting of a string made of plain printable characters, with no quote and no
backslash in it: the string between double quotes. -/
def quotePlain (s : String) : String := "\"" ++ s ++ "\""

/-! ## Schemas -/

/-- `DatabaseResource.Schema`: the attributes in the order of the source. -/
def DatabaseResource.Schema : List schema.Attribute :=
  [ { Name := "organization_name", Kind := schema.Kind.String, Required := true
      Optional := false, Computed := false, Sensitive := false
      RequiresReplace := true, UseStateForUnknown := false },
    { Name := "name", Kind := schema.Kind.String, Required := true
      Optional := false, Computed := false, Sensitive := false
      RequiresReplace := true, UseStateForUnknown := false },
    { Name := "group", Kind := schema.Kind.String, Required := true
      Optional := false, Computed := false, Sensitive := false
      RequiresReplace := true, UseStateForUnknown := false },
    { Name := "size_limit", Kind := schema.Kind.String, Required := false
      Optional := true, Computed := false, Sensitive := false
      RequiresReplace := false, UseStateForUnknown := false },
    { Name := "is_schema", Kind := schema.Kind.Bool, Required := false
      Optional := true, Computed := false, Sensitive := false
      RequiresReplace := false, UseStateForUnknown := false },
    { Name := "schema", Kind := schema.Kind.String, Required := false
      Optional := true, Computed := false, Sensitive := false
      RequiresReplace := false, UseStateForUnknown := false },
    { Name := "db_id", Kind := schema.Kind.String, Required := false
      Optional := false, Computed := true, Sensitive := false
      RequiresReplace := false, UseStateForUnknown := true },
    { Name := "hostname", Kind := schema.Kind.String, Required := false
      Optional := false, Computed := true, Sensitive := false
      RequiresReplace := false, UseStateForUnknown := true } ]

/-- The value a database model holds under an attribute name (its `tfsdk` tag). -/
def DatabaseResourceModel.attr (m : DatabaseResourceModel) (name : String) : schema.Value :=
  if name = "organization_name" then schema.Value.string m.OrganizationName
  else if name = "name" then schema.Value.string m.Name
  else if name = "group" then schema.Value.string m.Group
  else if name = "size_limit" then schema.Value.string m.SizeLimit
  else if name = "is_schema" then schema.Value.bool m.IsSchema
  else if name = "schema" then schema.Value.string m.Schema
  else if name = "db_id" then schema.Value.string m.DbId
  else if name = "hostname" then schema.Value.string m.Hostname
  else schema.Value.missing

/-- `DatabaseTokenResource.Schema`: the attributes in the order of the source. -/
def DatabaseTokenResource.Schema : List schema.Attribute :=
  [ { Name := "organization_name", Kind := schema.Kind.String, Required := true
      Optional := false, Computed := false, Sensitive := false
      RequiresReplace := true, UseStateForUnknown := false },
    { Name := "database_name", Kind := schema.Kind.String, Required := true
      Optional := false, Computed := false, Sensitive := false
      RequiresReplace := true, UseStateForUnknown := false },
    { Name := "expiration", Kind := schema.Kind.String, Required := false
      Optional := true, Computed := false, Sensitive := false
      RequiresReplace := true, UseStateForUnknown := false },
    { Name := "authorization", Kind := schema.Kind.String, Required := false
      Optional := true, Computed := false, Sensitive := false
      RequiresReplace := true, UseStateForUnknown := false },
    { Name := "jwt", Kind := schema.Kind.String, Required := false
      Optional := false, Computed := true, Sensitive := true
      RequiresReplace := false, UseStateForUnknown := true } ]

/-- The value a database token model holds under an attribute name. -/
def DatabaseTokenResourceModel.attr (m : DatabaseTokenResourceModel) (name : String) :
    schema.Value :=
  if name = "organization_name" then schema.Value.string m.OrganizationName
  else if name = "database_name" then schema.Value.string m.DatabaseName
  else if name = "expiration" then schema.Value.string m.Expiration
  else if name = "authorization" then schema.Value.string m.Authorization
  else if name = "jwt" then schema.Value.string m.JWT
  else schema.Value.missing

/-- `ApiTokenResource.Schema`: the attributes in the order of the source. -/
def ApiTokenResource.Schema : List schema.Attribute :=
  [ { Name := "name", Kind := schema.Kind.String, Required := true
      Optional := false, Computed := false, Sensitive := false
      RequiresReplace := true, UseStateForUnknown := false },
    { Name := "id", Kind := schema.Kind.String, Required := false
      Optional := false, Computed := true, Sensitive := false
      RequiresReplace := false, UseStateForUnknown := false },
    { Name := "token", Kind := schema.Kind.String, Required := false
      Optional := false, Computed := true, Sensitive := true
      RequiresReplace := false, UseStateForUnknown := true } ]

/-- The value an API token model holds under an attribute name. -/
def ApiTokenResourceModel.attr (m : ApiTokenResourceModel) (name : String) : schema.Value :=
  if name = "name" then schema.Value.string m.Name
  else if name = "id" then schema.Value.string m.Id
  else if name = "token" then schema.Value.string m.Token
  else schema.Value.missing

/-- Modelled from the spec: the query `requiresReplacement` of the attribute policy
table is not a function of the repository, which lists the plan modifier
`RequiresReplace` on attributes and leaves the decision to the plugin framework.
It is true if and only if some attribute that is immutable after creation differs
between the prior values and the planned values. -/
def requiresReplacement (attrs : List schema.Attribute) (prior plan : String → schema.Value) :
    Bool :=
  attrs.any (fun a => a.RequiresReplace && decide (prior a.Name ≠ plan a.Name))

/-- Modelled from the spec: a plan carries forward the prior value of every
attribute that preserves its prior value, the attributes that list the plan
modifier `UseStateForUnknown`; the copy is made by the plugin framework, not by a
function of the repository. -/
def carriesPriorValues (attrs : List schema.Attribute) (prior plan : String → schema.Value) :
    Bool :=
  attrs.all (fun a => !a.UseStateForUnknown || decide (prior a.Name = plan a.Name))

/-! ## Metadata and registration -/

/-- `DatabaseResource.Metadata`. -/
def DatabaseResource.Metadata (req : resource.MetadataRequest)
    (resp : resource.MetadataResponse) : resource.MetadataResponse :=
  { resp with TypeName := req.ProviderTypeName ++ "_database" }

/-- `DatabaseTokenResource.Metadata`. -/
def DatabaseTokenResource.Metadata (req : resource.MetadataRequest)
    (resp : resource.MetadataResponse) : resource.MetadataResponse :=
  { resp with TypeName := req.ProviderTypeName ++ "_database_token" }

/-- `DatabaseConfigurationResource.Metadata`. -/
def DatabaseConfigurationResource.Metadata (req : resource.MetadataRequest)
    (resp : resource.MetadataResponse) : resource.MetadataResponse :=
  { resp with TypeName := req.ProviderTypeName ++ "_database_configuration" }

/-- `ApiTokenResource.Metadata`. -/
def ApiTokenResource.Metadata (req : resource.MetadataRequest)
    (resp : resource.MetadataResponse) : resource.MetadataResponse :=
  { resp with TypeName := req.ProviderTypeName ++ "_api_token" }

/-- `DatabaseDataSource.Metadata`. -/
def DatabaseDataSource.Metadata (req : datasource.MetadataRequest)
    (resp : datasource.MetadataResponse) : datasource.MetadataResponse :=
  { resp with TypeName := req.ProviderTypeName ++ "_database" }

/-- `OrganizationDataSource.Metadata`. -/
def OrganizationDataSource.Metadata (req : datasource.MetadataRequest)
    (resp : datasource.MetadataResponse) : datasource.MetadataResponse :=
  { resp with TypeName := req.ProviderTypeName ++ "_organization" }

/-- `DatabaseConfigurationDataSource.Metadata`. -/
def DatabaseConfigurationDataSource.Metadata (req : datasource.MetadataRequest)
    (resp : datasource.MetadataResponse) : datasource.MetadataResponse :=
  { resp with TypeName := req.ProviderTypeName ++ "_database_configuration" }

/-- `DatabaseInstanceDataSource.Metadata`. -/
def DatabaseInstanceDataSource.Metadata (req : datasource.MetadataRequest)
    (resp : datasource.MetadataResponse) : datasource.MetadataResponse :=
  { resp with TypeName := req.ProviderTypeName ++ "_database_instance" }

/-- The resource types the repository defines, as values of the framework's
resource interface. -/
inductive Resource where
  | DatabaseResource
  | DatabaseTokenResource
  | DatabaseConfigurationResource
  | ApiTokenResource
deriving DecidableEq, Repr

/-- The `Metadata` method of the resource interface, dispatched on the type. -/
def Resource.Metadata : Resource → resource.MetadataRequest → resource.MetadataResponse →
    resource.MetadataResponse
  | .DatabaseResource => DatabaseResource.Metadata
  | .DatabaseTokenResource => DatabaseTokenResource.Metadata
  | .DatabaseConfigurationResource => DatabaseConfigurationResource.Metadata
  | .ApiTokenResource => ApiTokenResource.Metadata

/-- `NewDatabaseResource`. -/
def NewDatabaseResource : Resource := Resource.DatabaseResource

/-- `NewDatabaseTokenResource`. -/
def NewDatabaseTokenResource : Resource := Resource.DatabaseTokenResource

/-- `NewDatabaseConfigurationResource`. -/
def NewDatabaseConfigurationResource : Resource := Resource.DatabaseConfigurationResource

/-- `NewApiTokenResource`. -/
def NewApiTokenResource : Resource := Resource.ApiTokenResource

/-- The data source types the repository defines, as values of the framework's
data source interface. -/
inductive DataSource where
  | DatabaseDataSource
  | OrganizationDataSource
  | DatabaseConfigurationDataSource
  | DatabaseInstanceDataSource
deriving DecidableEq, Repr

/-- The `Metadata` method of the data source interface, dispatched on the type. -/
def DataSource.Metadata : DataSource → datasource.MetadataRequest →
    datasource.MetadataResponse → datasource.MetadataResponse
  | .DatabaseDataSource => DatabaseDataSource.Metadata
  | .OrganizationDataSource => OrganizationDataSource.Metadata
  | .DatabaseConfigurationDataSource => DatabaseConfigurationDataSource.Metadata
  | .DatabaseInstanceDataSource => DatabaseInstanceDataSource.Metadata

/-- `NewDatabaseDataSource`. -/
def NewDatabaseDataSource : DataSource := DataSource.DatabaseDataSource

/-- `NewOrganizationDataSource`. -/
def NewOrganizationDataSource : DataSource := DataSource.OrganizationDataSource

/-- `NewDatabaseConfigurationDataSource`. -/
def NewDatabaseConfigurationDataSource : DataSource :=
  DataSource.DatabaseConfigurationDataSource

/-- `NewDatabaseInstanceDataSource`. -/
def NewDatabaseInstanceDataSource : DataSource := DataSource.DatabaseInstanceDataSource

/-- The provider: its version. -/
structure TursoProvider where
  version : String

/-- Metadata response of the provider: type name and version. -/
structure ProviderMetadataResponse where
  TypeName : String
  Version : String

/-- `TursoProvider.Metadata`. -/
def TursoProvider.Metadata (p : TursoProvider) (_resp : ProviderMetadataResponse) :
    ProviderMetadataResponse :=
  { TypeName := "turso", Version := p.version }

/-- `TursoProvider.Resources`: the constructors the provider offers. -/
def TursoProvider.Resources (_p : TursoProvider) : List Resource :=
  [NewDatabaseResource, NewDatabaseTokenResource]

/-- `TursoProvider.DataSources`: the constructors the provider offers. -/
def TursoProvider.DataSources (_p : TursoProvider) : List DataSource :=
  [NewDatabaseDataSource, NewOrganizationDataSource]

/-! ## Sample values -/

/-- A response that holds no state and no diagnostic yet. -/
def emptyResponse (σ : Type) : resource.Response σ := { State := none, Diagnostics := [] }

/-- The response handed to Read, Update and Delete: it starts from the prior state. -/
def priorResponse {σ : Type} (st : σ) : resource.Response σ :=
  { State := some st, Diagnostics := [] }

/-- A remote database object. -/
def sampleDatabase : client.Database :=
  { DbId := client.NewOptString "0eb771dd-6906-11ee-8553-eaa7715aeaf2"
    Hostname := client.NewOptString "orders-acme.turso.io"
    Group := client.NewOptString "replicas" }

/-- A client whose remote side answers every call without error: the creation and
lookup of a database answer `sampleDatabase`, the configuration update echoes the
request, the token list holds two tokens. -/
def okClient : client.Client where
  CreateDatabase := fun _ _ =>
    Except.ok (client.CreateDatabaseRes.CreateDatabaseOK
      { Database := { Value := sampleDatabase, Set := true } })
  GetDatabase := fun _ =>
    Except.ok (client.GetDatabaseRes.GetDatabaseOK
      { Database := { Value := sampleDatabase, Set := true } })
  UpdateDatabaseConfiguration := fun i _ =>
    Except.ok { SizeLimit := i.SizeLimit, BlockReads := i.BlockReads
                BlockWrites := i.BlockWrites, DeleteProtection := i.DeleteProtection }
  GetDatabaseConfiguration := fun _ =>
    Except.ok { SizeLimit := client.NewOptString "1gb", BlockReads := client.NewOptBool true
                BlockWrites := client.NewOptBool true
                DeleteProtection := client.NewOptBool false }
  DeleteDatabase := fun _ => Except.ok ()
  CreateAPIToken := fun p =>
    Except.ok { Name := client.NewOptString p.TokenName
                ID := client.NewOptString "clPVSflqEe6Uyg"
                Token := client.NewOptString "eyJhbGciOi" }
  RevokeAPIToken := fun _ => Except.ok ()
  ListAPITokens :=
    Except.ok { Tokens := [ { Name := client.NewOptString "deploy"
                              ID := client.NewOptString "aaaa" },
                            { Name := client.NewOptString "ci"
                              ID := client.NewOptString "bbbb" } ] }
  AuthTokensPost := fun _ _ =>
    Except.ok (client.AuthTokensPostRes.AuthTokensPostOK
      { Jwt := client.NewOptString "eyJ0eXAiOi" })

/-- A client whose remote side fails every call with the same error text. -/
def failingClient : client.Client where
  CreateDatabase := fun _ _ => Except.error "503 Service Unavailable"
  GetDatabase := fun _ => Except.error "503 Service Unavailable"
  UpdateDatabaseConfiguration := fun _ _ => Except.error "503 Service Unavailable"
  GetDatabaseConfiguration := fun _ => Except.error "503 Service Unavailable"
  DeleteDatabase := fun _ => Except.error "503 Service Unavailable"
  CreateAPIToken := fun _ => Except.error "503 Service Unavailable"
  RevokeAPIToken := fun _ => Except.error "503 Service Unavailable"
  ListAPITokens := Except.error "503 Service Unavailable"
  AuthTokensPost := fun _ _ => Except.error "503 Service Unavailable"

/-- The database plan of the specification's example: organization, name and
group set, the optional attributes null, the computed ones unknown. -/
def ordersPlan : DatabaseResourceModel :=
  { OrganizationName := TypesString.value "acme"
    Name := TypesString.value "orders"
    Group := TypesString.value "default"
    SizeLimit := TypesString.null
    IsSchema := TypesBool.null
    Schema := TypesString.null
    DbId := TypesString.unknown
    Hostname := TypesString.unknown }

/-- A persisted database state: the example plan with its computed attributes known. -/
def ordersState : DatabaseResourceModel :=
  { ordersPlan with
    DbId := TypesString.value "0eb771dd-6906-11ee-8553-eaa7715aeaf2"
    Hostname := TypesString.value "orders-acme.turso.io" }

/-- A database configuration plan that sets only the two identifying attributes. -/
def configPlan : DatabaseConfigurationResourceModel :=
  { OrganizationSlug := TypesString.value "acme"
    DatabaseName := TypesString.value "orders"
    SizeLimit := TypesString.null
    BlockReads := TypesBool.null
    BlockWrites := TypesBool.null
    DeleteProtection := TypesBool.null }

/-- A database token plan asking for the given authorization level. -/
def tokenPlan (authorization : TypesString) : DatabaseTokenResourceModel :=
  { OrganizationName := TypesString.value "jpedroh"
    DatabaseName := TypesString.value "tfproviderdatasource"
    Expiration := TypesString.null
    Authorization := authorization
    JWT := TypesString.unknown }

/-- A persisted database token state. -/
def tokenState : DatabaseTokenResourceModel :=
  { tokenPlan (TypesString.value "read-only") with JWT := TypesString.value "eyJ0eXAiOi" }

/-- An API token plan. -/
def ciPlan : ApiTokenResourceModel :=
  { Name := TypesString.value "ci", Id := TypesString.unknown, Token := TypesString.unknown }

/-- A persisted API token state whose id differs from the one the remote side lists. -/
def ciState : ApiTokenResourceModel :=
  { Name := TypesString.value "ci"
    Id := TypesString.value "stale"
    Token := TypesString.value "eyJhbGciOi" }

/-- The remote database object of a database created in the group "default". -/
def createdDatabase : client.Database :=
  { sampleDatabase with Group := client.NewOptString "default" }

/-- A client whose remote side answers the creation and every later lookup of a
database with `createdDatabase`. -/
def createdClient : client.Client :=
  { okClient with
    CreateDatabase := fun _ _ =>
      Except.ok (client.CreateDatabaseRes.CreateDatabaseOK
        { Database := { Value := createdDatabase, Set := true } })
    GetDatabase := fun _ =>
      Except.ok (client.GetDatabaseRes.GetDatabaseOK
        { Database := { Value := createdDatabase, Set := true } }) }

/-- A client whose remote side answers the creation and the lookup of a database
without error, with a variant other than the OK one. -/
def otherClient : client.Client :=
  { okClient with
    CreateDatabase := fun _ _ => Except.ok client.CreateDatabaseRes.Other
    GetDatabase := fun _ => Except.ok client.GetDatabaseRes.Other }

end provider

/-! ## Diagnostics lemmas -/

namespace diag

/-- Appending no diagnostic changes nothing. -/
theorem Diagnostics.Append_nil (diags : Diagnostics) : Diagnostics.Append diags [] = diags := rfl

/-- A collection without errors contains no error diagnostic. -/
theorem Diagnostics.Contains_eq_false_of_noError (diags : Diagnostics) (s d : String)
    (h : Diagnostics.HasError diags = false) :
    Diagnostics.Contains diags { severity := Severity.Error, summary := s, detail := d } = false := by
  induction diags with
  | nil => rfl
  | cons e es ih =>
    simp only [Diagnostics.HasError, List.any_cons, Bool.or_eq_false_iff, decide_eq_false_iff_not]
      at h
    simp only [Diagnostics.Contains, List.any_cons, Bool.or_eq_false_iff, decide_eq_false_iff_not]
    refine ⟨?_, ih h.2⟩
    intro he
    exact h.1 (by rw [he])

/-- On a collection without errors `AddError` appends exactly the new error. -/
theorem Diagnostics.AddError_of_noError (diags : Diagnostics) (s d : String)
    (h : Diagnostics.HasError diags = false) :
    Diagnostics.AddError diags s d
      = diags ++ [{ severity := Severity.Error, summary := s, detail := d }] := by
  simp [Diagnostics.AddError, Diagnostics.Append, Diagnostics.Contains_eq_false_of_noError diags s d h]

/-- After `AddError` the collection has an error. -/
theorem Diagnostics.HasError_AddError (diags : Diagnostics) (s d : String) :
    Diagnostics.HasError (Diagnostics.AddError diags s d) = true := by
  unfold Diagnostics.AddError Diagnostics.Append
  simp only [List.foldl_cons, List.foldl_nil]
  split
  · rename_i hc
    simp only [Diagnostics.Contains, List.any_eq_true, decide_eq_true_eq] at hc
    obtain ⟨e, he, rfl⟩ := hc
    simp only [Diagnostics.HasError, List.any_eq_true, decide_eq_true_eq]
    exact ⟨_, he, rfl⟩
  · simp [Diagnostics.HasError]

end diag

/-! ## Splitting lemmas -/

namespace strings

/-- Cutting finds nothing exactly when the separator does not occur. -/
theorem cut_eq_none_iff (sep : Char) (s : List Char) : cut sep s = none ↔ sep ∉ s := by
  induction s with
  | nil => simp [cut]
  | cons c cs ih =>
    unfold cut
    by_cases h : c = sep
    · simp [h]
    · have h2 : ¬ sep = c := fun e => h e.symm
      simp [h, h2, ih]

/-- A successful cut splits the sequence around a separator that is the first one. -/
theorem cut_eq_some (sep : Char) (s p q : List Char) (h : cut sep s = some (p, q)) :
    s = p ++ sep :: q ∧ sep ∉ p := by
  induction s generalizing p with
  | nil => simp [cut] at h
  | cons c cs ih =>
    unfold cut at h
    by_cases hc : c = sep
    · simp only [hc, if_true, Option.some.injEq, Prod.mk.injEq] at h
      obtain ⟨rfl, rfl⟩ := h
      simp [hc]
    · simp only [hc, if_false, Option.map_eq_some', Prod.mk.injEq] at h
      obtain ⟨⟨p1, q1⟩, hcut, hp, hq⟩ := h
      simp only at hp hq
      subst hp hq
      obtain ⟨hs, hn⟩ := ih p1 hcut
      refine ⟨by rw [hs]; rfl, ?_⟩
      simp only [List.mem_cons, not_or]
      exact ⟨fun e => hc e.symm, hn⟩

/-- Cutting a sequence built around a separator, with none before it, gives back
the two sides. -/
theorem cut_append (sep : Char) (a b : List Char) (h : sep ∉ a) :
    cut sep (a ++ sep :: b) = some (a, b) := by
  induction a with
  | nil => simp [cut]
  | cons c cs ih =>
    simp only [List.mem_cons, not_or] at h
    have hc : ¬ c = sep := fun e => h.1 e.symm
    simp [cut, hc, ih h.2]

/-- With enough cuts allowed, the number of pieces is the number of separators
plus one. -/
theorem genSplit_length (sep : Char) (k : Nat) (s : List Char) (h : s.count sep ≤ k) :
    (genSplit sep k s).length = s.count sep + 1 := by
  induction k generalizing s with
  | zero =>
    have h0 : s.count sep = 0 := Nat.le_zero.mp h
    simp [genSplit, h0]
  | succ k ih =>
    unfold genSplit
    cases hcut : cut sep s with
    | none =>
      have hn := (cut_eq_none_iff sep s).mp hcut
      simp [List.count_eq_zero_of_not_mem hn]
    | some pq =>
      obtain ⟨p, q⟩ := pq
      obtain ⟨hs, hn⟩ := cut_eq_some sep s p q hcut
      have hcount : s.count sep = q.count sep + 1 := by
        rw [hs, List.count_append, List.count_eq_zero_of_not_mem hn]
        simp
      simp only [List.length_cons]
      rw [ih q (by omega), hcount]

/-- A sequence with exactly one separator splits into its two sides, as soon as
one cut is allowed. -/
theorem genSplit_pair (sep : Char) (k : Nat) (a b : List Char) (ha : sep ∉ a) (hb : sep ∉ b) :
    genSplit sep (k + 1) (a ++ sep :: b) = [a, b] := by
  unfold genSplit
  rw [cut_append sep a b ha]
  cases k with
  | zero => rfl
  | succ k =>
    simp only [genSplit, (cut_eq_none_iff sep b).mpr hb]

/-- With one cut allowed, the pieces are the text before the first separator and
everything after it. -/
theorem genSplit_one (sep : Char) (a b : List Char) (ha : sep ∉ a) :
    genSplit sep 1 (a ++ sep :: b) = [a, b] := by
  unfold genSplit
  rw [cut_append sep a b ha]
  rfl

/-- The characters of two strings joined by the separator "/". -/
theorem data_join (a b : String) : (a ++ "/" ++ b).data = a.data ++ '/' :: b.data := by
  simp [String.data_append]

/-- `Split` returns one piece more than there are separators. -/
theorem Split_length (s : String) (sep : Char) :
    (Split s sep).length = s.data.count sep + 1 := by
  simp [Split, SplitN, genSplit_length]

/-- `Split` of two separator-free strings joined by "/" gives back the two. -/
theorem Split_join (a b : String) (ha : '/' ∉ a.data) (hb : '/' ∉ b.data) :
    Split (a ++ "/" ++ b) '/' = [a, b] := by
  have hcount : (a.data ++ '/' :: b.data).count '/' = 0 + 1 := by
    rw [List.count_append, List.count_eq_zero_of_not_mem ha, List.count_cons_self,
      List.count_eq_zero_of_not_mem hb]
  simp only [Split, SplitN, data_join, hcount]
  simp [genSplit_pair '/' 0 a.data b.data ha hb]

/-- `SplitN` with a count of two cuts at the first "/" only. -/
theorem SplitN_two_join (a b : String) (ha : '/' ∉ a.data) :
    SplitN (a ++ "/" ++ b) '/' 2 = [a, b] := by
  simp only [SplitN, data_join]
  simp [genSplit_one '/' a.data b.data ha]

/-- `SplitN` with a count of two returns the string whole when it holds no "/". -/
theorem SplitN_two_whole (s : String) (h : '/' ∉ s.data) : SplitN s '/' 2 = [s] := by
  simp [SplitN, genSplit, (cut_eq_none_iff '/' s.data).mpr h]

/-- `Split` gives exactly two pieces only for two separator-free strings joined by
one "/". -/
theorem Split_eq_pair (s a b : String) (h : Split s '/' = [a, b]) :
    s = a ++ "/" ++ b ∧ '/' ∉ a.data ∧ '/' ∉ b.data := by
  have hlen : s.data.count '/' = 1 := by
    have := Split_length s '/'
    rw [h] at this
    simp at this
    omega
  simp only [Split, SplitN, hlen] at h
  simp only [show ((-1 : Int) = 0) = False from by decide, if_false,
    show ((-1 : Int) < 0) = True from by decide, if_true] at h
  unfold genSplit at h
  cases hcut : cut '/' s.data with
  | none =>
    rw [hcut] at h
    simp at h
  | some pq =>
    obtain ⟨p, q⟩ := pq
    rw [hcut] at h
    simp only [genSplit, List.map_cons, List.map_nil, List.cons.injEq, and_true] at h
    obtain ⟨hs, hn⟩ := cut_eq_some '/' s.data p q hcut
    obtain ⟨hp, hq⟩ := h
    subst hp hq
    have hq0 : q.count '/' = 0 := by
      rw [hs, List.count_append, List.count_eq_zero_of_not_mem hn, List.count_cons_self] at hlen
      omega
    refine ⟨?_, hn, List.count_eq_zero.mp hq0⟩
    apply String.ext
    rw [data_join]
    exact hs

/-- A string that holds a "/" is a text without "/", a "/" and a remainder. -/
theorem exists_join_of_mem (s : String) (h : '/' ∈ s.data) :
    ∃ a b : String, s = a ++ "/" ++ b ∧ '/' ∉ a.data := by
  cases hcut : cut '/' s.data with
  | none => exact absurd h ((cut_eq_none_iff '/' s.data).mp hcut)
  | some pq =>
    obtain ⟨p, q⟩ := pq
    obtain ⟨hs, hn⟩ := cut_eq_some '/' s.data p q hcut
    refine ⟨String.mk p, String.mk q, ?_, hn⟩
    apply String.ext
    rw [data_join]
    exact hs

/-- Joining on the left can be undone. -/
theorem append_left_cancel (p s t : String) : p ++ s = p ++ t ↔ s = t := by
  constructor
  · intro h
    have hd := congrArg String.data h
    simp only [String.data_append, List.append_cancel_left_eq] at hd
    exact String.ext hd
  · intro h
    rw [h]

end strings

namespace provider

/-! ## Import lemmas -/

/-- An identifier with a "/" decodes into the text before the first "/" and the
text after it. -/
theorem ExtractDbIdFromImportStateId_first (a b : String) (ha : '/' ∉ a.data) :
    ExtractDbIdFromImportStateId (a ++ "/" ++ b) = (a, b, none) := by
  simp [ExtractDbIdFromImportStateId, strings.SplitN_two_join a b ha]

/-- An identifier without "/" does not decode. -/
theorem ExtractDbIdFromImportStateId_whole (id : String) (h : '/' ∉ id.data) :
    ExtractDbIdFromImportStateId id
      = ("", "", some (id ++ " is not a valid import state ID format. The expected format is: organizationSlug/databaseName")) := by
  simp [ExtractDbIdFromImportStateId, strings.SplitN_two_whole id h]

/-- The database import rejects every identifier that does not split into two
non-empty parts: one diagnostic, no call, the state untouched. -/
theorem DatabaseResource.ImportState_database_rejected (quote : String → String) (r : client.Client)
    (id : String) (resp : resource.Response DatabaseResourceModel)
    (h : ¬ ∃ a b, a ≠ "" ∧ b ≠ "" ∧ strings.Split id '/' = [a, b]) :
    DatabaseResource.ImportState quote r { ID := id } resp
      = { resp := { resp with Diagnostics := (diag.Diagnostics.AddError resp.Diagnostics
                      "Unexpected Import Identifier"
                      ("Expected import identifier with format: organization/name. Got: "
                        ++ quote id)) }
          calls := [] } := by
  unfold DatabaseResource.ImportState
  simp only []
  split
  · rename_i a b hsplit
    split
    · rfl
    · rename_i hne
      simp only [not_or] at hne
      exact absurd ⟨a, b, hne.1, hne.2, hsplit⟩ h
  · rfl

/-- The database import of an identifier with two non-empty parts looks the
database up by these parts, and by nothing else. -/
theorem DatabaseResource.ImportState_calls_of_pair (quote : String → String) (r : client.Client)
    (id a b : String) (resp : resource.Response DatabaseResourceModel)
    (h : strings.Split id '/' = [a, b]) (ha : a ≠ "") (hb : b ≠ "") :
    (DatabaseResource.ImportState quote r { ID := id } resp).calls
      = [client.Call.GetDatabase { OrganizationSlug := a, DatabaseName := b }] := by
  unfold DatabaseResource.ImportState
  simp only [h, ha, hb, or_self, if_false]
  split
  · rfl
  · split <;> rfl

/-- The database import of an identifier with two non-empty parts, when the lookup
answers the OK variant: the state holds the two parts and the answer's group,
identifier and hostname, every other attribute being as it was (null on an empty
state), and no diagnostic is added. -/
theorem DatabaseResource.ImportState_ok_of_pair (quote : String → String) (r : client.Client)
    (id a b : String) (resp : resource.Response DatabaseResourceModel) (p : client.GetDatabaseOK)
    (h : strings.Split id '/' = [a, b]) (ha : a ≠ "") (hb : b ≠ "")
    (hcall : r.GetDatabase { OrganizationSlug := a, DatabaseName := b }
      = Except.ok (client.GetDatabaseRes.GetDatabaseOK p)) :
    (DatabaseResource.ImportState quote r { ID := id } resp).resp
      = { State := some
            { OrganizationName := TypesString.value a
              Name := TypesString.value b
              Group := TypesString.value p.Database.Value.Group.Value
              SizeLimit := (resp.State.getD
                { OrganizationName := TypesString.null, Name := TypesString.null
                  Group := TypesString.null, SizeLimit := TypesString.null
                  IsSchema := TypesBool.null, Schema := TypesString.null
                  DbId := TypesString.null, Hostname := TypesString.null }).SizeLimit
              IsSchema := (resp.State.getD
                { OrganizationName := TypesString.null, Name := TypesString.null
                  Group := TypesString.null, SizeLimit := TypesString.null
                  IsSchema := TypesBool.null, Schema := TypesString.null
                  DbId := TypesString.null, Hostname := TypesString.null }).IsSchema
              Schema := (resp.State.getD
                { OrganizationName := TypesString.null, Name := TypesString.null
                  Group := TypesString.null, SizeLimit := TypesString.null
                  IsSchema := TypesBool.null, Schema := TypesString.null
                  DbId := TypesString.null, Hostname := TypesString.null }).Schema
              DbId := TypesString.value p.Database.Value.DbId.Value
              Hostname := TypesString.value p.Database.Value.Hostname.Value }
          Diagnostics := resp.Diagnostics } := by
  unfold DatabaseResource.ImportState
  simp [h, ha, hb, hcall, DatabaseResourceModel.SetAttribute, diag.Diagnostics.Append_nil,
    types.StringValue, TypesString.ValueString]

/-- The API token import rejects every identifier that does not split into two
non-empty parts: one diagnostic, no call, the state untouched. -/
theorem ApiTokenResource.ImportState_token_rejected (quote : String → String) (r : client.Client)
    (id : String) (resp : resource.Response ApiTokenResourceModel)
    (h : ¬ ∃ a b, a ≠ "" ∧ b ≠ "" ∧ strings.Split id '/' = [a, b]) :
    ApiTokenResource.ImportState quote r { ID := id } resp
      = { resp := { resp with Diagnostics := (diag.Diagnostics.AddError resp.Diagnostics
                      "Unexpected Import Identifier"
                      ("Expected import identifier with format: name/token. Got: "
                        ++ quote id)) }
          calls := [] } := by
  unfold ApiTokenResource.ImportState
  simp only []
  split
  · rename_i a b hsplit
    split
    · rfl
    · rename_i hne
      simp only [not_or] at hne
      exact absurd ⟨a, b, hne.1, hne.2, hsplit⟩ h
  · rfl

/-- The API token import of an identifier with two non-empty parts: the name and
the token are the two parts, the tokens are listed once, the id is written when
the scan finds a token and left as it was otherwise, and no diagnostic is added. -/
theorem ApiTokenResource.ImportState_of_pair (quote : String → String) (r : client.Client)
    (id a b : String) (resp : resource.Response ApiTokenResourceModel)
    (h : strings.Split id '/' = [a, b]) (ha : a ≠ "") (hb : b ≠ "") :
    ApiTokenResource.ImportState quote r { ID := id } resp
      = { resp :=
            { State := some
                { Name := TypesString.value a
                  Id := match (ApiTokenResource.getTokenByName r a).1 with
                    | some token => TypesString.value token.ID.Value
                    | none => (resp.State.getD { Name := TypesString.null, Id := TypesString.null
                                                 Token := TypesString.null }).Id
                  Token := TypesString.value b }
              Diagnostics := resp.Diagnostics }
          calls := [client.Call.ListAPITokens] } := by
  unfold ApiTokenResource.ImportState
  simp only [h, ha, hb, or_self, if_false, ApiTokenResourceModel.SetAttribute,
    diag.Diagnostics.Append_nil, Option.getD_some]
  cases (ApiTokenResource.getTokenByName r a).1 <;> rfl

/-- Two parts of a split that are both non-empty exist for no identifier with more
or fewer than one "/". -/
theorem not_pair_of_count (id : String) (h : id.data.count '/' ≠ 1) :
    ¬ ∃ a b, a ≠ "" ∧ b ≠ "" ∧ strings.Split id '/' = [a, b] := by
  rintro ⟨a, b, _, _, hs⟩
  have hlen := strings.Split_length id '/'
  rw [hs] at hlen
  simp at hlen
  omega

/-- C1: when the database creation call answers without error with the OK variant,
`DatabaseResource.Create` writes a state whose `db_id` and `hostname` are the
answer's, whose six user-set attributes are the plan's, and adds no diagnostic, so
no error is carried. -/
theorem DatabaseResource.Create_ok_state (r : client.Client)
    (req : resource.CreateRequest DatabaseResourceModel)
    (resp : resource.Response DatabaseResourceModel) (p : client.CreateDatabaseOK)
    (hclean : diag.Diagnostics.HasError resp.Diagnostics = false)
    (hcall : r.CreateDatabase
        { Name := req.Plan.Name.ValueString
          Group := req.Plan.Group.ValueString
          SizeLimit := client.NewOptString req.Plan.SizeLimit.ValueString
          Schema := client.NewOptString req.Plan.Schema.ValueString
          IsSchema := client.NewOptBool req.Plan.IsSchema.ValueBool }
        { OrganizationSlug := req.Plan.OrganizationName.ValueString }
      = Except.ok (client.CreateDatabaseRes.CreateDatabaseOK p)) :
    (DatabaseResource.Create r req resp).resp.State
        = some { OrganizationName := req.Plan.OrganizationName
                 Name := req.Plan.Name
                 Group := req.Plan.Group
                 SizeLimit := req.Plan.SizeLimit
                 IsSchema := req.Plan.IsSchema
                 Schema := req.Plan.Schema
                 DbId := TypesString.value p.Database.Value.DbId.Value
                 Hostname := TypesString.value p.Database.Value.Hostname.Value }
      ∧ (DatabaseResource.Create r req resp).resp.Diagnostics = resp.Diagnostics
      ∧ diag.Diagnostics.HasError (DatabaseResource.Create r req resp).resp.Diagnostics = false := by
  simp [DatabaseResource.Create, tfsdk.Get, tfsdk.Set, diag.Diagnostics.Append_nil, hclean, hcall,
    types.StringValue]

/-- Witness for C1: the example plan of the specification, created through `okClient`. -/
theorem DatabaseResource.Create_ok_state_witness :
    diag.Diagnostics.HasError (emptyResponse DatabaseResourceModel).Diagnostics = false
      ∧ (DatabaseResource.Create okClient { Plan := ordersPlan }
            (emptyResponse DatabaseResourceModel)).resp.State
          = some { OrganizationName := TypesString.value "acme"
                   Name := TypesString.value "orders"
                   Group := TypesString.value "default"
                   SizeLimit := TypesString.null
                   IsSchema := TypesBool.null
                   Schema := TypesString.null
                   DbId := TypesString.value "0eb771dd-6906-11ee-8553-eaa7715aeaf2"
                   Hostname := TypesString.value "orders-acme.turso.io" } :=
  ⟨rfl, (DatabaseResource.Create_ok_state okClient { Plan := ordersPlan }
    (emptyResponse DatabaseResourceModel) { Database := { Value := sampleDatabase, Set := true } }
    rfl rfl).1⟩

/-- C2: for each of the four resources, when the remote creation call answers with
an error, Create leaves the response state as it was (nothing is written) and adds
exactly one diagnostic: an error with summary "Client Error" whose detail is a fixed
lead-in followed by the text of the error. -/
theorem Create_error_no_state :
    (∀ (r : client.Client) (req : resource.CreateRequest DatabaseResourceModel)
        (resp : resource.Response DatabaseResourceModel) (err : String),
        diag.Diagnostics.HasError resp.Diagnostics = false →
        r.CreateDatabase
            { Name := req.Plan.Name.ValueString
              Group := req.Plan.Group.ValueString
              SizeLimit := client.NewOptString req.Plan.SizeLimit.ValueString
              Schema := client.NewOptString req.Plan.Schema.ValueString
              IsSchema := client.NewOptBool req.Plan.IsSchema.ValueBool }
            { OrganizationSlug := req.Plan.OrganizationName.ValueString }
          = Except.error err →
        (DatabaseResource.Create r req resp).resp.State = resp.State
          ∧ (DatabaseResource.Create r req resp).resp.Diagnostics
              = resp.Diagnostics ++
                [{ severity := diag.Severity.Error, summary := "Client Error"
                   detail := "Unable to create database, got error: " ++ err }])
    ∧ (∀ (r : client.Client) (req : resource.CreateRequest DatabaseConfigurationResourceModel)
        (resp : resource.Response DatabaseConfigurationResourceModel) (err : String),
        diag.Diagnostics.HasError resp.Diagnostics = false →
        r.UpdateDatabaseConfiguration
            { SizeLimit := client.NewOptString req.Plan.SizeLimit.ValueString
              BlockReads := client.NewOptBool req.Plan.BlockReads.ValueBool
              BlockWrites := client.NewOptBool req.Plan.BlockWrites.ValueBool
              DeleteProtection := client.NewOptBool req.Plan.DeleteProtection.ValueBool }
            { OrganizationSlug := req.Plan.OrganizationSlug.ValueString
              DatabaseName := req.Plan.DatabaseName.ValueString }
          = Except.error err →
        (DatabaseConfigurationResource.Create r req resp).resp.State = resp.State
          ∧ (DatabaseConfigurationResource.Create r req resp).resp.Diagnostics
              = resp.Diagnostics ++
                [{ severity := diag.Severity.Error, summary := "Client Error"
                   detail := "Unable to set database configuration, got error: " ++ err }])
    ∧ (∀ (r : client.Client) (req : resource.CreateRequest DatabaseTokenResourceModel)
        (resp : resource.Response DatabaseTokenResourceModel) (err : String),
        diag.Diagnostics.HasError resp.Diagnostics = false →
        r.AuthTokensPost { Set := false }
            { OrganizationName := req.Plan.OrganizationName.ValueString
              DatabaseName := req.Plan.DatabaseName.ValueString
              Expiration := client.NewOptString req.Plan.Expiration.ValueString }
          = Except.error err →
        (DatabaseTokenResource.Create r req resp).resp.State = resp.State
          ∧ (DatabaseTokenResource.Create r req resp).resp.Diagnostics
              = resp.Diagnostics ++
                [{ severity := diag.Severity.Error, summary := "Client Error"
                   detail := "Unable to create database, got error: " ++ err }])
    ∧ (∀ (r : client.Client) (req : resource.CreateRequest ApiTokenResourceModel)
        (resp : resource.Response ApiTokenResourceModel) (err : String),
        diag.Diagnostics.HasError resp.Diagnostics = false →
        r.CreateAPIToken { TokenName := req.Plan.Name.ValueString } = Except.error err →
        (ApiTokenResource.Create r req resp).resp.State = resp.State
          ∧ (ApiTokenResource.Create r req resp).resp.Diagnostics
              = resp.Diagnostics ++
                [{ severity := diag.Severity.Error, summary := "Client Error"
                   detail := "Unable to create ApiToken, got error: " ++ err }]) := by
  refine ⟨?_, ?_, ?_, ?_⟩
  · intro r req resp err hclean hcall
    simp [DatabaseResource.Create, tfsdk.Get, diag.Diagnostics.Append_nil, hclean, hcall,
      diag.Diagnostics.AddError_of_noError]
  · intro r req resp err hclean hcall
    simp [DatabaseConfigurationResource.Create, tfsdk.Get, diag.Diagnostics.Append_nil, hclean,
      hcall, diag.Diagnostics.AddError_of_noError]
  · intro r req resp err hclean hcall
    simp [DatabaseTokenResource.Create, tfsdk.Get, diag.Diagnostics.Append_nil, hclean, hcall,
      diag.Diagnostics.AddError_of_noError]
  · intro r req resp err hclean hcall
    simp [ApiTokenResource.Create, tfsdk.Get, diag.Diagnostics.Append_nil, hclean, hcall,
      diag.Diagnostics.AddError_of_noError]

/-- Witness for C2: the four Creates against `failingClient`, starting from the
empty response: no state, and the single error diagnostic. -/
theorem Create_error_no_state_witness :
    ((DatabaseResource.Create failingClient { Plan := ordersPlan }
          (emptyResponse DatabaseResourceModel)).resp.State = none
      ∧ (DatabaseResource.Create failingClient { Plan := ordersPlan }
          (emptyResponse DatabaseResourceModel)).resp.Diagnostics
          = [{ severity := diag.Severity.Error, summary := "Client Error"
               detail := "Unable to create database, got error: 503 Service Unavailable" }])
    ∧ ((DatabaseConfigurationResource.Create failingClient { Plan := configPlan }
          (emptyResponse DatabaseConfigurationResourceModel)).resp.State = none
      ∧ (DatabaseConfigurationResource.Create failingClient { Plan := configPlan }
          (emptyResponse DatabaseConfigurationResourceModel)).resp.Diagnostics
          = [{ severity := diag.Severity.Error, summary := "Client Error"
               detail :=
                "Unable to set database configuration, got error: 503 Service Unavailable" }])
    ∧ ((DatabaseTokenResource.Create failingClient { Plan := tokenPlan TypesString.null }
          (emptyResponse DatabaseTokenResourceModel)).resp.State = none
      ∧ (DatabaseTokenResource.Create failingClient { Plan := tokenPlan TypesString.null }
          (emptyResponse DatabaseTokenResourceModel)).resp.Diagnostics
          = [{ severity := diag.Severity.Error, summary := "Client Error"
               detail := "Unable to create database, got error: 503 Service Unavailable" }])
    ∧ ((ApiTokenResource.Create failingClient { Plan := ciPlan }
          (emptyResponse ApiTokenResourceModel)).resp.State = none
      ∧ (ApiTokenResource.Create failingClient { Plan := ciPlan }
          (emptyResponse ApiTokenResourceModel)).resp.Diagnostics
          = [{ severity := diag.Severity.Error, summary := "Client Error"
               detail := "Unable to create ApiToken, got error: 503 Service Unavailable" }]) :=
  ⟨Create_error_no_state.1 failingClient { Plan := ordersPlan }
      (emptyResponse DatabaseResourceModel) "503 Service Unavailable" rfl rfl,
   Create_error_no_state.2.1 failingClient { Plan := configPlan }
      (emptyResponse DatabaseConfigurationResourceModel) "503 Service Unavailable" rfl rfl,
   Create_error_no_state.2.2.1 failingClient { Plan := tokenPlan TypesString.null }
      (emptyResponse DatabaseTokenResourceModel) "503 Service Unavailable" rfl rfl,
   Create_error_no_state.2.2.2 failingClient { Plan := ciPlan }
      (emptyResponse ApiTokenResourceModel) "503 Service Unavailable" rfl rfl⟩

/-- C3, as stated, fails: a database configuration plan that leaves `size_limit` and
the three flags null is created through a remote side that echoes the request
without error, and the written state holds the answer's values (the empty string
and false), not the plan's nulls. -/
theorem DatabaseConfigurationResource.Create_not_plan_values :
    (DatabaseConfigurationResource.Create okClient { Plan := configPlan }
        (emptyResponse DatabaseConfigurationResourceModel)).resp.Diagnostics = []
      ∧ (DatabaseConfigurationResource.Create okClient { Plan := configPlan }
          (emptyResponse DatabaseConfigurationResourceModel)).resp.State
        = some { OrganizationSlug := TypesString.value "acme"
                 DatabaseName := TypesString.value "orders"
                 SizeLimit := TypesString.value ""
                 BlockReads := TypesBool.value false
                 BlockWrites := TypesBool.value false
                 DeleteProtection := TypesBool.value false }
      ∧ configPlan.SizeLimit = TypesString.null
      ∧ ¬ ∀ st, (DatabaseConfigurationResource.Create okClient { Plan := configPlan }
            (emptyResponse DatabaseConfigurationResourceModel)).resp.State = some st →
          st.SizeLimit = configPlan.SizeLimit ∧ st.BlockReads = configPlan.BlockReads
            ∧ st.BlockWrites = configPlan.BlockWrites
            ∧ st.DeleteProtection = configPlan.DeleteProtection := by
  refine ⟨rfl, rfl, rfl, ?_⟩
  intro h
  have h1 := (h _ rfl).1
  exact absurd h1 (by decide)

/-- C3, amended: after a successful Create the attributes that Create does not
assign from the answer hold the plan's values (all six user-set attributes of the
database, all four of the database token, `organization_slug` and `database_name`
of the database configuration), while the API token's `name` and the database
configuration's `size_limit`, `block_reads`, `block_writes` and
`delete_protection` hold the values of the remote answer. -/
theorem Create_ok_frame :
    (∀ (r : client.Client) (req : resource.CreateRequest DatabaseResourceModel)
        (resp : resource.Response DatabaseResourceModel) (res : client.CreateDatabaseRes),
        diag.Diagnostics.HasError resp.Diagnostics = false →
        r.CreateDatabase
            { Name := req.Plan.Name.ValueString
              Group := req.Plan.Group.ValueString
              SizeLimit := client.NewOptString req.Plan.SizeLimit.ValueString
              Schema := client.NewOptString req.Plan.Schema.ValueString
              IsSchema := client.NewOptBool req.Plan.IsSchema.ValueBool }
            { OrganizationSlug := req.Plan.OrganizationName.ValueString }
          = Except.ok res →
        ∃ st, (DatabaseResource.Create r req resp).resp.State = some st
          ∧ st.OrganizationName = req.Plan.OrganizationName ∧ st.Name = req.Plan.Name
          ∧ st.Group = req.Plan.Group ∧ st.SizeLimit = req.Plan.SizeLimit
          ∧ st.IsSchema = req.Plan.IsSchema ∧ st.Schema = req.Plan.Schema)
    ∧ (∀ (r : client.Client) (req : resource.CreateRequest DatabaseTokenResourceModel)
        (resp : resource.Response DatabaseTokenResourceModel) (res : client.AuthTokensPostRes),
        diag.Diagnostics.HasError resp.Diagnostics = false →
        r.AuthTokensPost { Set := false }
            { OrganizationName := req.Plan.OrganizationName.ValueString
              DatabaseName := req.Plan.DatabaseName.ValueString
              Expiration := client.NewOptString req.Plan.Expiration.ValueString }
          = Except.ok res →
        ∃ st, (DatabaseTokenResource.Create r req resp).resp.State = some st
          ∧ st.OrganizationName = req.Plan.OrganizationName
          ∧ st.DatabaseName = req.Plan.DatabaseName
          ∧ st.Expiration = req.Plan.Expiration
          ∧ st.Authorization = req.Plan.Authorization)
    ∧ (∀ (r : client.Client) (req : resource.CreateRequest DatabaseConfigurationResourceModel)
        (resp : resource.Response DatabaseConfigurationResourceModel)
        (res : client.DatabaseConfigurationResponse),
        diag.Diagnostics.HasError resp.Diagnostics = false →
        r.UpdateDatabaseConfiguration
            { SizeLimit := client.NewOptString req.Plan.SizeLimit.ValueString
              BlockReads := client.NewOptBool req.Plan.BlockReads.ValueBool
              BlockWrites := client.NewOptBool req.Plan.BlockWrites.ValueBool
              DeleteProtection := client.NewOptBool req.Plan.DeleteProtection.ValueBool }
            { OrganizationSlug := req.Plan.OrganizationSlug.ValueString
              DatabaseName := req.Plan.DatabaseName.ValueString }
          = Except.ok res →
        (DatabaseConfigurationResource.Create r req resp).resp.State
          = some { OrganizationSlug := req.Plan.OrganizationSlug
                   DatabaseName := req.Plan.DatabaseName
                   SizeLimit := TypesString.value res.SizeLimit.Value
                   BlockReads := TypesBool.value res.BlockReads.Value
                   BlockWrites := TypesBool.value res.BlockWrites.Value
                   DeleteProtection := TypesBool.value res.DeleteProtection.Value })
    ∧ (∀ (r : client.Client) (req : resource.CreateRequest ApiTokenResourceModel)
        (resp : resource.Response ApiTokenResourceModel) (res : client.CreateAPITokenOK),
        diag.Diagnostics.HasError resp.Diagnostics = false →
        r.CreateAPIToken { TokenName := req.Plan.Name.ValueString } = Except.ok res →
        (ApiTokenResource.Create r req resp).resp.State
          = some { Name := TypesString.value res.Name.Value
                   Id := TypesString.value res.ID.Value
                   Token := TypesString.value res.Token.Value }) := by
  refine ⟨?_, ?_, ?_, ?_⟩
  · intro r req resp res hclean hcall
    cases res <;>
      simp [DatabaseResource.Create, tfsdk.Get, tfsdk.Set, diag.Diagnostics.Append_nil, hclean,
        hcall]
  · intro r req resp res hclean hcall
    cases res <;>
      simp [DatabaseTokenResource.Create, tfsdk.Get, tfsdk.Set, diag.Diagnostics.Append_nil,
        hclean, hcall]
  · intro r req resp res hclean hcall
    simp [DatabaseConfigurationResource.Create, tfsdk.Get, tfsdk.Set,
      diag.Diagnostics.Append_nil, hclean, hcall, types.StringValue, types.BoolValue]
  · intro r req resp res hclean hcall
    simp [ApiTokenResource.Create, tfsdk.Get, tfsdk.Set, diag.Diagnostics.Append_nil, hclean,
      hcall, types.StringValue]

/-- Witness for C3 amended: the four Creates through `okClient` from the empty
response. -/
theorem Create_ok_frame_witness :
    (∃ st, (DatabaseResource.Create okClient { Plan := ordersPlan }
          (emptyResponse DatabaseResourceModel)).resp.State = some st
        ∧ st.OrganizationName = TypesString.value "acme" ∧ st.Name = TypesString.value "orders"
        ∧ st.Group = TypesString.value "default" ∧ st.SizeLimit = TypesString.null
        ∧ st.IsSchema = TypesBool.null ∧ st.Schema = TypesString.null)
    ∧ (∃ st, (DatabaseTokenResource.Create okClient
          { Plan := tokenPlan (TypesString.value "read-only") }
          (emptyResponse DatabaseTokenResourceModel)).resp.State = some st
        ∧ st.OrganizationName = TypesString.value "jpedroh"
        ∧ st.DatabaseName = TypesString.value "tfproviderdatasource"
        ∧ st.Expiration = TypesString.null
        ∧ st.Authorization = TypesString.value "read-only")
    ∧ (DatabaseConfigurationResource.Create okClient { Plan := configPlan }
          (emptyResponse DatabaseConfigurationResourceModel)).resp.State
        = some { OrganizationSlug := TypesString.value "acme"
                 DatabaseName := TypesString.value "orders"
                 SizeLimit := TypesString.value ""
                 BlockReads := TypesBool.value false
                 BlockWrites := TypesBool.value false
                 DeleteProtection := TypesBool.value false }
    ∧ (ApiTokenResource.Create okClient { Plan := ciPlan }
          (emptyResponse ApiTokenResourceModel)).resp.State
        = some { Name := TypesString.value "ci"
                 Id := TypesString.value "clPVSflqEe6Uyg"
                 Token := TypesString.value "eyJhbGciOi" } :=
  ⟨Create_ok_frame.1 okClient { Plan := ordersPlan } (emptyResponse DatabaseResourceModel)
      (client.CreateDatabaseRes.CreateDatabaseOK
        { Database := { Value := sampleDatabase, Set := true } }) rfl rfl,
   Create_ok_frame.2.1 okClient { Plan := tokenPlan (TypesString.value "read-only") }
      (emptyResponse DatabaseTokenResourceModel)
      (client.AuthTokensPostRes.AuthTokensPostOK { Jwt := client.NewOptString "eyJ0eXAiOi" })
      rfl rfl,
   Create_ok_frame.2.2.1 okClient { Plan := configPlan }
      (emptyResponse DatabaseConfigurationResourceModel)
      { SizeLimit := client.NewOptString "", BlockReads := client.NewOptBool false
        BlockWrites := client.NewOptBool false, DeleteProtection := client.NewOptBool false }
      rfl rfl,
   Create_ok_frame.2.2.2 okClient { Plan := ciPlan } (emptyResponse ApiTokenResourceModel)
      { Name := client.NewOptString "ci", ID := client.NewOptString "clPVSflqEe6Uyg"
        Token := client.NewOptString "eyJhbGciOi" } rfl rfl⟩

/-- C4, evaluated on the code: the calls of `DatabaseTokenResource.Create` do not
depend on the plan's `authorization`. A plan with `authorization = "read-only"`
and the same plan with `authorization = "full-access"` perform the very same
remote call, with the unset body and the parameters organization, database and
expiration only: the authorization level never reaches the request, while the
written state records "read-only". -/
theorem DatabaseTokenResource.Create_drops_authorization :
    (∀ (r : client.Client) (plan : DatabaseTokenResourceModel) (a : TypesString)
        (resp : resource.Response DatabaseTokenResourceModel),
        (DatabaseTokenResource.Create r { Plan := { plan with Authorization := a } } resp).calls
          = (DatabaseTokenResource.Create r { Plan := plan } resp).calls)
    ∧ (DatabaseTokenResource.Create okClient { Plan := tokenPlan (TypesString.value "read-only") }
        (emptyResponse DatabaseTokenResourceModel)).calls
      = [client.Call.AuthTokensPost { Set := false }
          { OrganizationName := "jpedroh"
            DatabaseName := "tfproviderdatasource"
            Expiration := { Value := "", Set := true } }]
    ∧ (DatabaseTokenResource.Create okClient { Plan := tokenPlan (TypesString.value "read-only") }
        (emptyResponse DatabaseTokenResourceModel)).calls
      = (DatabaseTokenResource.Create okClient
          { Plan := tokenPlan (TypesString.value "full-access") }
          (emptyResponse DatabaseTokenResourceModel)).calls
    ∧ (DatabaseTokenResource.Create okClient { Plan := tokenPlan (TypesString.value "read-only") }
        (emptyResponse DatabaseTokenResourceModel)).resp.State
      = some { OrganizationName := TypesString.value "jpedroh"
               DatabaseName := TypesString.value "tfproviderdatasource"
               Expiration := TypesString.null
               Authorization := TypesString.value "read-only"
               JWT := TypesString.value "eyJ0eXAiOi" } := by
  refine ⟨?_, rfl, rfl, rfl⟩
  intro r plan a resp
  unfold DatabaseTokenResource.Create
  simp only [tfsdk.Get, diag.Diagnostics.Append_nil]
  split
  · rfl
  · split <;> rfl

/-- C5: whatever the remote side answers, Read keeps the secret of the prior state:
`ApiTokenResource.Read` returns a state whose `token` is the prior state's, and
`DatabaseTokenResource.Read` one whose `jwt` is the prior state's. The response
handed to Read starts from the prior state. -/
theorem Read_keeps_secret :
    (∀ (r : client.Client) (req : resource.ReadRequest ApiTokenResourceModel)
        (resp : resource.Response ApiTokenResourceModel),
        resp.State = some req.State →
        (ApiTokenResource.Read r req resp).resp.State.map (fun st => st.Token)
          = some req.State.Token)
    ∧ (∀ (r : client.Client) (req : resource.ReadRequest DatabaseTokenResourceModel)
        (resp : resource.Response DatabaseTokenResourceModel),
        resp.State = some req.State →
        (DatabaseTokenResource.Read r req resp).resp.State.map (fun st => st.JWT)
          = some req.State.JWT) := by
  refine ⟨?_, ?_⟩
  · intro r req resp hprior
    unfold ApiTokenResource.Read
    simp only [tfsdk.Get, tfsdk.Set, diag.Diagnostics.Append_nil]
    split
    · simp [hprior]
    · simp
  · intro r req resp hprior
    unfold DatabaseTokenResource.Read
    simp only [tfsdk.Get, tfsdk.Set, diag.Diagnostics.Append_nil]
    split
    · simp [hprior]
    · simp

/-- Witness for C5: the persisted API token read back through `okClient`, whose list
holds a token of that name, and the persisted database token read back. -/
theorem Read_keeps_secret_witness :
    (ApiTokenResource.Read okClient { State := ciState } (priorResponse ciState)).resp.State.map
        (fun st => st.Token) = some (TypesString.value "eyJhbGciOi")
    ∧ (DatabaseTokenResource.Read okClient { State := tokenState }
        (priorResponse tokenState)).resp.State.map (fun st => st.JWT)
        = some (TypesString.value "eyJ0eXAiOi") :=
  ⟨Read_keeps_secret.1 okClient { State := ciState } (priorResponse ciState) rfl,
   Read_keeps_secret.2 okClient { State := tokenState } (priorResponse tokenState) rfl⟩

/-- C6: the remote calls made by Read depend only on the identifying attributes of
the prior state. Two prior states that agree on `organization_name` and `name`
(database), on `organization_slug` and `database_name` (database configuration),
or on `name` (API token) lead to the same calls with the same arguments, whatever
the other attributes hold; the two responses under construction carry the same
diagnostics. -/
theorem Read_calls_identifying_only :
    (∀ (r : client.Client) (s₁ s₂ : DatabaseResourceModel)
        (resp₁ resp₂ : resource.Response DatabaseResourceModel),
        s₁.OrganizationName = s₂.OrganizationName → s₁.Name = s₂.Name →
        resp₁.Diagnostics = resp₂.Diagnostics →
        (DatabaseResource.Read r { State := s₁ } resp₁).calls
          = (DatabaseResource.Read r { State := s₂ } resp₂).calls)
    ∧ (∀ (r : client.Client) (s₁ s₂ : DatabaseConfigurationResourceModel)
        (resp₁ resp₂ : resource.Response DatabaseConfigurationResourceModel),
        s₁.OrganizationSlug = s₂.OrganizationSlug → s₁.DatabaseName = s₂.DatabaseName →
        resp₁.Diagnostics = resp₂.Diagnostics →
        (DatabaseConfigurationResource.Read r { State := s₁ } resp₁).calls
          = (DatabaseConfigurationResource.Read r { State := s₂ } resp₂).calls)
    ∧ (∀ (r : client.Client) (s₁ s₂ : ApiTokenResourceModel)
        (resp₁ resp₂ : resource.Response ApiTokenResourceModel),
        s₁.Name = s₂.Name →
        resp₁.Diagnostics = resp₂.Diagnostics →
        (ApiTokenResource.Read r { State := s₁ } resp₁).calls
          = (ApiTokenResource.Read r { State := s₂ } resp₂).calls) := by
  refine ⟨?_, ?_, ?_⟩
  · intro r s₁ s₂ resp₁ resp₂ horg hname hdiag
    unfold DatabaseResource.Read
    simp only [tfsdk.Get, diag.Diagnostics.Append_nil, horg, hname, hdiag]
    split
    · rfl
    · split <;> rfl
  · intro r s₁ s₂ resp₁ resp₂ horg hname hdiag
    unfold DatabaseConfigurationResource.Read
    simp only [tfsdk.Get, diag.Diagnostics.Append_nil, horg, hname, hdiag]
    split
    · rfl
    · split <;> rfl
  · intro r s₁ s₂ resp₁ resp₂ _ hdiag
    unfold ApiTokenResource.Read
    simp only [tfsdk.Get, diag.Diagnostics.Append_nil, hdiag]
    split <;> rfl

/-- Witness for C6: pairs of prior states that agree on the identifying attributes
and differ elsewhere (computed attributes, optional attributes, the secret) are
read through `okClient`; the calls coincide, and the database call carries the
organization and the name only. -/
theorem Read_calls_identifying_only_witness :
    (DatabaseResource.Read okClient { State := ordersState } (priorResponse ordersState)).calls
        = [client.Call.GetDatabase { OrganizationSlug := "acme", DatabaseName := "orders" }]
    ∧ (DatabaseResource.Read okClient { State := ordersState } (priorResponse ordersState)).calls
        = (DatabaseResource.Read okClient { State := ordersPlan } (priorResponse ordersPlan)).calls
    ∧ (DatabaseConfigurationResource.Read okClient { State := configPlan }
          (priorResponse configPlan)).calls
        = (DatabaseConfigurationResource.Read okClient
            { State := { configPlan with SizeLimit := TypesString.value "1gb" } }
            (priorResponse configPlan)).calls
    ∧ (ApiTokenResource.Read okClient { State := ciState } (priorResponse ciState)).calls
        = (ApiTokenResource.Read okClient
            { State := { ciState with Token := TypesString.value "another-secret" } }
            (priorResponse ciState)).calls :=
  ⟨rfl,
   Read_calls_identifying_only.1 okClient ordersState ordersPlan (priorResponse ordersState)
      (priorResponse ordersPlan) rfl rfl rfl,
   Read_calls_identifying_only.2.1 okClient configPlan
      { configPlan with SizeLimit := TypesString.value "1gb" } (priorResponse configPlan)
      (priorResponse configPlan) rfl rfl rfl,
   Read_calls_identifying_only.2.2 okClient ciState
      { ciState with Token := TypesString.value "another-secret" } (priorResponse ciState)
      (priorResponse ciState) rfl rfl⟩

/-- C7, evaluated on the code: for every remote answer the state returned by
`DatabaseResource.Read` holds the prior state's `group`. In particular, when the
prior state holds `group = "default"` and the lookup answers the OK variant
carrying `Group = "replicas"`, Read succeeds without diagnostic, `db_id` and
`hostname` take the answer's values, and `group` stays "default": the answer's
group is not written. -/
theorem DatabaseResource.Read_keeps_stale_group :
    (∀ (r : client.Client) (prior : DatabaseResourceModel),
        (DatabaseResource.Read r { State := prior } (priorResponse prior)).resp.State.map
          (fun st => st.Group) = some prior.Group)
    ∧ okClient.GetDatabase { OrganizationSlug := "acme", DatabaseName := "orders" }
        = Except.ok (client.GetDatabaseRes.GetDatabaseOK
            { Database := { Value := sampleDatabase, Set := true } })
    ∧ sampleDatabase.Group.Value = "replicas"
    ∧ (DatabaseResource.Read okClient
          { State := { ordersState with DbId := TypesString.value "old-id"
                                        Hostname := TypesString.value "old-host" } }
          (priorResponse { ordersState with DbId := TypesString.value "old-id"
                                            Hostname := TypesString.value "old-host" })).resp
        = { State := some { OrganizationName := TypesString.value "acme"
                            Name := TypesString.value "orders"
                            Group := TypesString.value "default"
                            SizeLimit := TypesString.null
                            IsSchema := TypesBool.null
                            Schema := TypesString.null
                            DbId := TypesString.value "0eb771dd-6906-11ee-8553-eaa7715aeaf2"
                            Hostname := TypesString.value "orders-acme.turso.io" }
            Diagnostics := [] } := by
  refine ⟨?_, rfl, rfl, rfl⟩
  intro r prior
  unfold DatabaseResource.Read
  simp only [tfsdk.Get, tfsdk.Set, diag.Diagnostics.Append_nil, priorResponse,
    diag.Diagnostics.HasError, List.any_nil, Bool.false_eq_true, if_false]
  split
  · rfl
  · split <;> rfl

/-- C8, evaluated on the code: for every remote answer the state returned by
`ApiTokenResource.Read` is the prior state. In particular, when the remote list
holds a token named "ci" with ID "bbbb" and the prior state, also named "ci",
holds `id = "stale"`, the scan finds the token, yet the state Read returns is the
prior state, `id = "stale"` included: the attribute written from the token is
overwritten by the final write of the whole prior model. -/
theorem ApiTokenResource.Read_keeps_stale_id :
    (∀ (r : client.Client) (prior : ApiTokenResourceModel),
        (ApiTokenResource.Read r { State := prior } (priorResponse prior)).resp.State
          = some prior)
    ∧ ApiTokenResource.getTokenByName okClient "ci"
        = (some { Name := client.NewOptString "ci", ID := client.NewOptString "bbbb" }, none)
    ∧ (ApiTokenResource.Read okClient { State := ciState } (priorResponse ciState)).resp
        = { State := some { Name := TypesString.value "ci"
                            Id := TypesString.value "stale"
                            Token := TypesString.value "eyJhbGciOi" }
            Diagnostics := [] } :=
  ⟨fun _ _ => rfl, rfl, rfl⟩

/-- C9, evaluated on the code: whenever the listing call fails,
`ApiTokenResource.Read` performs it and ends with no diagnostic at all. In
particular, against `failingClient` it returns the prior state with an empty list
of diagnostics, while `ApiTokenResource.Delete` on the same failing remote side
adds its error. -/
theorem ApiTokenResource.Read_swallows_list_error :
    (∀ (r : client.Client) (err : String) (prior : ApiTokenResourceModel),
        (ApiTokenResource.Read { r with ListAPITokens := Except.error err } { State := prior }
            (priorResponse prior)).calls = [client.Call.ListAPITokens]
          ∧ (ApiTokenResource.Read { r with ListAPITokens := Except.error err }
              { State := prior } (priorResponse prior)).resp.Diagnostics = [])
    ∧ failingClient.ListAPITokens = Except.error "503 Service Unavailable"
    ∧ (ApiTokenResource.Read failingClient { State := ciState } (priorResponse ciState)).calls
        = [client.Call.ListAPITokens]
    ∧ (ApiTokenResource.Read failingClient { State := ciState } (priorResponse ciState)).resp
        = { State := some ciState, Diagnostics := [] }
    ∧ diag.Diagnostics.HasError
        (ApiTokenResource.Read failingClient { State := ciState }
          (priorResponse ciState)).resp.Diagnostics = false
    ∧ (ApiTokenResource.Delete failingClient { State := ciState }
          (priorResponse ciState)).resp.Diagnostics
        = [{ severity := diag.Severity.Error, summary := "Client Error"
             detail := "Unable to delete ApiToken, got error: 503 Service Unavailable" }] :=
  ⟨fun _ _ _ => ⟨rfl, rfl⟩, rfl, rfl, rfl, rfl, rfl⟩

/-- C10, evaluated on the code: the calls of `DatabaseResource.Update` do not depend
on the plan's `is_schema` and `schema`. In particular, when the prior state has
both null and the plan sets `is_schema = true` and `schema = "parent"`, Update
succeeds against `okClient`; its only call carries `size_limit` alone (the other
body fields unset), and the state it writes records the new `is_schema` and
`schema`. -/
theorem DatabaseResource.Update_records_unsent_change :
    (∀ (r : client.Client) (plan prior : DatabaseResourceModel) (b : TypesBool) (p : TypesString)
        (resp : resource.Response DatabaseResourceModel),
        (DatabaseResource.Update r
            { Plan := { plan with IsSchema := b, Schema := p }, State := prior } resp).calls
          = (DatabaseResource.Update r { Plan := plan, State := prior } resp).calls)
    ∧ (DatabaseResource.Update okClient
        { Plan := { ordersState with IsSchema := TypesBool.value true
                                     Schema := TypesString.value "parent" }
          State := ordersState } (priorResponse ordersState)).calls
      = [client.Call.UpdateDatabaseConfiguration
          { SizeLimit := { Value := "", Set := true }
            BlockReads := { Value := false, Set := false }
            BlockWrites := { Value := false, Set := false }
            DeleteProtection := { Value := false, Set := false } }
          { OrganizationSlug := "acme", DatabaseName := "orders" }]
    ∧ (DatabaseResource.Update okClient
        { Plan := { ordersState with IsSchema := TypesBool.value true
                                     Schema := TypesString.value "parent" }
          State := ordersState } (priorResponse ordersState)).resp
      = { State := some { ordersState with IsSchema := TypesBool.value true
                                           Schema := TypesString.value "parent" }
          Diagnostics := [] }
    ∧ (DatabaseResource.Update okClient
        { Plan := { ordersState with IsSchema := TypesBool.value true
                                     Schema := TypesString.value "parent" }
          State := ordersState } (priorResponse ordersState)).calls
      = (DatabaseResource.Update okClient { Plan := ordersState, State := ordersState }
          (priorResponse ordersState)).calls
    ∧ ordersState.IsSchema = TypesBool.null ∧ ordersState.Schema = TypesString.null := by
  refine ⟨?_, rfl, rfl, rfl, rfl, rfl⟩
  intro r plan prior b p resp
  unfold DatabaseResource.Update
  simp only [tfsdk.Get, diag.Diagnostics.Append_nil]
  split
  · rfl
  · split <;> rfl

/-- C11: when the remote update call answers with an error, `DatabaseResource.Update`
and `DatabaseConfigurationResource.Update` write nothing: the state of the
response, which starts as the prior state, is still the prior state, and exactly
one diagnostic is added, an error whose detail is a fixed lead-in followed by the
text of the error. -/
theorem Update_error_keeps_prior :
    (∀ (r : client.Client) (req : resource.UpdateRequest DatabaseResourceModel)
        (resp : resource.Response DatabaseResourceModel) (err : String),
        resp.State = some req.State →
        diag.Diagnostics.HasError resp.Diagnostics = false →
        r.UpdateDatabaseConfiguration
            { SizeLimit := client.NewOptString req.Plan.SizeLimit.ValueString
              BlockReads := client.OptBool.zero
              BlockWrites := client.OptBool.zero
              DeleteProtection := client.OptBool.zero }
            { OrganizationSlug := req.Plan.OrganizationName.ValueString
              DatabaseName := req.Plan.Name.ValueString }
          = Except.error err →
        (DatabaseResource.Update r req resp).resp.State = some req.State
          ∧ (DatabaseResource.Update r req resp).resp.Diagnostics
              = resp.Diagnostics ++
                [{ severity := diag.Severity.Error, summary := "Client Error"
                   detail := "Unable to update database, got error: " ++ err }])
    ∧ (∀ (r : client.Client) (req : resource.UpdateRequest DatabaseConfigurationResourceModel)
        (resp : resource.Response DatabaseConfigurationResourceModel) (err : String),
        resp.State = some req.State →
        diag.Diagnostics.HasError resp.Diagnostics = false →
        r.UpdateDatabaseConfiguration
            { SizeLimit := client.NewOptString req.Plan.SizeLimit.ValueString
              BlockReads := client.NewOptBool req.Plan.BlockReads.ValueBool
              BlockWrites := client.NewOptBool req.Plan.BlockWrites.ValueBool
              DeleteProtection := client.NewOptBool req.Plan.DeleteProtection.ValueBool }
            { OrganizationSlug := req.Plan.OrganizationSlug.ValueString
              DatabaseName := req.Plan.DatabaseName.ValueString }
          = Except.error err →
        (DatabaseConfigurationResource.Update r req resp).resp.State = some req.State
          ∧ (DatabaseConfigurationResource.Update r req resp).resp.Diagnostics
              = resp.Diagnostics ++
                [{ severity := diag.Severity.Error, summary := "Client Error"
                   detail := "Unable to set database configuration, got error: " ++ err }]) := by
  refine ⟨?_, ?_⟩
  · intro r req resp err hprior hclean hcall
    simp [DatabaseResource.Update, tfsdk.Get, diag.Diagnostics.Append_nil, hclean, hcall,
      hprior, diag.Diagnostics.AddError_of_noError]
  · intro r req resp err hprior hclean hcall
    simp [DatabaseConfigurationResource.Update, tfsdk.Get, diag.Diagnostics.Append_nil, hclean,
      hcall, hprior, diag.Diagnostics.AddError_of_noError]

/-- Witness for C11: a plan that changes `size_limit` (and, for the database,
`is_schema`) is sent to `failingClient`; the state stays the prior one. -/
theorem Update_error_keeps_prior_witness :
    ((DatabaseResource.Update failingClient
          { Plan := { ordersState with SizeLimit := TypesString.value "1gb"
                                       IsSchema := TypesBool.value true }
            State := ordersState } (priorResponse ordersState)).resp.State = some ordersState
      ∧ (DatabaseResource.Update failingClient
          { Plan := { ordersState with SizeLimit := TypesString.value "1gb"
                                       IsSchema := TypesBool.value true }
            State := ordersState } (priorResponse ordersState)).resp.Diagnostics
          = [{ severity := diag.Severity.Error, summary := "Client Error"
               detail := "Unable to update database, got error: 503 Service Unavailable" }])
    ∧ ((DatabaseConfigurationResource.Update failingClient
          { Plan := { configPlan with SizeLimit := TypesString.value "1gb" }
            State := configPlan } (priorResponse configPlan)).resp.State = some configPlan
      ∧ (DatabaseConfigurationResource.Update failingClient
          { Plan := { configPlan with SizeLimit := TypesString.value "1gb" }
            State := configPlan } (priorResponse configPlan)).resp.Diagnostics
          = [{ severity := diag.Severity.Error, summary := "Client Error"
               detail :=
                "Unable to set database configuration, got error: 503 Service Unavailable" }]) :=
  ⟨Update_error_keeps_prior.1 failingClient
      { Plan := { ordersState with SizeLimit := TypesString.value "1gb"
                                   IsSchema := TypesBool.value true }
        State := ordersState } (priorResponse ordersState) "503 Service Unavailable" rfl rfl rfl,
   Update_error_keeps_prior.2 failingClient
      { Plan := { configPlan with SizeLimit := TypesString.value "1gb" }, State := configPlan }
      (priorResponse configPlan) "503 Service Unavailable" rfl rfl rfl⟩

/-- C12: `DatabaseResource.Delete` makes one call, the deletion keyed by the state's
`organization_name` and `name`, and `ApiTokenResource.Delete` one call, the
revocation keyed by the state's `name`. Each ends with an error diagnostic exactly
when that call answers with an error; the diagnostic added then is the single
error whose detail is a fixed lead-in followed by the text of the error, and
nothing is added when the call succeeds. -/
theorem Delete_reports_error :
    (∀ (r : client.Client) (req : resource.DeleteRequest DatabaseResourceModel)
        (resp : resource.Response DatabaseResourceModel),
        diag.Diagnostics.HasError resp.Diagnostics = false →
        (DatabaseResource.Delete r req resp).calls
            = [client.Call.DeleteDatabase
                { OrganizationSlug := req.State.OrganizationName.ValueString
                  DatabaseName := req.State.Name.ValueString }]
          ∧ (diag.Diagnostics.HasError (DatabaseResource.Delete r req resp).resp.Diagnostics = true
              ↔ ∃ err, r.DeleteDatabase
                  { OrganizationSlug := req.State.OrganizationName.ValueString
                    DatabaseName := req.State.Name.ValueString } = Except.error err)
          ∧ (∀ err, r.DeleteDatabase
                  { OrganizationSlug := req.State.OrganizationName.ValueString
                    DatabaseName := req.State.Name.ValueString } = Except.error err →
              (DatabaseResource.Delete r req resp).resp.Diagnostics
                = resp.Diagnostics ++
                  [{ severity := diag.Severity.Error, summary := "Client Error"
                     detail := "Unable to delete database, got error: " ++ err }])
          ∧ (∀ u, r.DeleteDatabase
                  { OrganizationSlug := req.State.OrganizationName.ValueString
                    DatabaseName := req.State.Name.ValueString } = Except.ok u →
              (DatabaseResource.Delete r req resp).resp.Diagnostics = resp.Diagnostics))
    ∧ (∀ (r : client.Client) (req : resource.DeleteRequest ApiTokenResourceModel)
        (resp : resource.Response ApiTokenResourceModel),
        diag.Diagnostics.HasError resp.Diagnostics = false →
        (ApiTokenResource.Delete r req resp).calls
            = [client.Call.RevokeAPIToken { TokenName := req.State.Name.ValueString }]
          ∧ (diag.Diagnostics.HasError (ApiTokenResource.Delete r req resp).resp.Diagnostics = true
              ↔ ∃ err, r.RevokeAPIToken { TokenName := req.State.Name.ValueString }
                  = Except.error err)
          ∧ (∀ err, r.RevokeAPIToken { TokenName := req.State.Name.ValueString }
                  = Except.error err →
              (ApiTokenResource.Delete r req resp).resp.Diagnostics
                = resp.Diagnostics ++
                  [{ severity := diag.Severity.Error, summary := "Client Error"
                     detail := "Unable to delete ApiToken, got error: " ++ err }])
          ∧ (∀ u, r.RevokeAPIToken { TokenName := req.State.Name.ValueString } = Except.ok u →
              (ApiTokenResource.Delete r req resp).resp.Diagnostics = resp.Diagnostics)) := by
  refine ⟨?_, ?_⟩
  · intro r req resp hclean
    unfold DatabaseResource.Delete
    simp only [tfsdk.Get, diag.Diagnostics.Append_nil, hclean, Bool.false_eq_true, if_false]
    cases hcall : r.DeleteDatabase
        { OrganizationSlug := req.State.OrganizationName.ValueString
          DatabaseName := req.State.Name.ValueString } with
    | error e =>
      have hadd := diag.Diagnostics.AddError_of_noError resp.Diagnostics "Client Error"
        ("Unable to delete database, got error: " ++ e) hclean
      have herr := diag.Diagnostics.HasError_AddError resp.Diagnostics "Client Error"
        ("Unable to delete database, got error: " ++ e)
      refine ⟨rfl, ⟨fun _ => ⟨e, rfl⟩, fun _ => herr⟩, ?_, ?_⟩
      · intro err h
        cases h
        exact hadd
      · intro u h
        cases h
    | ok u =>
      refine ⟨rfl, ⟨fun h => ?_, fun h => ?_⟩, ?_, fun _ _ => rfl⟩
      · exact absurd (hclean.symm.trans h) (by decide)
      · obtain ⟨err, h⟩ := h
        cases h
      · intro err h
        cases h
  · intro r req resp hclean
    unfold ApiTokenResource.Delete
    simp only [tfsdk.Get, diag.Diagnostics.Append_nil, hclean, Bool.false_eq_true, if_false]
    cases hcall : r.RevokeAPIToken { TokenName := req.State.Name.ValueString } with
    | error e =>
      have hadd := diag.Diagnostics.AddError_of_noError resp.Diagnostics "Client Error"
        ("Unable to delete ApiToken, got error: " ++ e) hclean
      have herr := diag.Diagnostics.HasError_AddError resp.Diagnostics "Client Error"
        ("Unable to delete ApiToken, got error: " ++ e)
      refine ⟨rfl, ⟨fun _ => ⟨e, rfl⟩, fun _ => herr⟩, ?_, ?_⟩
      · intro err h
        cases h
        exact hadd
      · intro u h
        cases h
    | ok u =>
      refine ⟨rfl, ⟨fun h => ?_, fun h => ?_⟩, ?_, fun _ _ => rfl⟩
      · exact absurd (hclean.symm.trans h) (by decide)
      · obtain ⟨err, h⟩ := h
        cases h
      · intro err h
        cases h

/-- Witness for C12: deleting the persisted database and the persisted API token
against `failingClient`, whose answer stands for an object that is already gone. -/
theorem Delete_reports_error_witness :
    (DatabaseResource.Delete failingClient { State := ordersState }
        (priorResponse ordersState)).calls
      = [client.Call.DeleteDatabase { OrganizationSlug := "acme", DatabaseName := "orders" }]
    ∧ (DatabaseResource.Delete failingClient { State := ordersState }
        (priorResponse ordersState)).resp.Diagnostics
      = [{ severity := diag.Severity.Error, summary := "Client Error"
           detail := "Unable to delete database, got error: 503 Service Unavailable" }]
    ∧ (ApiTokenResource.Delete failingClient { State := ciState } (priorResponse ciState)).calls
      = [client.Call.RevokeAPIToken { TokenName := "ci" }]
    ∧ (ApiTokenResource.Delete okClient { State := ciState }
        (priorResponse ciState)).resp.Diagnostics = [] :=
  ⟨(Delete_reports_error.1 failingClient { State := ordersState } (priorResponse ordersState)
      rfl).1,
   (Delete_reports_error.1 failingClient { State := ordersState } (priorResponse ordersState)
      rfl).2.2.1 "503 Service Unavailable" rfl,
   (Delete_reports_error.2 failingClient { State := ciState } (priorResponse ciState) rfl).1,
   (Delete_reports_error.2 okClient { State := ciState } (priorResponse ciState)
      rfl).2.2.2 () rfl⟩

/-- C13: the two operations declared as doing nothing,
`DatabaseConfigurationResource.Delete` and `ApiTokenResource.Update`, make no
remote call and return the response exactly as it was handed over, state and
diagnostics alike, for every client, request and response. -/
theorem noop_operations :
    (∀ (r : client.Client) (req : resource.DeleteRequest DatabaseConfigurationResourceModel)
        (resp : resource.Response DatabaseConfigurationResourceModel),
        (DatabaseConfigurationResource.Delete r req resp).calls = []
          ∧ (DatabaseConfigurationResource.Delete r req resp).resp.Diagnostics = resp.Diagnostics
          ∧ (DatabaseConfigurationResource.Delete r req resp).resp.State = resp.State)
    ∧ (∀ (r : client.Client) (req : resource.UpdateRequest ApiTokenResourceModel)
        (resp : resource.Response ApiTokenResourceModel),
        (ApiTokenResource.Update r req resp).calls = []
          ∧ (ApiTokenResource.Update r req resp).resp.Diagnostics = resp.Diagnostics
          ∧ (ApiTokenResource.Update r req resp).resp.State = resp.State) :=
  ⟨fun _ _ _ => ⟨rfl, rfl, rfl⟩, fun _ _ _ => ⟨rfl, rfl, rfl⟩⟩

/-- C14: decoding undoes encoding. For all strings `a` and `b` that are non-empty and
hold no "/", `ExtractDbIdFromImportStateId` applied to `a`, "/" and `b` joined
returns the components `a` and `b` and no error. -/
theorem ExtractDbIdFromImportStateId_roundtrip (a b : String)
    (_ha : a ≠ "") (_hb : b ≠ "") (hsa : '/' ∉ a.data) (_hsb : '/' ∉ b.data) :
    ExtractDbIdFromImportStateId (a ++ "/" ++ b) = (a, b, none) :=
  ExtractDbIdFromImportStateId_first a b hsa

/-- Witness for C14: the identifier of the configuration test, "jpedroh" joined to
"tfproviderdatasource". -/
theorem ExtractDbIdFromImportStateId_roundtrip_witness :
    ExtractDbIdFromImportStateId "jpedroh/tfproviderdatasource"
      = ("jpedroh", "tfproviderdatasource", none) :=
  ExtractDbIdFromImportStateId_roundtrip "jpedroh" "tfproviderdatasource"
    (by decide) (by decide) (by decide) (by decide)

/-- C15, evaluated on the code: `ExtractDbIdFromImportStateId` accepts an empty
component. Every identifier that starts with "/" decodes without error into an
empty first component; "acme/" decodes into "acme" and the empty string, and
"/orders" into the empty string and "orders". The configuration import of "acme/"
then looks up the configuration of the database named by the empty string and
writes a state, with no diagnostic. -/
theorem ExtractDbIdFromImportStateId_accepts_empty :
    (∀ b : String, ExtractDbIdFromImportStateId ("/" ++ b) = ("", b, none))
    ∧ ExtractDbIdFromImportStateId "acme/" = ("acme", "", none)
    ∧ ExtractDbIdFromImportStateId "/orders" = ("", "orders", none)
    ∧ (DatabaseConfigurationResource.ImportState okClient { ID := "acme/" }
        (emptyResponse DatabaseConfigurationResourceModel)).calls
      = [client.Call.GetDatabaseConfiguration { OrganizationSlug := "acme", DatabaseName := "" }]
    ∧ (DatabaseConfigurationResource.ImportState okClient { ID := "acme/" }
        (emptyResponse DatabaseConfigurationResourceModel)).resp
      = { State := some { OrganizationSlug := TypesString.value "acme"
                          DatabaseName := TypesString.value ""
                          SizeLimit := TypesString.value "1gb"
                          BlockReads := TypesBool.value true
                          BlockWrites := TypesBool.value true
                          DeleteProtection := TypesBool.value false }
          Diagnostics := [] } := by
  refine ⟨?_, by decide, by decide, rfl, rfl⟩
  intro b
  have h := ExtractDbIdFromImportStateId_first "" b (by simp)
  simpa using h

/-- C16: on a response without error, `DatabaseResource.ImportState` and
`ApiTokenResource.ImportState` add the error "Unexpected Import Identifier",
leave the state untouched and make no call if and only if splitting the
identifier on "/" does not give exactly two non-empty parts. The detail of the
diagnostic names the expected two-part format and ends with the quoted
identifier. When the split does give two non-empty parts, they are the components
the import goes on with: the database is looked up by them, and the API token's
name and token are set to them. -/
theorem ImportState_rejects_iff :
    (∀ (quote : String → String) (r : client.Client) (id : String)
        (resp : resource.Response DatabaseResourceModel),
        diag.Diagnostics.HasError resp.Diagnostics = false →
        (((DatabaseResource.ImportState quote r { ID := id } resp).resp.Diagnostics
              = resp.Diagnostics ++
                [{ severity := diag.Severity.Error, summary := "Unexpected Import Identifier"
                   detail := "Expected import identifier with format: organization/name. Got: "
                      ++ quote id }]
            ∧ (DatabaseResource.ImportState quote r { ID := id } resp).resp.State = resp.State
            ∧ (DatabaseResource.ImportState quote r { ID := id } resp).calls = [])
          ↔ ¬ ∃ a b, a ≠ "" ∧ b ≠ "" ∧ strings.Split id '/' = [a, b])
        ∧ (∀ a b, a ≠ "" → b ≠ "" → strings.Split id '/' = [a, b] →
            (DatabaseResource.ImportState quote r { ID := id } resp).calls
              = [client.Call.GetDatabase { OrganizationSlug := a, DatabaseName := b }]))
    ∧ (∀ (quote : String → String) (r : client.Client) (id : String)
        (resp : resource.Response ApiTokenResourceModel),
        diag.Diagnostics.HasError resp.Diagnostics = false →
        (((ApiTokenResource.ImportState quote r { ID := id } resp).resp.Diagnostics
              = resp.Diagnostics ++
                [{ severity := diag.Severity.Error, summary := "Unexpected Import Identifier"
                   detail := "Expected import identifier with format: name/token. Got: "
                      ++ quote id }]
            ∧ (ApiTokenResource.ImportState quote r { ID := id } resp).resp.State = resp.State
            ∧ (ApiTokenResource.ImportState quote r { ID := id } resp).calls = [])
          ↔ ¬ ∃ a b, a ≠ "" ∧ b ≠ "" ∧ strings.Split id '/' = [a, b])
        ∧ (∀ a b, a ≠ "" → b ≠ "" → strings.Split id '/' = [a, b] →
            ∃ st, (ApiTokenResource.ImportState quote r { ID := id } resp).resp.State = some st
              ∧ st.Name = TypesString.value a ∧ st.Token = TypesString.value b)) := by
  refine ⟨?_, ?_⟩
  · intro quote r id resp hclean
    refine ⟨⟨?_, ?_⟩, ?_⟩
    · rintro ⟨_, _, hcalls⟩ ⟨a, b, ha, hb, hs⟩
      rw [DatabaseResource.ImportState_calls_of_pair quote r id a b resp hs ha hb] at hcalls
      cases hcalls
    · intro h
      rw [DatabaseResource.ImportState_database_rejected quote r id resp h]
      exact ⟨diag.Diagnostics.AddError_of_noError _ _ _ hclean, rfl, rfl⟩
    · intro a b ha hb hs
      exact DatabaseResource.ImportState_calls_of_pair quote r id a b resp hs ha hb
  · intro quote r id resp hclean
    refine ⟨⟨?_, ?_⟩, ?_⟩
    · rintro ⟨_, _, hcalls⟩ ⟨a, b, ha, hb, hs⟩
      rw [ApiTokenResource.ImportState_of_pair quote r id a b resp hs ha hb] at hcalls
      cases hcalls
    · intro h
      rw [ApiTokenResource.ImportState_token_rejected quote r id resp h]
      exact ⟨diag.Diagnostics.AddError_of_noError _ _ _ hclean, rfl, rfl⟩
    · intro a b ha hb hs
      rw [ApiTokenResource.ImportState_of_pair quote r id a b resp hs ha hb]
      exact ⟨_, rfl, rfl, rfl⟩

/-- Witness for C16: "acme" and "acme/" are rejected by the database import,
"/orders" and the empty identifier by the API token import, each with the
diagnostic naming the format and quoting the identifier; "acme/orders" is
accepted by the database import with the components "acme" and "orders". -/
theorem ImportState_rejects_iff_witness :
    ((DatabaseResource.ImportState quotePlain okClient { ID := "acme" }
          (emptyResponse DatabaseResourceModel)).resp.Diagnostics
        = [{ severity := diag.Severity.Error, summary := "Unexpected Import Identifier"
             detail :=
              "Expected import identifier with format: organization/name. Got: \"acme\"" }]
      ∧ (DatabaseResource.ImportState quotePlain okClient { ID := "acme" }
          (emptyResponse DatabaseResourceModel)).resp.State = none
      ∧ (DatabaseResource.ImportState quotePlain okClient { ID := "acme" }
          (emptyResponse DatabaseResourceModel)).calls = [])
    ∧ ((DatabaseResource.ImportState quotePlain okClient { ID := "acme/" }
          (emptyResponse DatabaseResourceModel)).resp.Diagnostics
        = [{ severity := diag.Severity.Error, summary := "Unexpected Import Identifier"
             detail :=
              "Expected import identifier with format: organization/name. Got: \"acme/\"" }]
      ∧ (DatabaseResource.ImportState quotePlain okClient { ID := "acme/" }
          (emptyResponse DatabaseResourceModel)).resp.State = none
      ∧ (DatabaseResource.ImportState quotePlain okClient { ID := "acme/" }
          (emptyResponse DatabaseResourceModel)).calls = [])
    ∧ ((ApiTokenResource.ImportState quotePlain okClient { ID := "/orders" }
          (emptyResponse ApiTokenResourceModel)).resp.Diagnostics
        = [{ severity := diag.Severity.Error, summary := "Unexpected Import Identifier"
             detail := "Expected import identifier with format: name/token. Got: \"/orders\"" }]
      ∧ (ApiTokenResource.ImportState quotePlain okClient { ID := "/orders" }
          (emptyResponse ApiTokenResourceModel)).resp.State = none
      ∧ (ApiTokenResource.ImportState quotePlain okClient { ID := "/orders" }
          (emptyResponse ApiTokenResourceModel)).calls = [])
    ∧ ((ApiTokenResource.ImportState quotePlain okClient { ID := "" }
          (emptyResponse ApiTokenResourceModel)).resp.Diagnostics
        = [{ severity := diag.Severity.Error, summary := "Unexpected Import Identifier"
             detail := "Expected import identifier with format: name/token. Got: \"\"" }]
      ∧ (ApiTokenResource.ImportState quotePlain okClient { ID := "" }
          (emptyResponse ApiTokenResourceModel)).resp.State = none
      ∧ (ApiTokenResource.ImportState quotePlain okClient { ID := "" }
          (emptyResponse ApiTokenResourceModel)).calls = [])
    ∧ (DatabaseResource.ImportState quotePlain okClient { ID := "acme/orders" }
          (emptyResponse DatabaseResourceModel)).calls
        = [client.Call.GetDatabase { OrganizationSlug := "acme", DatabaseName := "orders" }] :=
  ⟨(ImportState_rejects_iff.1 quotePlain okClient "acme"
      (emptyResponse DatabaseResourceModel) rfl).1.mpr (not_pair_of_count "acme" (by decide)),
   (ImportState_rejects_iff.1 quotePlain okClient "acme/"
      (emptyResponse DatabaseResourceModel) rfl).1.mpr
      (by
        rintro ⟨a, b, _, hb, hs⟩
        have h2 : strings.Split "acme/" '/' = ["acme", ""] := by decide
        rw [h2] at hs
        simp only [List.cons.injEq, and_true] at hs
        exact hb hs.2.symm),
   (ImportState_rejects_iff.2 quotePlain okClient "/orders"
      (emptyResponse ApiTokenResourceModel) rfl).1.mpr
      (by
        rintro ⟨a, b, ha, _, hs⟩
        have h2 : strings.Split "/orders" '/' = ["", "orders"] := by decide
        rw [h2] at hs
        simp only [List.cons.injEq, and_true] at hs
        exact ha hs.1.symm),
   (ImportState_rejects_iff.2 quotePlain okClient ""
      (emptyResponse ApiTokenResourceModel) rfl).1.mpr (not_pair_of_count "" (by decide)),
   (ImportState_rejects_iff.1 quotePlain okClient "acme/orders"
      (emptyResponse DatabaseResourceModel) rfl).2 "acme" "orders" (by decide) (by decide)
      (by decide)⟩

/-- C17, as stated, fails: in "acme/orders/eu" the text before the first "/" is
"acme" and the text after it is "orders/eu", both non-empty.
`ExtractDbIdFromImportStateId` decodes it into these two, while
`DatabaseResource.ImportState` and `ApiTokenResource.ImportState` reject it: the
error diagnostic, no state, no call. -/
theorem ImportState_rejects_further_separator :
    "acme" ++ "/" ++ "orders/eu" = "acme/orders/eu"
    ∧ ExtractDbIdFromImportStateId "acme/orders/eu" = ("acme", "orders/eu", none)
    ∧ (DatabaseResource.ImportState quotePlain okClient { ID := "acme/orders/eu" }
        (emptyResponse DatabaseResourceModel)).resp
      = { State := none
          Diagnostics :=
            [{ severity := diag.Severity.Error, summary := "Unexpected Import Identifier"
               detail := "Expected import identifier with format: organization/name. Got: \"acme/orders/eu\"" }] }
    ∧ (DatabaseResource.ImportState quotePlain okClient { ID := "acme/orders/eu" }
        (emptyResponse DatabaseResourceModel)).calls = []
    ∧ (ApiTokenResource.ImportState quotePlain okClient { ID := "acme/orders/eu" }
        (emptyResponse ApiTokenResourceModel)).resp
      = { State := none
          Diagnostics :=
            [{ severity := diag.Severity.Error, summary := "Unexpected Import Identifier"
               detail := "Expected import identifier with format: name/token. Got: \"acme/orders/eu\"" }] }
    ∧ (ApiTokenResource.ImportState quotePlain okClient { ID := "acme/orders/eu" }
        (emptyResponse ApiTokenResourceModel)).calls = [] :=
  ⟨by decide, by decide, rfl, rfl, rfl, rfl⟩

/-- C17, amended: `ExtractDbIdFromImportStateId` splits on the first "/" only: an
identifier made of a text without "/", a "/" and any text decodes into the first
text and everything after the "/", further "/" included. The database import and
the API token import split on every "/": with no "/" in either side and both
sides non-empty the two sides are the components, and when the text after the
first "/" holds a further "/" the identifier is rejected with the error
"Unexpected Import Identifier", no state written and no call made. -/
theorem import_decoders_split :
    (∀ a b : String, '/' ∉ a.data → ExtractDbIdFromImportStateId (a ++ "/" ++ b) = (a, b, none))
    ∧ (∀ (quote : String → String) (r : client.Client) (a b : String)
        (resp : resource.Response DatabaseResourceModel),
        diag.Diagnostics.HasError resp.Diagnostics = false →
        ('/' ∈ b.data →
          (DatabaseResource.ImportState quote r { ID := a ++ "/" ++ b } resp).resp.Diagnostics
              = resp.Diagnostics ++
                [{ severity := diag.Severity.Error, summary := "Unexpected Import Identifier"
                   detail := "Expected import identifier with format: organization/name. Got: "
                      ++ quote (a ++ "/" ++ b) }]
            ∧ (DatabaseResource.ImportState quote r { ID := a ++ "/" ++ b } resp).resp.State
                = resp.State
            ∧ (DatabaseResource.ImportState quote r { ID := a ++ "/" ++ b } resp).calls = [])
        ∧ (a ≠ "" → b ≠ "" → '/' ∉ a.data → '/' ∉ b.data →
          (DatabaseResource.ImportState quote r { ID := a ++ "/" ++ b } resp).calls
            = [client.Call.GetDatabase { OrganizationSlug := a, DatabaseName := b }]))
    ∧ (∀ (quote : String → String) (r : client.Client) (a b : String)
        (resp : resource.Response ApiTokenResourceModel),
        diag.Diagnostics.HasError resp.Diagnostics = false →
        ('/' ∈ b.data →
          (ApiTokenResource.ImportState quote r { ID := a ++ "/" ++ b } resp).resp.Diagnostics
              = resp.Diagnostics ++
                [{ severity := diag.Severity.Error, summary := "Unexpected Import Identifier"
                   detail := "Expected import identifier with format: name/token. Got: "
                      ++ quote (a ++ "/" ++ b) }]
            ∧ (ApiTokenResource.ImportState quote r { ID := a ++ "/" ++ b } resp).resp.State
                = resp.State
            ∧ (ApiTokenResource.ImportState quote r { ID := a ++ "/" ++ b } resp).calls = [])
        ∧ (a ≠ "" → b ≠ "" → '/' ∉ a.data → '/' ∉ b.data →
          ∃ st, (ApiTokenResource.ImportState quote r { ID := a ++ "/" ++ b } resp).resp.State
              = some st
            ∧ st.Name = TypesString.value a ∧ st.Token = TypesString.value b)) := by
  have hcount : ∀ a b : String, '/' ∈ b.data → (a ++ "/" ++ b).data.count '/' ≠ 1 := by
    intro a b hb
    rw [strings.data_join, List.count_append, List.count_cons_self]
    have := List.count_pos_iff.mpr hb
    omega
  refine ⟨ExtractDbIdFromImportStateId_first, ?_, ?_⟩
  · intro quote r a b resp hclean
    refine ⟨fun hb => ?_, fun ha hb hsa hsb => ?_⟩
    · rw [DatabaseResource.ImportState_database_rejected quote r _ resp
        (not_pair_of_count _ (hcount a b hb))]
      exact ⟨diag.Diagnostics.AddError_of_noError _ _ _ hclean, rfl, rfl⟩
    · exact DatabaseResource.ImportState_calls_of_pair quote r _ a b resp
        (strings.Split_join a b hsa hsb) ha hb
  · intro quote r a b resp hclean
    refine ⟨fun hb => ?_, fun ha hb hsa hsb => ?_⟩
    · rw [ApiTokenResource.ImportState_token_rejected quote r _ resp
        (not_pair_of_count _ (hcount a b hb))]
      exact ⟨diag.Diagnostics.AddError_of_noError _ _ _ hclean, rfl, rfl⟩
    · rw [ApiTokenResource.ImportState_of_pair quote r _ a b resp
        (strings.Split_join a b hsa hsb) ha hb]
      exact ⟨_, rfl, rfl, rfl⟩

/-- Witness for C17 amended: "acme/orders/eu" through the three decoders, and
"acme/orders" through the database import. -/
theorem import_decoders_split_witness :
    ExtractDbIdFromImportStateId ("acme" ++ "/" ++ "orders/eu") = ("acme", "orders/eu", none)
    ∧ (DatabaseResource.ImportState quotePlain okClient { ID := "acme" ++ "/" ++ "orders/eu" }
        (emptyResponse DatabaseResourceModel)).calls = []
    ∧ (ApiTokenResource.ImportState quotePlain okClient { ID := "acme" ++ "/" ++ "orders/eu" }
        (emptyResponse ApiTokenResourceModel)).resp.State = none
    ∧ (DatabaseResource.ImportState quotePlain okClient { ID := "acme" ++ "/" ++ "orders" }
        (emptyResponse DatabaseResourceModel)).calls
      = [client.Call.GetDatabase { OrganizationSlug := "acme", DatabaseName := "orders" }] :=
  ⟨import_decoders_split.1 "acme" "orders/eu" (by decide),
   ((import_decoders_split.2.1 quotePlain okClient "acme" "orders/eu"
      (emptyResponse DatabaseResourceModel) rfl).1 (by decide)).2.2,
   ((import_decoders_split.2.2 quotePlain okClient "acme" "orders/eu"
      (emptyResponse ApiTokenResourceModel) rfl).1 (by decide)).2.1,
   (import_decoders_split.2.1 quotePlain okClient "acme" "orders"
      (emptyResponse DatabaseResourceModel) rfl).2 (by decide) (by decide) (by decide)
      (by decide)⟩

/-- C18, as stated, fails: the remote list holds no token named "absent". The read
of a state of that name and the import of "absent/eyJhbGciOi" both succeed
without any diagnostic: the gap is not reported. -/
theorem ApiTokenResource.not_found_is_silent :
    ApiTokenResource.getTokenByName okClient "absent" = (none, none)
    ∧ (ApiTokenResource.Read okClient
        { State := { ciState with Name := TypesString.value "absent" } }
        (priorResponse { ciState with Name := TypesString.value "absent" })).resp
      = { State := some { Name := TypesString.value "absent"
                          Id := TypesString.value "stale"
                          Token := TypesString.value "eyJhbGciOi" }
          Diagnostics := [] }
    ∧ (ApiTokenResource.ImportState quotePlain okClient { ID := "absent/eyJhbGciOi" }
        (emptyResponse ApiTokenResourceModel)).resp
      = { State := some { Name := TypesString.value "absent"
                          Id := TypesString.null
                          Token := TypesString.value "eyJhbGciOi" }
          Diagnostics := [] } :=
  ⟨rfl, rfl, rfl⟩

/-- C18, amended: when the listing succeeds and holds no token of the requested
name, nothing is fabricated and nothing is reported. `ApiTokenResource.Read`
returns the prior state, with the diagnostics it was handed.
`ApiTokenResource.ImportState` of an identifier with two non-empty parts returns
a state whose name and token are the two parts and whose id is what the response
state held before (null on an empty state), with the diagnostics it was handed. -/
theorem ApiTokenResource.not_found_keeps_supplied :
    (∀ (r : client.Client) (req : resource.ReadRequest ApiTokenResourceModel)
        (resp : resource.Response ApiTokenResourceModel) (list : client.ListAPITokensOK),
        resp.State = some req.State →
        r.ListAPITokens = Except.ok list →
        (∀ t ∈ list.Tokens, t.Name.Value ≠ req.State.Name.ValueString) →
        (ApiTokenResource.Read r req resp).resp.State = some req.State
          ∧ (ApiTokenResource.Read r req resp).resp.Diagnostics = resp.Diagnostics)
    ∧ (∀ (quote : String → String) (r : client.Client) (id a b : String)
        (resp : resource.Response ApiTokenResourceModel) (list : client.ListAPITokensOK),
        strings.Split id '/' = [a, b] → a ≠ "" → b ≠ "" →
        r.ListAPITokens = Except.ok list →
        (∀ t ∈ list.Tokens, t.Name.Value ≠ a) →
        (ApiTokenResource.ImportState quote r { ID := id } resp).resp.State
            = some { Name := TypesString.value a
                     Id := (resp.State.getD { Name := TypesString.null, Id := TypesString.null
                                              Token := TypesString.null }).Id
                     Token := TypesString.value b }
          ∧ (ApiTokenResource.ImportState quote r { ID := id } resp).resp.Diagnostics
              = resp.Diagnostics) := by
  refine ⟨?_, ?_⟩
  · intro r req resp list hprior hlist hnone
    unfold ApiTokenResource.Read
    simp only [tfsdk.Get, tfsdk.Set, diag.Diagnostics.Append_nil]
    split
    · exact ⟨hprior, rfl⟩
    · have hfind : (ApiTokenResource.getTokenByName r req.State.Name.ValueString).1 = none := by
        simp only [ApiTokenResource.getTokenByName, hlist, List.find?_eq_none,
          decide_eq_true_eq]
        exact hnone
      simp [hfind]
  · intro quote r id a b resp list hs ha hb hlist hnone
    have hfind : (ApiTokenResource.getTokenByName r a).1 = none := by
      simp only [ApiTokenResource.getTokenByName, hlist, List.find?_eq_none, decide_eq_true_eq]
      exact hnone
    rw [ApiTokenResource.ImportState_of_pair quote r id a b resp hs ha hb]
    simp [hfind]

/-- Witness for C18 amended: the read of a state named "absent" and the import of
"absent/eyJhbGciOi" through `okClient`, whose list holds "deploy" and "ci". -/
theorem ApiTokenResource.not_found_keeps_supplied_witness :
    ((ApiTokenResource.Read okClient
          { State := { ciState with Name := TypesString.value "absent" } }
          (priorResponse { ciState with Name := TypesString.value "absent" })).resp.State
        = some { Name := TypesString.value "absent"
                 Id := TypesString.value "stale"
                 Token := TypesString.value "eyJhbGciOi" }
      ∧ (ApiTokenResource.Read okClient
          { State := { ciState with Name := TypesString.value "absent" } }
          (priorResponse { ciState with Name := TypesString.value "absent" })).resp.Diagnostics
        = [])
    ∧ ((ApiTokenResource.ImportState quotePlain okClient { ID := "absent/eyJhbGciOi" }
          (emptyResponse ApiTokenResourceModel)).resp.State
        = some { Name := TypesString.value "absent"
                 Id := TypesString.null
                 Token := TypesString.value "eyJhbGciOi" }
      ∧ (ApiTokenResource.ImportState quotePlain okClient { ID := "absent/eyJhbGciOi" }
          (emptyResponse ApiTokenResourceModel)).resp.Diagnostics = []) :=
  ⟨ApiTokenResource.not_found_keeps_supplied.1 okClient
      { State := { ciState with Name := TypesString.value "absent" } }
      (priorResponse { ciState with Name := TypesString.value "absent" })
      { Tokens := [ { Name := client.NewOptString "deploy", ID := client.NewOptString "aaaa" },
                    { Name := client.NewOptString "ci", ID := client.NewOptString "bbbb" } ] }
      rfl rfl (by decide),
   ApiTokenResource.not_found_keeps_supplied.2 quotePlain okClient "absent/eyJhbGciOi"
      "absent" "eyJhbGciOi" (emptyResponse ApiTokenResourceModel)
      { Tokens := [ { Name := client.NewOptString "deploy", ID := client.NewOptString "aaaa" },
                    { Name := client.NewOptString "ci", ID := client.NewOptString "bbbb" } ] }
      (by decide) (by decide) (by decide) rfl (by decide)⟩

/-- C19, as stated, fails: the lookup of `failingClient` answers with an error. The
configuration import of "jpedroh/tfproviderdatasource", started from the empty
response, ends with no state, while the configuration read of the state holding
only the two decoded components, started from that state, ends with that state.
Both add the same error diagnostic. -/
theorem DatabaseConfigurationResource.ImportState_not_Read_on_error :
    ExtractDbIdFromImportStateId "jpedroh/tfproviderdatasource"
      = ("jpedroh", "tfproviderdatasource", none)
    ∧ failingClient.GetDatabaseConfiguration
        { OrganizationSlug := "jpedroh", DatabaseName := "tfproviderdatasource" }
      = Except.error "503 Service Unavailable"
    ∧ (DatabaseConfigurationResource.ImportState failingClient
        { ID := "jpedroh/tfproviderdatasource" }
        (emptyResponse DatabaseConfigurationResourceModel)).resp
      = { State := none
          Diagnostics :=
            [{ severity := diag.Severity.Error, summary := "Client Error"
               detail := "Unable to read database, got error: 503 Service Unavailable" }] }
    ∧ (DatabaseConfigurationResource.Read failingClient
        { State := { OrganizationSlug := TypesString.value "jpedroh"
                     DatabaseName := TypesString.value "tfproviderdatasource"
                     SizeLimit := TypesString.null, BlockReads := TypesBool.null
                     BlockWrites := TypesBool.null
                     DeleteProtection := TypesBool.null } }
        (priorResponse { OrganizationSlug := TypesString.value "jpedroh"
                         DatabaseName := TypesString.value "tfproviderdatasource"
                         SizeLimit := TypesString.null, BlockReads := TypesBool.null
                         BlockWrites := TypesBool.null
                         DeleteProtection := TypesBool.null })).resp
      = { State := some { OrganizationSlug := TypesString.value "jpedroh"
                          DatabaseName := TypesString.value "tfproviderdatasource"
                          SizeLimit := TypesString.null, BlockReads := TypesBool.null
                          BlockWrites := TypesBool.null
                          DeleteProtection := TypesBool.null }
          Diagnostics :=
            [{ severity := diag.Severity.Error, summary := "Client Error"
               detail := "Unable to read database, got error: 503 Service Unavailable" }] }
    ∧ (DatabaseConfigurationResource.ImportState failingClient
        { ID := "jpedroh/tfproviderdatasource" }
        (emptyResponse DatabaseConfigurationResourceModel)).resp.State
      ≠ (DatabaseConfigurationResource.Read failingClient
          { State := { OrganizationSlug := TypesString.value "jpedroh"
                       DatabaseName := TypesString.value "tfproviderdatasource"
                       SizeLimit := TypesString.null, BlockReads := TypesBool.null
                       BlockWrites := TypesBool.null
                       DeleteProtection := TypesBool.null } }
          (priorResponse { OrganizationSlug := TypesString.value "jpedroh"
                           DatabaseName := TypesString.value "tfproviderdatasource"
                           SizeLimit := TypesString.null, BlockReads := TypesBool.null
                           BlockWrites := TypesBool.null
                           DeleteProtection := TypesBool.null })).resp.State :=
  ⟨by decide, rfl, rfl, rfl, by decide⟩

/-- C19, amended: for an identifier that decodes into `org` and `db`, and for every
answer of the lookup, the configuration import and the configuration read of a
state holding only `organization_slug = org` and `database_name = db` make the
same call and end with an error in the same cases. When the lookup answers, both
write the same state, made of `org`, `db` and the four answered values. When the
lookup fails, neither writes: the import ends with the state of the response it
was handed (none on an empty response) and the read with the state of the
response it was handed (the prior state), each with the same single error added. -/
theorem DatabaseConfigurationResource.ImportState_as_Read (r : client.Client)
    (id org db : String)
    (respI respR : resource.Response DatabaseConfigurationResourceModel)
    (hdec : ExtractDbIdFromImportStateId id = (org, db, none))
    (hI : diag.Diagnostics.HasError respI.Diagnostics = false)
    (hR : diag.Diagnostics.HasError respR.Diagnostics = false) :
    (DatabaseConfigurationResource.ImportState r { ID := id } respI).calls
        = (DatabaseConfigurationResource.Read r
            { State := { OrganizationSlug := TypesString.value org
                         DatabaseName := TypesString.value db
                         SizeLimit := TypesString.null, BlockReads := TypesBool.null
                         BlockWrites := TypesBool.null
                         DeleteProtection := TypesBool.null } } respR).calls
      ∧ diag.Diagnostics.HasError
          (DatabaseConfigurationResource.ImportState r { ID := id } respI).resp.Diagnostics
        = diag.Diagnostics.HasError
          (DatabaseConfigurationResource.Read r
            { State := { OrganizationSlug := TypesString.value org
                         DatabaseName := TypesString.value db
                         SizeLimit := TypesString.null, BlockReads := TypesBool.null
                         BlockWrites := TypesBool.null
                         DeleteProtection := TypesBool.null } } respR).resp.Diagnostics
      ∧ (∀ res, r.GetDatabaseConfiguration { OrganizationSlug := org, DatabaseName := db }
            = Except.ok res →
          (DatabaseConfigurationResource.ImportState r { ID := id } respI).resp.State
              = some { OrganizationSlug := TypesString.value org
                       DatabaseName := TypesString.value db
                       SizeLimit := TypesString.value res.SizeLimit.Value
                       BlockReads := TypesBool.value res.BlockReads.Value
                       BlockWrites := TypesBool.value res.BlockWrites.Value
                       DeleteProtection := TypesBool.value res.DeleteProtection.Value }
            ∧ (DatabaseConfigurationResource.Read r
                { State := { OrganizationSlug := TypesString.value org
                             DatabaseName := TypesString.value db
                             SizeLimit := TypesString.null, BlockReads := TypesBool.null
                             BlockWrites := TypesBool.null
                             DeleteProtection := TypesBool.null } } respR).resp.State
              = some { OrganizationSlug := TypesString.value org
                       DatabaseName := TypesString.value db
                       SizeLimit := TypesString.value res.SizeLimit.Value
                       BlockReads := TypesBool.value res.BlockReads.Value
                       BlockWrites := TypesBool.value res.BlockWrites.Value
                       DeleteProtection := TypesBool.value res.DeleteProtection.Value }
            ∧ (DatabaseConfigurationResource.ImportState r { ID := id } respI).resp.Diagnostics
              = respI.Diagnostics
            ∧ (DatabaseConfigurationResource.Read r
                { State := { OrganizationSlug := TypesString.value org
                             DatabaseName := TypesString.value db
                             SizeLimit := TypesString.null, BlockReads := TypesBool.null
                             BlockWrites := TypesBool.null
                             DeleteProtection := TypesBool.null } } respR).resp.Diagnostics
              = respR.Diagnostics)
      ∧ (∀ err, r.GetDatabaseConfiguration { OrganizationSlug := org, DatabaseName := db }
            = Except.error err →
          (DatabaseConfigurationResource.ImportState r { ID := id } respI).resp.State
              = respI.State
            ∧ (DatabaseConfigurationResource.Read r
                { State := { OrganizationSlug := TypesString.value org
                             DatabaseName := TypesString.value db
                             SizeLimit := TypesString.null, BlockReads := TypesBool.null
                             BlockWrites := TypesBool.null
                             DeleteProtection := TypesBool.null } } respR).resp.State
              = respR.State
            ∧ (DatabaseConfigurationResource.ImportState r { ID := id } respI).resp.Diagnostics
              = respI.Diagnostics ++
                [{ severity := diag.Severity.Error, summary := "Client Error"
                   detail := "Unable to read database, got error: " ++ err }]
            ∧ (DatabaseConfigurationResource.Read r
                { State := { OrganizationSlug := TypesString.value org
                             DatabaseName := TypesString.value db
                             SizeLimit := TypesString.null, BlockReads := TypesBool.null
                             BlockWrites := TypesBool.null
                             DeleteProtection := TypesBool.null } } respR).resp.Diagnostics
              = respR.Diagnostics ++
                [{ severity := diag.Severity.Error, summary := "Client Error"
                   detail := "Unable to read database, got error: " ++ err }]) := by
  unfold DatabaseConfigurationResource.ImportState DatabaseConfigurationResource.Read
  simp only [hdec, tfsdk.Get, tfsdk.Set, diag.Diagnostics.Append_nil, hI, hR,
    TypesString.ValueString, Bool.false_eq_true, if_false]
  cases hcall : r.GetDatabaseConfiguration { OrganizationSlug := org, DatabaseName := db } with
  | error e =>
    refine ⟨rfl, ?_, ?_, ?_⟩
    · simp only []
      rw [diag.Diagnostics.HasError_AddError, diag.Diagnostics.HasError_AddError]
    · intro res h
      cases h
    · intro err h
      cases h
      exact ⟨rfl, rfl, diag.Diagnostics.AddError_of_noError _ _ _ hI,
        diag.Diagnostics.AddError_of_noError _ _ _ hR⟩
  | ok res =>
    refine ⟨rfl, ?_, ?_, ?_⟩
    · simp only [hI, hR]
    · intro res' h
      cases h
      exact ⟨rfl, rfl, rfl, rfl⟩
    · intro err h
      cases h

/-- Witness for C19 amended: the identifier of the configuration test imported from
the empty response, against the read of the state holding the two decoded
components started from that state, through `okClient`, whose lookup answers, and
through `failingClient`, whose lookup fails. -/
theorem DatabaseConfigurationResource.ImportState_as_Read_witness :
    ((DatabaseConfigurationResource.ImportState okClient
          { ID := "jpedroh/tfproviderdatasource" }
          (emptyResponse DatabaseConfigurationResourceModel)).resp.State
        = some { OrganizationSlug := TypesString.value "jpedroh"
                 DatabaseName := TypesString.value "tfproviderdatasource"
                 SizeLimit := TypesString.value "1gb"
                 BlockReads := TypesBool.value true
                 BlockWrites := TypesBool.value true
                 DeleteProtection := TypesBool.value false }
      ∧ (DatabaseConfigurationResource.Read okClient
          { State := { OrganizationSlug := TypesString.value "jpedroh"
                       DatabaseName := TypesString.value "tfproviderdatasource"
                       SizeLimit := TypesString.null, BlockReads := TypesBool.null
                       BlockWrites := TypesBool.null
                       DeleteProtection := TypesBool.null } }
          (priorResponse { OrganizationSlug := TypesString.value "jpedroh"
                           DatabaseName := TypesString.value "tfproviderdatasource"
                           SizeLimit := TypesString.null, BlockReads := TypesBool.null
                           BlockWrites := TypesBool.null
                           DeleteProtection := TypesBool.null })).resp.State
        = some { OrganizationSlug := TypesString.value "jpedroh"
                 DatabaseName := TypesString.value "tfproviderdatasource"
                 SizeLimit := TypesString.value "1gb"
                 BlockReads := TypesBool.value true
                 BlockWrites := TypesBool.value true
                 DeleteProtection := TypesBool.value false })
    ∧ ((DatabaseConfigurationResource.ImportState failingClient
          { ID := "jpedroh/tfproviderdatasource" }
          (emptyResponse DatabaseConfigurationResourceModel)).resp.State = none
      ∧ (DatabaseConfigurationResource.Read failingClient
          { State := { OrganizationSlug := TypesString.value "jpedroh"
                       DatabaseName := TypesString.value "tfproviderdatasource"
                       SizeLimit := TypesString.null, BlockReads := TypesBool.null
                       BlockWrites := TypesBool.null
                       DeleteProtection := TypesBool.null } }
          (priorResponse { OrganizationSlug := TypesString.value "jpedroh"
                           DatabaseName := TypesString.value "tfproviderdatasource"
                           SizeLimit := TypesString.null, BlockReads := TypesBool.null
                           BlockWrites := TypesBool.null
                           DeleteProtection := TypesBool.null })).resp.State
        = some { OrganizationSlug := TypesString.value "jpedroh"
                 DatabaseName := TypesString.value "tfproviderdatasource"
                 SizeLimit := TypesString.null, BlockReads := TypesBool.null
                 BlockWrites := TypesBool.null
                 DeleteProtection := TypesBool.null }) :=
  ⟨(fun h => ⟨h.1, h.2.1⟩) ((DatabaseConfigurationResource.ImportState_as_Read okClient
      "jpedroh/tfproviderdatasource" "jpedroh" "tfproviderdatasource"
      (emptyResponse DatabaseConfigurationResourceModel)
      (priorResponse { OrganizationSlug := TypesString.value "jpedroh"
                       DatabaseName := TypesString.value "tfproviderdatasource"
                       SizeLimit := TypesString.null, BlockReads := TypesBool.null
                       BlockWrites := TypesBool.null
                       DeleteProtection := TypesBool.null })
      (by decide) rfl rfl).2.2.1
      { SizeLimit := client.NewOptString "1gb", BlockReads := client.NewOptBool true
        BlockWrites := client.NewOptBool true
        DeleteProtection := client.NewOptBool false } rfl),
   (fun h => ⟨h.1, h.2.1⟩) ((DatabaseConfigurationResource.ImportState_as_Read failingClient
      "jpedroh/tfproviderdatasource" "jpedroh" "tfproviderdatasource"
      (emptyResponse DatabaseConfigurationResourceModel)
      (priorResponse { OrganizationSlug := TypesString.value "jpedroh"
                       DatabaseName := TypesString.value "tfproviderdatasource"
                       SizeLimit := TypesString.null, BlockReads := TypesBool.null
                       BlockWrites := TypesBool.null
                       DeleteProtection := TypesBool.null })
      (by decide) rfl rfl).2.2.2 "503 Service Unavailable" rfl)⟩

/-- C20, as stated, fails: a plan that sets only `organization_name = "acme"`,
`name = "eu/orders"` and `group = "default"` is created through `createdClient`,
and the lookup returns the created database. Create writes a state, while
the import of "acme" joined to "eu/orders" is rejected and writes none. -/
theorem DatabaseResource.ImportState_not_Create :
    "acme" ++ "/" ++ "eu/orders" = "acme/eu/orders"
    ∧ (DatabaseResource.Create createdClient
        { Plan := { ordersPlan with Name := TypesString.value "eu/orders" } }
        (emptyResponse DatabaseResourceModel)).resp
      = { State := some { OrganizationName := TypesString.value "acme"
                          Name := TypesString.value "eu/orders"
                          Group := TypesString.value "default"
                          SizeLimit := TypesString.null
                          IsSchema := TypesBool.null
                          Schema := TypesString.null
                          DbId := TypesString.value "0eb771dd-6906-11ee-8553-eaa7715aeaf2"
                          Hostname := TypesString.value "orders-acme.turso.io" }
          Diagnostics := [] }
    ∧ createdClient.GetDatabase { OrganizationSlug := "acme", DatabaseName := "eu/orders" }
      = Except.ok (client.GetDatabaseRes.GetDatabaseOK
          { Database := { Value := createdDatabase, Set := true } })
    ∧ (DatabaseResource.ImportState quotePlain createdClient { ID := "acme/eu/orders" }
        (emptyResponse DatabaseResourceModel)).resp.State = none
    ∧ (DatabaseResource.ImportState quotePlain createdClient { ID := "acme/eu/orders" }
        (emptyResponse DatabaseResourceModel)).resp.State
      ≠ (DatabaseResource.Create createdClient
          { Plan := { ordersPlan with Name := TypesString.value "eu/orders" } }
          (emptyResponse DatabaseResourceModel)).resp.State :=
  ⟨by decide, rfl, rfl, rfl, by decide⟩

/-- C20, amended: for a plan that sets only `organization_name`, `name` and
`group`, where `organization_name` and `name` are non-empty and hold no "/",
the import of `organization_name`, "/" and `name` joined yields the state Create
wrote, provided the creation answered the OK variant and the lookup answers the
OK variant with the plan's group and the creation's identifier and hostname. -/
theorem DatabaseResource.ImportState_eq_Create (quote : String → String) (r : client.Client)
    (o n g : String) (d h : TypesString) (p : client.CreateDatabaseOK) (q : client.GetDatabaseOK)
    (ho : o ≠ "") (hn : n ≠ "") (hso : '/' ∉ o.data) (hsn : '/' ∉ n.data)
    (hcreate : r.CreateDatabase
        { Name := n, Group := g, SizeLimit := client.NewOptString ""
          Schema := client.NewOptString "", IsSchema := client.NewOptBool false }
        { OrganizationSlug := o }
      = Except.ok (client.CreateDatabaseRes.CreateDatabaseOK p))
    (hget : r.GetDatabase { OrganizationSlug := o, DatabaseName := n }
      = Except.ok (client.GetDatabaseRes.GetDatabaseOK q))
    (hgroup : q.Database.Value.Group.Value = g)
    (hid : q.Database.Value.DbId.Value = p.Database.Value.DbId.Value)
    (hhost : q.Database.Value.Hostname.Value = p.Database.Value.Hostname.Value) :
    (DatabaseResource.ImportState quote r { ID := o ++ "/" ++ n }
        (emptyResponse DatabaseResourceModel)).resp.State
      = (DatabaseResource.Create r
          { Plan := { OrganizationName := TypesString.value o
                      Name := TypesString.value n
                      Group := TypesString.value g
                      SizeLimit := TypesString.null
                      IsSchema := TypesBool.null
                      Schema := TypesString.null
                      DbId := d
                      Hostname := h } }
          (emptyResponse DatabaseResourceModel)).resp.State
    ∧ (DatabaseResource.Create r
          { Plan := { OrganizationName := TypesString.value o
                      Name := TypesString.value n
                      Group := TypesString.value g
                      SizeLimit := TypesString.null
                      IsSchema := TypesBool.null
                      Schema := TypesString.null
                      DbId := d
                      Hostname := h } }
          (emptyResponse DatabaseResourceModel)).resp.State
      = some { OrganizationName := TypesString.value o
               Name := TypesString.value n
               Group := TypesString.value g
               SizeLimit := TypesString.null
               IsSchema := TypesBool.null
               Schema := TypesString.null
               DbId := TypesString.value p.Database.Value.DbId.Value
               Hostname := TypesString.value p.Database.Value.Hostname.Value } := by
  have hcreated : (DatabaseResource.Create r
          { Plan := { OrganizationName := TypesString.value o
                      Name := TypesString.value n
                      Group := TypesString.value g
                      SizeLimit := TypesString.null
                      IsSchema := TypesBool.null
                      Schema := TypesString.null
                      DbId := d
                      Hostname := h } }
          (emptyResponse DatabaseResourceModel)).resp.State
      = some { OrganizationName := TypesString.value o
               Name := TypesString.value n
               Group := TypesString.value g
               SizeLimit := TypesString.null
               IsSchema := TypesBool.null
               Schema := TypesString.null
               DbId := TypesString.value p.Database.Value.DbId.Value
               Hostname := TypesString.value p.Database.Value.Hostname.Value } := by
    simp [DatabaseResource.Create, tfsdk.Get, tfsdk.Set, diag.Diagnostics.Append_nil,
      emptyResponse, diag.Diagnostics.HasError, TypesString.ValueString, TypesBool.ValueBool,
      hcreate, types.StringValue]
  refine ⟨?_, hcreated⟩
  rw [hcreated, DatabaseResource.ImportState_ok_of_pair quote r _ o n
    (emptyResponse DatabaseResourceModel) q (strings.Split_join o n hso hsn) ho hn hget]
  simp [emptyResponse, hgroup, hid, hhost]

/-- Witness for C20 amended: the example plan created through `createdClient`,
then imported back as "acme/orders". -/
theorem DatabaseResource.ImportState_eq_Create_witness :
    (DatabaseResource.ImportState quotePlain createdClient { ID := "acme" ++ "/" ++ "orders" }
        (emptyResponse DatabaseResourceModel)).resp.State
      = (DatabaseResource.Create createdClient
          { Plan := { OrganizationName := TypesString.value "acme"
                      Name := TypesString.value "orders"
                      Group := TypesString.value "default"
                      SizeLimit := TypesString.null
                      IsSchema := TypesBool.null
                      Schema := TypesString.null
                      DbId := TypesString.unknown
                      Hostname := TypesString.unknown } }
          (emptyResponse DatabaseResourceModel)).resp.State :=
  (DatabaseResource.ImportState_eq_Create quotePlain createdClient "acme" "orders" "default"
    TypesString.unknown TypesString.unknown
    { Database := { Value := createdDatabase, Set := true } }
    { Database := { Value := createdDatabase, Set := true } }
    (by decide) (by decide) (by decide) (by decide) rfl rfl rfl rfl rfl).1

/-- C21: Create followed by Read converges. For the database, when the creation
answers the OK variant and the lookup answers the OK variant with the same
identifier and hostname, Read applied to the state Create wrote returns that same
state and adds no diagnostic; for the database configuration, when the lookup
answers the same four values as the update call of Create did, likewise. -/
theorem Create_then_Read_converges :
    (∀ (r : client.Client) (plan : DatabaseResourceModel)
        (respC respR : resource.Response DatabaseResourceModel)
        (p : client.CreateDatabaseOK) (q : client.GetDatabaseOK),
        diag.Diagnostics.HasError respC.Diagnostics = false →
        diag.Diagnostics.HasError respR.Diagnostics = false →
        r.CreateDatabase
            { Name := plan.Name.ValueString
              Group := plan.Group.ValueString
              SizeLimit := client.NewOptString plan.SizeLimit.ValueString
              Schema := client.NewOptString plan.Schema.ValueString
              IsSchema := client.NewOptBool plan.IsSchema.ValueBool }
            { OrganizationSlug := plan.OrganizationName.ValueString }
          = Except.ok (client.CreateDatabaseRes.CreateDatabaseOK p) →
        r.GetDatabase { OrganizationSlug := plan.OrganizationName.ValueString
                        DatabaseName := plan.Name.ValueString }
          = Except.ok (client.GetDatabaseRes.GetDatabaseOK q) →
        q.Database.Value.DbId.Value = p.Database.Value.DbId.Value →
        q.Database.Value.Hostname.Value = p.Database.Value.Hostname.Value →
        ∃ st, (DatabaseResource.Create r { Plan := plan } respC).resp.State = some st
          ∧ (DatabaseResource.Read r { State := st } respR).resp.State = some st
          ∧ (DatabaseResource.Read r { State := st } respR).resp.Diagnostics
              = respR.Diagnostics)
    ∧ (∀ (r : client.Client) (plan : DatabaseConfigurationResourceModel)
        (respC respR : resource.Response DatabaseConfigurationResourceModel)
        (res got : client.DatabaseConfigurationResponse),
        diag.Diagnostics.HasError respC.Diagnostics = false →
        diag.Diagnostics.HasError respR.Diagnostics = false →
        r.UpdateDatabaseConfiguration
            { SizeLimit := client.NewOptString plan.SizeLimit.ValueString
              BlockReads := client.NewOptBool plan.BlockReads.ValueBool
              BlockWrites := client.NewOptBool plan.BlockWrites.ValueBool
              DeleteProtection := client.NewOptBool plan.DeleteProtection.ValueBool }
            { OrganizationSlug := plan.OrganizationSlug.ValueString
              DatabaseName := plan.DatabaseName.ValueString }
          = Except.ok res →
        r.GetDatabaseConfiguration { OrganizationSlug := plan.OrganizationSlug.ValueString
                                     DatabaseName := plan.DatabaseName.ValueString }
          = Except.ok got →
        got.SizeLimit.Value = res.SizeLimit.Value →
        got.BlockReads.Value = res.BlockReads.Value →
        got.BlockWrites.Value = res.BlockWrites.Value →
        got.DeleteProtection.Value = res.DeleteProtection.Value →
        ∃ st, (DatabaseConfigurationResource.Create r { Plan := plan } respC).resp.State
              = some st
          ∧ (DatabaseConfigurationResource.Read r { State := st } respR).resp.State = some st
          ∧ (DatabaseConfigurationResource.Read r { State := st } respR).resp.Diagnostics
              = respR.Diagnostics) := by
  refine ⟨?_, ?_⟩
  · intro r plan respC respR p q hC hR hcreate hget hid hhost
    refine ⟨{ plan with
              DbId := TypesString.value p.Database.Value.DbId.Value
              Hostname := TypesString.value p.Database.Value.Hostname.Value }, ?_, ?_, ?_⟩
    · simp [DatabaseResource.Create, tfsdk.Get, tfsdk.Set, diag.Diagnostics.Append_nil, hC,
        hcreate, types.StringValue]
    · simp [DatabaseResource.Read, tfsdk.Get, tfsdk.Set, diag.Diagnostics.Append_nil, hR,
        hget, types.StringValue, hid, hhost]
    · simp [DatabaseResource.Read, tfsdk.Get, tfsdk.Set, diag.Diagnostics.Append_nil, hR,
        hget]
  · intro r plan respC respR res got hC hR hcreate hget h1 h2 h3 h4
    refine ⟨{ plan with
              SizeLimit := TypesString.value res.SizeLimit.Value
              BlockReads := TypesBool.value res.BlockReads.Value
              BlockWrites := TypesBool.value res.BlockWrites.Value
              DeleteProtection := TypesBool.value res.DeleteProtection.Value }, ?_, ?_, ?_⟩
    · simp [DatabaseConfigurationResource.Create, tfsdk.Get, tfsdk.Set,
        diag.Diagnostics.Append_nil, hC, hcreate, types.StringValue, types.BoolValue]
    · simp [DatabaseConfigurationResource.Read, tfsdk.Get, tfsdk.Set,
        diag.Diagnostics.Append_nil, hR, hget, types.StringValue, types.BoolValue, h1, h2, h3,
        h4]
    · simp [DatabaseConfigurationResource.Read, tfsdk.Get, tfsdk.Set,
        diag.Diagnostics.Append_nil, hR, hget]

/-- Witness for C21: the example plan created and read back through `okClient`, and
a configuration plan with every setting known, created and read back through a
client whose lookup answers what the update echoed. -/
theorem Create_then_Read_converges_witness :
    (∃ st, (DatabaseResource.Create okClient { Plan := ordersPlan }
          (emptyResponse DatabaseResourceModel)).resp.State = some st
        ∧ (DatabaseResource.Read okClient { State := st }
            (priorResponse ordersState)).resp.State = some st
        ∧ (DatabaseResource.Read okClient { State := st }
            (priorResponse ordersState)).resp.Diagnostics = [])
    ∧ (∃ st, (DatabaseConfigurationResource.Create okClient
          { Plan := { configPlan with SizeLimit := TypesString.value "1gb"
                                      BlockReads := TypesBool.value true
                                      BlockWrites := TypesBool.value true
                                      DeleteProtection := TypesBool.value false } }
          (emptyResponse DatabaseConfigurationResourceModel)).resp.State = some st
        ∧ (DatabaseConfigurationResource.Read okClient { State := st }
            (priorResponse configPlan)).resp.State = some st
        ∧ (DatabaseConfigurationResource.Read okClient { State := st }
            (priorResponse configPlan)).resp.Diagnostics = []) :=
  ⟨Create_then_Read_converges.1 okClient ordersPlan (emptyResponse DatabaseResourceModel)
      (priorResponse ordersState) { Database := { Value := sampleDatabase, Set := true } }
      { Database := { Value := sampleDatabase, Set := true } } rfl rfl rfl rfl rfl rfl,
   Create_then_Read_converges.2 okClient
      { configPlan with SizeLimit := TypesString.value "1gb"
                        BlockReads := TypesBool.value true
                        BlockWrites := TypesBool.value true
                        DeleteProtection := TypesBool.value false }
      (emptyResponse DatabaseConfigurationResourceModel) (priorResponse configPlan)
      { SizeLimit := client.NewOptString "1gb", BlockReads := client.NewOptBool true
        BlockWrites := client.NewOptBool true, DeleteProtection := client.NewOptBool false }
      { SizeLimit := client.NewOptString "1gb", BlockReads := client.NewOptBool true
        BlockWrites := client.NewOptBool true, DeleteProtection := client.NewOptBool false }
      rfl rfl rfl rfl rfl rfl rfl rfl⟩

/-- C22, evaluated on the code: whenever `DatabaseTokenResource.Create` writes a
state from the empty response, its `authorization` is the plan's. In particular
the plan of the test that does not set `authorization` is created through
`okClient` without diagnostic, and the written state holds a null
`authorization`, not "full-access". -/
theorem DatabaseTokenResource.Create_keeps_null_authorization :
    (∀ (r : client.Client) (plan : DatabaseTokenResourceModel),
        (DatabaseTokenResource.Create r { Plan := plan }
            (emptyResponse DatabaseTokenResourceModel)).resp.State = none
          ∨ (DatabaseTokenResource.Create r { Plan := plan }
              (emptyResponse DatabaseTokenResourceModel)).resp.State.map
                (fun st => st.Authorization) = some plan.Authorization)
    ∧ (DatabaseTokenResource.Create okClient { Plan := tokenPlan TypesString.null }
        (emptyResponse DatabaseTokenResourceModel)).resp
      = { State := some { OrganizationName := TypesString.value "jpedroh"
                          DatabaseName := TypesString.value "tfproviderdatasource"
                          Expiration := TypesString.null
                          Authorization := TypesString.null
                          JWT := TypesString.value "eyJ0eXAiOi" }
          Diagnostics := [] }
    ∧ TypesString.null ≠ TypesString.value "full-access" := by
  refine ⟨?_, rfl, by decide⟩
  intro r plan
  unfold DatabaseTokenResource.Create
  simp only [tfsdk.Get, tfsdk.Set, diag.Diagnostics.Append_nil, emptyResponse,
    diag.Diagnostics.HasError, List.any_nil, Bool.false_eq_true, if_false]
  split
  · exact Or.inl rfl
  · split <;> exact Or.inr rfl

/-- C23, evaluated on the code: `Resources` offers the constructors of the database
and the database token only, and `DataSources` those of the database and the
organization only. The database configuration resource, the API token resource,
the database configuration data source and the database instance data source are
not offered, so under the provider name "turso" the type names
"turso_database_configuration" and "turso_database_instance" that the tests
declare are not among those the provider registers. -/
theorem TursoProvider.registers_two_of_four :
    ∀ p : TursoProvider,
      TursoProvider.Resources p = [NewDatabaseResource, NewDatabaseTokenResource]
      ∧ NewDatabaseConfigurationResource ∉ TursoProvider.Resources p
      ∧ NewApiTokenResource ∉ TursoProvider.Resources p
      ∧ TursoProvider.DataSources p = [NewDatabaseDataSource, NewOrganizationDataSource]
      ∧ NewDatabaseConfigurationDataSource ∉ TursoProvider.DataSources p
      ∧ NewDatabaseInstanceDataSource ∉ TursoProvider.DataSources p
      ∧ (TursoProvider.Resources p).map
          (fun x => (x.Metadata { ProviderTypeName := "turso" } { TypeName := "" }).TypeName)
        = ["turso_database", "turso_database_token"]
      ∧ (TursoProvider.DataSources p).map
          (fun x => (x.Metadata { ProviderTypeName := "turso" } { TypeName := "" }).TypeName)
        = ["turso_database", "turso_organization"] := by
  intro p
  refine ⟨rfl, ?_, ?_, rfl, ?_, ?_, rfl, rfl⟩ <;>
    simp [TursoProvider.Resources, TursoProvider.DataSources, NewDatabaseResource,
      NewDatabaseTokenResource, NewDatabaseConfigurationResource, NewApiTokenResource,
      NewDatabaseDataSource, NewOrganizationDataSource, NewDatabaseConfigurationDataSource,
      NewDatabaseInstanceDataSource]

/-- C24: under the schema of the database resource, replacement is required if and
only if the prior values and the plan differ in `organization_name`, `name` or
`group`; a plan that differs from the prior values only in `size_limit`,
`is_schema` or `schema` does not require replacement. -/
theorem DatabaseResource.requiresReplacement_iff :
    (∀ prior plan : DatabaseResourceModel,
        requiresReplacement DatabaseResource.Schema prior.attr plan.attr = true
          ↔ (prior.OrganizationName ≠ plan.OrganizationName ∨ prior.Name ≠ plan.Name
              ∨ prior.Group ≠ plan.Group))
    ∧ (∀ (prior : DatabaseResourceModel) (s c : TypesString) (b : TypesBool),
        requiresReplacement DatabaseResource.Schema prior.attr
          ({ prior with SizeLimit := s, IsSchema := b, Schema := c } :
            DatabaseResourceModel).attr = false) := by
  refine ⟨?_, ?_⟩
  · intro prior plan
    simp [requiresReplacement, DatabaseResource.Schema, DatabaseResourceModel.attr]
  · intro prior s c b
    simp [requiresReplacement, DatabaseResource.Schema, DatabaseResourceModel.attr]

/-- C25: `getTokenByName` scans the listed tokens in order. When the list call
succeeds it returns, with no error, the first token whose name is the requested
one; it returns no token and no error exactly when the list call succeeds and no
listed token has that name; when the list call fails it returns no token and the
error of the list call. -/
theorem ApiTokenResource.getTokenByName_scan :
    (∀ (r : client.Client) (name : String) (list : client.ListAPITokensOK)
        (before after : List client.APIToken) (t : client.APIToken),
        r.ListAPITokens = Except.ok list →
        list.Tokens = before ++ t :: after →
        (∀ u ∈ before, u.Name.Value ≠ name) →
        t.Name.Value = name →
        ApiTokenResource.getTokenByName r name = (some t, none))
    ∧ (∀ (r : client.Client) (name : String),
        ApiTokenResource.getTokenByName r name = (none, none)
          ↔ ∃ list, r.ListAPITokens = Except.ok list
              ∧ ∀ u ∈ list.Tokens, u.Name.Value ≠ name)
    ∧ (∀ (r : client.Client) (name err : String),
        r.ListAPITokens = Except.error err →
        ApiTokenResource.getTokenByName r name = (none, some err)) := by
  refine ⟨?_, ?_, ?_⟩
  · intro r name list before after t hlist htokens hbefore ht
    have key : ∀ pre : List client.APIToken, (∀ u ∈ pre, u.Name.Value ≠ name) →
        (pre ++ t :: after).find? (fun token => decide (token.Name.Value = name)) = some t := by
      intro pre
      induction pre with
      | nil => intro _; simp [ht]
      | cons u us ih =>
        intro hpre
        have hu : u.Name.Value ≠ name := hpre u (List.mem_cons_self u us)
        simp only [List.cons_append, List.find?_cons, hu, decide_False]
        exact ih (fun v hv => hpre v (List.mem_cons_of_mem u hv))
    simp only [ApiTokenResource.getTokenByName, hlist, htokens, key before hbefore]
  · intro r name
    unfold ApiTokenResource.getTokenByName
    cases hlist : r.ListAPITokens with
    | error e => simp
    | ok list => simp [List.find?_eq_none]
  · intro r name err hlist
    simp [ApiTokenResource.getTokenByName, hlist]

/-- Witness for C25: the list of `okClient` holds "deploy" then "ci"; the scan for
"ci" returns the second token, and the scan through `failingClient` returns the
error of the list call. -/
theorem ApiTokenResource.getTokenByName_scan_witness :
    ApiTokenResource.getTokenByName okClient "ci"
      = (some { Name := client.NewOptString "ci", ID := client.NewOptString "bbbb" }, none)
    ∧ ApiTokenResource.getTokenByName failingClient "ci"
      = (none, some "503 Service Unavailable") :=
  ⟨ApiTokenResource.getTokenByName_scan.1 okClient "ci"
      { Tokens := [ { Name := client.NewOptString "deploy", ID := client.NewOptString "aaaa" },
                    { Name := client.NewOptString "ci", ID := client.NewOptString "bbbb" } ] }
      [{ Name := client.NewOptString "deploy", ID := client.NewOptString "aaaa" }] []
      { Name := client.NewOptString "ci", ID := client.NewOptString "bbbb" }
      rfl rfl (by decide) rfl,
   ApiTokenResource.getTokenByName_scan.2.2 failingClient "ci" "503 Service Unavailable" rfl⟩

/-- C26: for every provider type name `p`, the `Metadata` of each resource and of
each data source returns `p` followed by its own suffix, and the four resource
type names are pairwise distinct, as are the four data source type names. The
provider names itself "turso", which gives the type names the tests use. -/
theorem Metadata_type_names :
    ∀ p : String,
      (∀ resp, (DatabaseResource.Metadata { ProviderTypeName := p } resp).TypeName
          = p ++ "_database")
      ∧ (∀ resp, (DatabaseTokenResource.Metadata { ProviderTypeName := p } resp).TypeName
          = p ++ "_database_token")
      ∧ (∀ resp, (DatabaseConfigurationResource.Metadata { ProviderTypeName := p } resp).TypeName
          = p ++ "_database_configuration")
      ∧ (∀ resp, (ApiTokenResource.Metadata { ProviderTypeName := p } resp).TypeName
          = p ++ "_api_token")
      ∧ (∀ resp, (DatabaseDataSource.Metadata { ProviderTypeName := p } resp).TypeName
          = p ++ "_database")
      ∧ (∀ resp, (OrganizationDataSource.Metadata { ProviderTypeName := p } resp).TypeName
          = p ++ "_organization")
      ∧ (∀ resp,
          (DatabaseConfigurationDataSource.Metadata { ProviderTypeName := p } resp).TypeName
          = p ++ "_database_configuration")
      ∧ (∀ resp, (DatabaseInstanceDataSource.Metadata { ProviderTypeName := p } resp).TypeName
          = p ++ "_database_instance")
      ∧ ([Resource.DatabaseResource, Resource.DatabaseTokenResource,
          Resource.DatabaseConfigurationResource, Resource.ApiTokenResource].map
            (fun x => (x.Metadata { ProviderTypeName := p } { TypeName := "" }).TypeName)).Nodup
      ∧ ([DataSource.DatabaseDataSource, DataSource.OrganizationDataSource,
          DataSource.DatabaseConfigurationDataSource,
          DataSource.DatabaseInstanceDataSource].map
            (fun x => (x.Metadata { ProviderTypeName := p } { TypeName := "" }).TypeName)).Nodup
      ∧ (∀ (v : TursoProvider) (resp : ProviderMetadataResponse),
          (TursoProvider.Metadata v resp).TypeName = "turso")
      ∧ [Resource.DatabaseResource, Resource.DatabaseTokenResource,
          Resource.DatabaseConfigurationResource, Resource.ApiTokenResource].map
            (fun x => (x.Metadata { ProviderTypeName := "turso" } { TypeName := "" }).TypeName)
          = ["turso_database", "turso_database_token", "turso_database_configuration",
             "turso_api_token"]
      ∧ [DataSource.DatabaseDataSource, DataSource.OrganizationDataSource,
          DataSource.DatabaseConfigurationDataSource,
          DataSource.DatabaseInstanceDataSource].map
            (fun x => (x.Metadata { ProviderTypeName := "turso" } { TypeName := "" }).TypeName)
          = ["turso_database", "turso_organization", "turso_database_configuration",
             "turso_database_instance"] := by
  intro p
  refine ⟨fun _ => rfl, fun _ => rfl, fun _ => rfl, fun _ => rfl, fun _ => rfl, fun _ => rfl,
    fun _ => rfl, fun _ => rfl, ?_, ?_, fun _ _ => rfl, rfl, rfl⟩
  · simp [Resource.Metadata, DatabaseResource.Metadata, DatabaseTokenResource.Metadata,
      DatabaseConfigurationResource.Metadata, ApiTokenResource.Metadata,
      strings.append_left_cancel]
  · simp [DataSource.Metadata, DatabaseDataSource.Metadata, OrganizationDataSource.Metadata,
      DatabaseConfigurationDataSource.Metadata, DatabaseInstanceDataSource.Metadata,
      strings.append_left_cancel]

/-- C27: in the schemas of the database token and of the API token every attribute
the user can set lists `RequiresReplace`, so replacement is required exactly when
the plan differs from the prior state in such an attribute. When replacement is
not required, the state `DatabaseTokenResource.Update` returns holds the prior
values of the four attributes the user can set, and it is the prior state when
the plan carries the prior `jwt` forward, as the attribute's policy has it. The
response handed to Update starts from the prior state. -/
theorem token_resources_immutable :
    (∀ a ∈ DatabaseTokenResource.Schema, (a.Required || a.Optional) = true →
        a.RequiresReplace = true)
    ∧ (∀ a ∈ ApiTokenResource.Schema, (a.Required || a.Optional) = true →
        a.RequiresReplace = true)
    ∧ (∀ prior plan : DatabaseTokenResourceModel,
        requiresReplacement DatabaseTokenResource.Schema prior.attr plan.attr = true
          ↔ (prior.OrganizationName ≠ plan.OrganizationName
              ∨ prior.DatabaseName ≠ plan.DatabaseName
              ∨ prior.Expiration ≠ plan.Expiration
              ∨ prior.Authorization ≠ plan.Authorization))
    ∧ (∀ prior plan : ApiTokenResourceModel,
        requiresReplacement ApiTokenResource.Schema prior.attr plan.attr = true
          ↔ prior.Name ≠ plan.Name)
    ∧ (∀ (r : client.Client) (prior plan : DatabaseTokenResourceModel)
        (resp : resource.Response DatabaseTokenResourceModel),
        resp.State = some prior →
        requiresReplacement DatabaseTokenResource.Schema prior.attr plan.attr = false →
        ∃ st, (DatabaseTokenResource.Update r { Plan := plan, State := prior } resp).resp.State
              = some st
          ∧ st.OrganizationName = prior.OrganizationName
          ∧ st.DatabaseName = prior.DatabaseName
          ∧ st.Expiration = prior.Expiration
          ∧ st.Authorization = prior.Authorization
          ∧ (carriesPriorValues DatabaseTokenResource.Schema prior.attr plan.attr = true →
              st = prior)) := by
  refine ⟨by decide, by decide, ?_, ?_, ?_⟩
  · intro prior plan
    simp [requiresReplacement, DatabaseTokenResource.Schema, DatabaseTokenResourceModel.attr]
  · intro prior plan
    simp [requiresReplacement, ApiTokenResource.Schema, ApiTokenResourceModel.attr]
  · intro r prior plan resp hprior hreq
    simp [requiresReplacement, DatabaseTokenResource.Schema, DatabaseTokenResourceModel.attr]
      at hreq
    obtain ⟨h1, h2, h3, h4⟩ := hreq
    unfold DatabaseTokenResource.Update
    simp only [tfsdk.Get, tfsdk.Set, diag.Diagnostics.Append_nil]
    split
    · exact ⟨prior, hprior, rfl, rfl, rfl, rfl, fun _ => rfl⟩
    · refine ⟨plan, rfl, h1.symm, h2.symm, h3.symm, h4.symm, ?_⟩
      intro hcarry
      simp [carriesPriorValues, DatabaseTokenResource.Schema, DatabaseTokenResourceModel.attr]
        at hcarry
      cases prior
      cases plan
      simp_all

/-- Witness for C27: the persisted database token, and a plan equal to it. -/
theorem token_resources_immutable_witness :
    ∃ st, (DatabaseTokenResource.Update okClient { Plan := tokenState, State := tokenState }
          (priorResponse tokenState)).resp.State = some st
      ∧ st.OrganizationName = tokenState.OrganizationName
      ∧ st.DatabaseName = tokenState.DatabaseName
      ∧ st.Expiration = tokenState.Expiration
      ∧ st.Authorization = tokenState.Authorization
      ∧ (carriesPriorValues DatabaseTokenResource.Schema tokenState.attr tokenState.attr = true →
          st = tokenState) :=
  token_resources_immutable.2.2.2.2 okClient tokenState tokenState (priorResponse tokenState)
    rfl (by decide)

/-- C28, evaluated on the code: when the remote side answers the creation without
error with a variant other than the OK one, `DatabaseResource.Create` writes the
plan as the state and adds no diagnostic, and when it so answers the lookup,
`DatabaseResource.Read` writes the prior state again and adds no diagnostic. In
particular the example plan created through `otherClient` leaves `db_id` and
`hostname` unknown in the written state: they are not values of any response. -/
theorem DatabaseResource.other_variant_writes_state :
    (∀ (r : client.Client) (plan : DatabaseResourceModel),
        (DatabaseResource.Create
            { r with CreateDatabase := fun _ _ => Except.ok client.CreateDatabaseRes.Other }
            { Plan := plan } (emptyResponse DatabaseResourceModel)).resp
          = { State := some plan, Diagnostics := [] })
    ∧ (∀ (r : client.Client) (prior : DatabaseResourceModel),
        (DatabaseResource.Read
            { r with GetDatabase := fun _ => Except.ok client.GetDatabaseRes.Other }
            { State := prior } (priorResponse prior)).resp
          = { State := some prior, Diagnostics := [] })
    ∧ (DatabaseResource.Create otherClient { Plan := ordersPlan }
        (emptyResponse DatabaseResourceModel)).resp
      = { State := some { OrganizationName := TypesString.value "acme"
                          Name := TypesString.value "orders"
                          Group := TypesString.value "default"
                          SizeLimit := TypesString.null
                          IsSchema := TypesBool.null
                          Schema := TypesString.null
                          DbId := TypesString.unknown
                          Hostname := TypesString.unknown }
          Diagnostics := [] }
    ∧ (DatabaseResource.Create otherClient { Plan := ordersPlan }
        (emptyResponse DatabaseResourceModel)).calls
      = [client.Call.CreateDatabase
          { Name := "orders", Group := "default"
            SizeLimit := { Value := "", Set := true }
            Schema := { Value := "", Set := true }
            IsSchema := { Value := false, Set := true } }
          { OrganizationSlug := "acme" }] :=
  ⟨fun _ _ => rfl, fun _ _ => rfl, rfl, rfl⟩

/-- C29: optional attributes are always sent as present values. On a response
without error, the one call of `DatabaseConfigurationResource.Create` and of
`DatabaseConfigurationResource.Update` carries `size_limit`, `block_reads`,
`block_writes` and `delete_protection` marked as set, holding the plan's value or,
for a null plan value, the empty string or false; the one call of
`DatabaseResource.Create` likewise carries `size_limit`, `schema` and `is_schema`
marked as set. -/
theorem optional_attributes_sent_as_set :
    (∀ (r : client.Client) (req : resource.CreateRequest DatabaseConfigurationResourceModel)
        (resp : resource.Response DatabaseConfigurationResourceModel),
        diag.Diagnostics.HasError resp.Diagnostics = false →
        (DatabaseConfigurationResource.Create r req resp).calls
          = [client.Call.UpdateDatabaseConfiguration
              { SizeLimit := { Value := req.Plan.SizeLimit.ValueString, Set := true }
                BlockReads := { Value := req.Plan.BlockReads.ValueBool, Set := true }
                BlockWrites := { Value := req.Plan.BlockWrites.ValueBool, Set := true }
                DeleteProtection :=
                  { Value := req.Plan.DeleteProtection.ValueBool, Set := true } }
              { OrganizationSlug := req.Plan.OrganizationSlug.ValueString
                DatabaseName := req.Plan.DatabaseName.ValueString }])
    ∧ (∀ (r : client.Client) (req : resource.UpdateRequest DatabaseConfigurationResourceModel)
        (resp : resource.Response DatabaseConfigurationResourceModel),
        diag.Diagnostics.HasError resp.Diagnostics = false →
        (DatabaseConfigurationResource.Update r req resp).calls
          = [client.Call.UpdateDatabaseConfiguration
              { SizeLimit := { Value := req.Plan.SizeLimit.ValueString, Set := true }
                BlockReads := { Value := req.Plan.BlockReads.ValueBool, Set := true }
                BlockWrites := { Value := req.Plan.BlockWrites.ValueBool, Set := true }
                DeleteProtection :=
                  { Value := req.Plan.DeleteProtection.ValueBool, Set := true } }
              { OrganizationSlug := req.Plan.OrganizationSlug.ValueString
                DatabaseName := req.Plan.DatabaseName.ValueString }])
    ∧ (∀ (r : client.Client) (req : resource.CreateRequest DatabaseResourceModel)
        (resp : resource.Response DatabaseResourceModel),
        diag.Diagnostics.HasError resp.Diagnostics = false →
        (DatabaseResource.Create r req resp).calls
          = [client.Call.CreateDatabase
              { Name := req.Plan.Name.ValueString
                Group := req.Plan.Group.ValueString
                SizeLimit := { Value := req.Plan.SizeLimit.ValueString, Set := true }
                Schema := { Value := req.Plan.Schema.ValueString, Set := true }
                IsSchema := { Value := req.Plan.IsSchema.ValueBool, Set := true } }
              { OrganizationSlug := req.Plan.OrganizationName.ValueString }])
    ∧ TypesString.null.ValueString = "" ∧ TypesBool.null.ValueBool = false := by
  refine ⟨?_, ?_, ?_, rfl, rfl⟩
  · intro r req resp hclean
    unfold DatabaseConfigurationResource.Create
    simp only [tfsdk.Get, diag.Diagnostics.Append_nil, hclean, Bool.false_eq_true, if_false]
    split <;> rfl
  · intro r req resp hclean
    unfold DatabaseConfigurationResource.Update
    simp only [tfsdk.Get, diag.Diagnostics.Append_nil, hclean, Bool.false_eq_true, if_false]
    split <;> rfl
  · intro r req resp hclean
    unfold DatabaseResource.Create
    simp only [tfsdk.Get, diag.Diagnostics.Append_nil, hclean, Bool.false_eq_true, if_false]
    split <;> rfl

/-- Witness for C29: the configuration plan and the database plan that leave every
optional attribute null. -/
theorem optional_attributes_sent_as_set_witness :
    (DatabaseConfigurationResource.Create okClient { Plan := configPlan }
        (emptyResponse DatabaseConfigurationResourceModel)).calls
      = [client.Call.UpdateDatabaseConfiguration
          { SizeLimit := { Value := "", Set := true }
            BlockReads := { Value := false, Set := true }
            BlockWrites := { Value := false, Set := true }
            DeleteProtection := { Value := false, Set := true } }
          { OrganizationSlug := "acme", DatabaseName := "orders" }]
    ∧ (DatabaseConfigurationResource.Update failingClient
        { Plan := configPlan, State := configPlan } (priorResponse configPlan)).calls
      = [client.Call.UpdateDatabaseConfiguration
          { SizeLimit := { Value := "", Set := true }
            BlockReads := { Value := false, Set := true }
            BlockWrites := { Value := false, Set := true }
            DeleteProtection := { Value := false, Set := true } }
          { OrganizationSlug := "acme", DatabaseName := "orders" }]
    ∧ (DatabaseResource.Create okClient { Plan := ordersPlan }
        (emptyResponse DatabaseResourceModel)).calls
      = [client.Call.CreateDatabase
          { Name := "orders", Group := "default"
            SizeLimit := { Value := "", Set := true }
            Schema := { Value := "", Set := true }
            IsSchema := { Value := false, Set := true } }
          { OrganizationSlug := "acme" }] :=
  ⟨optional_attributes_sent_as_set.1 okClient { Plan := configPlan }
      (emptyResponse DatabaseConfigurationResourceModel) rfl,
   optional_attributes_sent_as_set.2.1 failingClient
      { Plan := configPlan, State := configPlan } (priorResponse configPlan) rfl,
   optional_attributes_sent_as_set.2.2.1 okClient { Plan := ordersPlan }
      (emptyResponse DatabaseResourceModel) rfl⟩

/-- C30: `ExtractDbIdFromImportStateId` returns an error if and only if the
identifier holds no "/". On error both components are empty and the message is
the identifier followed by the sentence naming the expected format
organizationSlug/databaseName. On success the first component holds no "/" and
the first component, "/" and the second component joined are the identifier. -/
theorem ExtractDbIdFromImportStateId_error_iff (id : String) :
    ((ExtractDbIdFromImportStateId id).2.2 ≠ none ↔ '/' ∉ id.data)
    ∧ ('/' ∉ id.data →
        ExtractDbIdFromImportStateId id
          = ("", "", some (id ++ " is not a valid import state ID format. The expected format is: organizationSlug/databaseName")))
    ∧ (∀ a b : String, ExtractDbIdFromImportStateId id = (a, b, none) →
        '/' ∉ a.data ∧ a ++ "/" ++ b = id) := by
  by_cases h : '/' ∈ id.data
  · obtain ⟨a, b, hid, ha⟩ := strings.exists_join_of_mem id h
    have hx := ExtractDbIdFromImportStateId_first a b ha
    rw [← hid] at hx
    refine ⟨?_, fun hn => absurd h hn, ?_⟩
    · rw [hx]
      simp [h]
    · intro a' b' hab
      rw [hx] at hab
      simp only [Prod.mk.injEq, and_true] at hab
      obtain ⟨rfl, rfl⟩ := hab
      exact ⟨ha, hid.symm⟩
  · have hx := ExtractDbIdFromImportStateId_whole id h
    refine ⟨?_, fun _ => hx, ?_⟩
    · rw [hx]
      simp [h]
    · intro a b hab
      rw [hx] at hab
      simp at hab

/-- Witness for C30: "acme" holds no "/" and is refused with the message naming the
format; "acme/orders/eu" decodes into "acme" and "orders/eu". -/
theorem ExtractDbIdFromImportStateId_error_iff_witness :
    ExtractDbIdFromImportStateId "acme"
        = ("", "", some "acme is not a valid import state ID format. The expected format is: organizationSlug/databaseName")
    ∧ ('/' ∉ "acme".data ∧ "acme" ++ "/" ++ "orders/eu" = "acme/orders/eu") :=
  ⟨(ExtractDbIdFromImportStateId_error_iff "acme").2.1 (by decide),
   (ExtractDbIdFromImportStateId_error_iff "acme/orders/eu").2.2 "acme" "orders/eu"
      (by decide)⟩

end provider
